import Mathlib

/-!
Fwog: pipeline registry and render session

A shallow embedding of `src/detail/PipelineManager.cpp` (the content-addressed
pipeline registry) and `src/Rendering.cpp` (the render session), followed by
theorems about them.

Conventions of the embedding

* `size_t` is 64 bits wide; a `size_t` value is a `Nat` below `2 ^ 64` and every
  arithmetic step of the hash is reduced modulo `2 ^ 64` explicitly.
* `uint32_t`, enumeration and `bool` fields are `Nat`/`Bool`; a `float` field is
  the `Nat` of its IEEE-754 bit pattern (the code only copies and hashes floats).
* File-scope globals (`gPipelines`, `isRendering`, ...) become explicit state.
* A failed `GSDF_ASSERT`/`assert` ends the program: the operation returns
  `Except.error` and there is no state afterwards.
* Every OpenGL call is appended to a trace kept in the session state.
-/

namespace hashing

/-- The number of values of `std::size_t` (64-bit target). -/
def SIZE_MOD : Nat := 2 ^ 64

/-- The specialisations of `std::hash` used by `PipelineManager.cpp`. They belong to
the C++ standard library, not to the repository, and are implementation-defined, so
the embedding takes them as a parameter. -/
structure StdHash where
  /-- The hash `std::hash<bool>`. -/
  ofBool : Bool → Nat
  /-- The hash `std::hash<uint32_t>`. -/
  ofUInt32 : Nat → Nat
  /-- The hash `std::hash<E>` for the enumeration types, on the underlying value. -/
  ofEnum : Nat → Nat
  /-- The hash `std::hash<float>`, on the bit pattern. -/
  ofFloat : Nat → Nat
  /-- The hash `std::hash<size_t>`. -/
  ofSize : Nat → Nat

/-- The `std::hash` of libc++: the identity on `bool`, integers and enumerations;
for `float` the bit pattern, except that `0.0f` and `-0.0f` both hash to `0`.
(libstdc++ agrees on every type but `float`.) -/
def libcxxHash : StdHash where
  ofBool := fun b => if b then 1 else 0
  ofUInt32 := fun v => v
  ofEnum := fun v => v
  ofFloat := fun bits => if bits = 0 ∨ bits = 0x80000000 then 0 else bits
  ofSize := fun v => v

/-- `hashing::hash_combine(seed, v)`:
`seed ^= std::hash<T>()(v) + 0x9e3779b9 + (seed << 6) + (seed >> 2);`
with `stdHash` standing for `std::hash<T>()`. Returns the new seed. -/
def hash_combine {T : Type} (stdHash : T → Nat) (seed : Nat) (v : T) : Nat :=
  seed ^^^ ((stdHash v % SIZE_MOD + 0x9e3779b9 + (seed <<< 6) % SIZE_MOD + (seed >>> 2)) % SIZE_MOD)

end hashing

namespace GFX

/-- The handle `GraphicsPipeline`: a single integer `id`. -/
structure GraphicsPipeline where
  id : Nat
deriving DecidableEq

/-- The struct `InputAssemblyState`. -/
structure InputAssemblyState where
  topology : Nat
  primitiveRestartEnable : Bool
deriving DecidableEq

/-- The struct `VertexInputBindingDescription`: one vertex-binding descriptor. -/
structure VertexInputBindingDescription where
  location : Nat
  binding : Nat
  format : Nat
  offset : Nat
deriving DecidableEq

/-- The struct `VertexInputState` of a caller-owned description (a span, here its
contents in order). -/
structure VertexInputState where
  vertexBindingDescriptions : List VertexInputBindingDescription
deriving DecidableEq

/-- The struct `VertexInputStateOwning` of a stored description (a vector). -/
structure VertexInputStateOwning where
  vertexBindingDescriptions : List VertexInputBindingDescription
deriving DecidableEq

/-- The struct `RasterizationState`. -/
structure RasterizationState where
  depthClampEnable : Bool
  polygonMode : Nat
  cullMode : Nat
  frontFace : Nat
  depthBiasEnable : Bool
  depthBiasConstantFactor : Nat
  depthBiasSlopeFactor : Nat
  lineWidth : Nat
  pointSize : Nat
deriving DecidableEq

/-- The struct `DepthStencilState` (stencil state is not implemented in the source). -/
structure DepthStencilState where
  depthTestEnable : Bool
  depthWriteEnable : Bool
deriving DecidableEq

/-- The struct `ColorComponentFlags`: the write mask, read through `.flags`. -/
structure ColorComponentFlags where
  flags : Nat
deriving DecidableEq

/-- The struct `ColorBlendAttachmentState`: one blend-attachment descriptor. -/
structure ColorBlendAttachmentState where
  blendEnable : Bool
  srcColorBlendFactor : Nat
  dstColorBlendFactor : Nat
  colorBlendOp : Nat
  srcAlphaBlendFactor : Nat
  dstAlphaBlendFactor : Nat
  alphaBlendOp : Nat
  colorWriteMask : ColorComponentFlags
deriving DecidableEq

/-- A `float[4]` array, by its four elements `[0]`, `[1]`, `[2]`, `[3]`. -/
structure Float4 where
  e0 : Nat
  e1 : Nat
  e2 : Nat
  e3 : Nat
deriving DecidableEq

/-- The struct `ColorBlendState` of a caller-owned description. -/
structure ColorBlendState where
  logicOpEnable : Bool
  logicOp : Nat
  attachments : List ColorBlendAttachmentState
  blendConstants : Float4
deriving DecidableEq

/-- The struct `ColorBlendStateOwning` of a stored description. -/
structure ColorBlendStateOwning where
  logicOpEnable : Bool
  logicOp : Nat
  attachments : List ColorBlendAttachmentState
  blendConstants : Float4
deriving DecidableEq

/-- The struct `GraphicsPipelineInfo`: the pipeline description handed in by the caller. -/
structure GraphicsPipelineInfo where
  shaderProgram : Nat
  inputAssemblyState : InputAssemblyState
  vertexInputState : VertexInputState
  rasterizationState : RasterizationState
  depthStencilState : DepthStencilState
  colorBlendState : ColorBlendState
deriving DecidableEq

/-- The struct `GraphicsPipelineInfoOwning`: the copy kept by the registry. -/
structure GraphicsPipelineInfoOwning where
  shaderProgram : Nat
  inputAssemblyState : InputAssemblyState
  vertexInputState : VertexInputStateOwning
  rasterizationState : RasterizationState
  depthStencilState : DepthStencilState
  colorBlendState : ColorBlendStateOwning
deriving DecidableEq

namespace detail

open hashing

/-- The map `gPipelines`: `std::unordered_map<GraphicsPipeline, GraphicsPipelineInfoOwning>`,
as the partial function from keys to stored values (keys of an `unordered_map` are
unique and its iteration order is never used by the source). `m k = none` is
`gPipelines.find(k) == gPipelines.end()`. -/
abbrev PipelineMap := GraphicsPipeline → Option GraphicsPipelineInfoOwning

/-- The registry at program start: `gPipelines` is empty. -/
def emptyPipelines : PipelineMap := fun _ => none

/-- The tuple hash `hashing::hash<decltype(rtup)>{}(rtup)` of `HashPipelineInfo`: seed `0`,
then `hash_combine` of the twenty fixed-size fields in tuple order. -/
def hashRtup (H : StdHash) (info : GraphicsPipelineInfo) : Nat :=
  let seed := 0
  let seed := hash_combine H.ofUInt32 seed info.shaderProgram
  let seed := hash_combine H.ofBool seed info.inputAssemblyState.primitiveRestartEnable
  let seed := hash_combine H.ofEnum seed info.inputAssemblyState.topology
  let seed := hash_combine H.ofBool seed info.rasterizationState.depthClampEnable
  let seed := hash_combine H.ofEnum seed info.rasterizationState.polygonMode
  let seed := hash_combine H.ofEnum seed info.rasterizationState.cullMode
  let seed := hash_combine H.ofEnum seed info.rasterizationState.frontFace
  let seed := hash_combine H.ofBool seed info.rasterizationState.depthBiasEnable
  let seed := hash_combine H.ofFloat seed info.rasterizationState.depthBiasConstantFactor
  let seed := hash_combine H.ofFloat seed info.rasterizationState.depthBiasSlopeFactor
  let seed := hash_combine H.ofFloat seed info.rasterizationState.lineWidth
  let seed := hash_combine H.ofFloat seed info.rasterizationState.pointSize
  let seed := hash_combine H.ofBool seed info.depthStencilState.depthTestEnable
  let seed := hash_combine H.ofBool seed info.depthStencilState.depthWriteEnable
  let seed := hash_combine H.ofBool seed info.colorBlendState.logicOpEnable
  let seed := hash_combine H.ofEnum seed info.colorBlendState.logicOp
  let seed := hash_combine H.ofFloat seed info.colorBlendState.blendConstants.e0
  let seed := hash_combine H.ofFloat seed info.colorBlendState.blendConstants.e1
  let seed := hash_combine H.ofFloat seed info.colorBlendState.blendConstants.e2
  let seed := hash_combine H.ofFloat seed info.colorBlendState.blendConstants.e3
  seed

/-- The tuple hash `hashing::hash<decltype(dtup)>{}(dtup)` of one vertex-binding descriptor:
`(binding, format, location, offset)`. -/
def hashDtup (H : StdHash) (desc : VertexInputBindingDescription) : Nat :=
  let seed := 0
  let seed := hash_combine H.ofUInt32 seed desc.binding
  let seed := hash_combine H.ofEnum seed desc.format
  let seed := hash_combine H.ofUInt32 seed desc.location
  let seed := hash_combine H.ofUInt32 seed desc.offset
  seed

/-- The tuple hash `hashing::hash<decltype(cctup)>{}(cctup)` of one blend attachment. -/
def hashCctup (H : StdHash) (attachment : ColorBlendAttachmentState) : Nat :=
  let seed := 0
  let seed := hash_combine H.ofBool seed attachment.blendEnable
  let seed := hash_combine H.ofEnum seed attachment.srcColorBlendFactor
  let seed := hash_combine H.ofEnum seed attachment.dstColorBlendFactor
  let seed := hash_combine H.ofEnum seed attachment.colorBlendOp
  let seed := hash_combine H.ofEnum seed attachment.srcAlphaBlendFactor
  let seed := hash_combine H.ofEnum seed attachment.dstAlphaBlendFactor
  let seed := hash_combine H.ofEnum seed attachment.alphaBlendOp
  let seed := hash_combine H.ofUInt32 seed attachment.colorWriteMask.flags
  seed

/-- The function `HashPipelineInfo`: the hash of the fixed-size state, then one
`hash_combine` per vertex-binding descriptor in order, then one per blend attachment
in order. -/
def HashPipelineInfo (H : StdHash) (info : GraphicsPipelineInfo) : GraphicsPipeline :=
  let hashVal := hashRtup H info
  let hashVal := info.vertexInputState.vertexBindingDescriptions.foldl
    (fun hashVal desc => hash_combine H.ofSize hashVal (hashDtup H desc)) hashVal
  let hashVal := info.colorBlendState.attachments.foldl
    (fun hashVal attachment => hash_combine H.ofSize hashVal (hashCctup H attachment)) hashVal
  { id := hashVal }

/-- The function `MakePipelineInfoOwning`: copies every field; the two spans are copied into
vectors element by element, in order. -/
def MakePipelineInfoOwning (info : GraphicsPipelineInfo) : GraphicsPipelineInfoOwning :=
  { shaderProgram := info.shaderProgram
    inputAssemblyState := info.inputAssemblyState
    vertexInputState := { vertexBindingDescriptions := info.vertexInputState.vertexBindingDescriptions }
    rasterizationState := info.rasterizationState
    depthStencilState := info.depthStencilState
    colorBlendState :=
      { logicOpEnable := info.colorBlendState.logicOpEnable
        logicOp := info.colorBlendState.logicOp
        attachments := info.colorBlendState.attachments
        blendConstants :=
          { e0 := info.colorBlendState.blendConstants.e0
            e1 := info.colorBlendState.blendConstants.e1
            e2 := info.colorBlendState.blendConstants.e2
            e3 := info.colorBlendState.blendConstants.e3 } } }

/-- The function `CompileGraphicsPipelineInternal`: returns the `std::optional` result and
the registry afterwards. When the key is found the stored key `it->first` is returned, which
compares equal to `pipeline`; otherwise the owning copy is inserted under `pipeline`. -/
def CompileGraphicsPipelineInternal (H : StdHash) (gPipelines : PipelineMap)
    (info : GraphicsPipelineInfo) : Option GraphicsPipeline × PipelineMap :=
  let pipeline := HashPipelineInfo H info
  match gPipelines pipeline with
  | some _ => (some pipeline, gPipelines)
  | none =>
    let owning := MakePipelineInfoOwning info
    (some pipeline, fun k => if k = pipeline then some owning else gPipelines k)

/-- The function `GetGraphicsPipelineInternal`: the stored value, or `none` for `nullptr`. -/
def GetGraphicsPipelineInternal (gPipelines : PipelineMap) (pipeline : GraphicsPipeline) :
    Option GraphicsPipelineInfoOwning :=
  match gPipelines pipeline with
  | some owning => some owning
  | none => none

/-- The function `DestroyGraphicsPipelineInternal`: returns whether the key was present and
the registry afterwards, with that entry erased. -/
def DestroyGraphicsPipelineInternal (gPipelines : PipelineMap) (pipeline : GraphicsPipeline) :
    Bool × PipelineMap :=
  match gPipelines pipeline with
  | none => (false, gPipelines)
  | some _ => (true, fun k => if k = pipeline then none else gPipelines k)

end detail

/-! ## The translation tables and OpenGL -/

/-- The enumeration `detail::GlFormatClass`, switched on by `BindGraphicsPipeline`. -/
inductive GlFormatClass where
  | FLOAT
  | INT
  | LONG
deriving DecidableEq

/-- The enumeration `detail::GlBaseTypeClass`, switched on by `BeginRendering`. -/
inductive GlBaseTypeClass where
  | FLOAT
  | SINT
  | UINT
deriving DecidableEq

/-- Modelled from the spec: the header `gsdf/detail/ApiToEnum.h` and the enumerators named in
`Rendering.cpp` are not part of the sources at hand. The spec (section 6) gives the translation
tables as pure, total mappings from a format or enumeration value to its native equivalent, the
vertex format class as one of float/int/long and the clear-value class as one of
float/signed/unsigned. The embedding takes the tables and the enumerator values as a parameter. -/
structure ApiToEnum where
  FormatToTypeGL : Nat → Nat
  FormatToSizeGL : Nat → Nat
  IsFormatNormalizedGL : Nat → Bool
  FormatToFormatClass : Nat → GlFormatClass
  FormatToBaseTypeClass : Nat → GlBaseTypeClass
  FormatToGL : Nat → Nat
  PolygonModeToGL : Nat → Nat
  CullModeToGL : Nat → Nat
  FrontFaceToGL : Nat → Nat
  LogicOpToGL : Nat → Nat
  BlendFactorToGL : Nat → Nat
  BlendOpToGL : Nat → Nat
  PrimitiveTopologyToGL : Nat → Nat
  IndexTypeToGL : Nat → Nat
  /-- The enumerator `CullMode::NONE`. -/
  CullMode_NONE : Nat
  /-- The enumerator `ColorComponentFlag::NONE`. -/
  ColorComponentFlag_NONE : Nat
  /-- The enumerator `ColorComponentFlag::R_BIT`. -/
  ColorComponentFlag_R_BIT : Nat
  /-- The enumerator `ColorComponentFlag::G_BIT`. -/
  ColorComponentFlag_G_BIT : Nat
  /-- The enumerator `ColorComponentFlag::B_BIT`. -/
  ColorComponentFlag_B_BIT : Nat
  /-- The enumerator `ColorComponentFlag::A_BIT`. -/
  ColorComponentFlag_A_BIT : Nat

/-- A table set for evaluating the session on concrete inputs: every enumeration maps to itself,
every format is a four-component float format, and the colour-component bits are 1, 2, 4, 8. -/
def sampleApi : ApiToEnum where
  FormatToTypeGL := fun _ => 0x1406
  FormatToSizeGL := fun _ => 4
  IsFormatNormalizedGL := fun _ => false
  FormatToFormatClass := fun _ => GlFormatClass.FLOAT
  FormatToBaseTypeClass := fun _ => GlBaseTypeClass.FLOAT
  FormatToGL := fun f => f
  PolygonModeToGL := fun v => v
  CullModeToGL := fun v => v
  FrontFaceToGL := fun v => v
  LogicOpToGL := fun v => v
  BlendFactorToGL := fun v => v
  BlendOpToGL := fun v => v
  PrimitiveTopologyToGL := fun v => v
  IndexTypeToGL := fun v => v
  CullMode_NONE := 0
  ColorComponentFlag_NONE := 0
  ColorComponentFlag_R_BIT := 1
  ColorComponentFlag_G_BIT := 2
  ColorComponentFlag_B_BIT := 4
  ColorComponentFlag_A_BIT := 8

/-! The OpenGL constants used by `Rendering.cpp`, with their values from the OpenGL registry. -/

def GL_FRAMEBUFFER : Nat := 0x8D40
def GL_COLOR_BUFFER_BIT : Nat := 0x4000
def GL_DEPTH_BUFFER_BIT : Nat := 0x100
def GL_STENCIL_BUFFER_BIT : Nat := 0x400
def GL_COLOR_ATTACHMENT0 : Nat := 0x8CE0
def GL_DEPTH_ATTACHMENT : Nat := 0x8D00
def GL_STENCIL_ATTACHMENT : Nat := 0x8D20
def GL_DEPTH_STENCIL_ATTACHMENT : Nat := 0x821A
def GL_COLOR : Nat := 0x1800
def GL_DEPTH : Nat := 0x1801
def GL_STENCIL : Nat := 0x1802
def GL_DEPTH_STENCIL : Nat := 0x84F9
def GL_PRIMITIVE_RESTART_FIXED_INDEX : Nat := 0x8D69
def GL_DEPTH_CLAMP : Nat := 0x864F
def GL_FRONT_AND_BACK : Nat := 0x0408
def GL_CULL_FACE : Nat := 0x0B44
def GL_POLYGON_OFFSET_FILL : Nat := 0x8037
def GL_POLYGON_OFFSET_LINE : Nat := 0x2A02
def GL_POLYGON_OFFSET_POINT : Nat := 0x2A01
def GL_DEPTH_TEST : Nat := 0x0B71
def GL_COLOR_LOGIC_OP : Nat := 0x0BF2
def GL_UNIFORM_BUFFER : Nat := 0x8A11
def GL_READ_WRITE : Nat := 0x88BA
def GL_TRUE : Nat := 1

/-- A four-element `int` array. -/
structure Int4 where
  e0 : Int
  e1 : Int
  e2 : Int
  e3 : Int
deriving DecidableEq

set_option maxHeartbeats 4000000 in
/-- One call into OpenGL, with the arguments the source passes. Each argument is recorded with
the value it has in the source, before the implicit conversion to the parameter type of the
OpenGL function: the `uint64_t` stride of `Cmd::BindVertexBuffer`, say, is recorded in full,
although `GLsizei` is 32 bits wide. A pointer argument is given by the values it points to;
`glCreate*` carries the object name the driver wrote back. -/
inductive GLCall where
  | glEnable (cap : Nat)
  | glDisable (cap : Nat)
  | glBindFramebuffer (target framebuffer : Nat)
  | glClearColor (red green blue alpha : Nat)
  | glClearDepthf (d : Nat)
  | glClearStencil (s : Int)
  | glClear (mask : Nat)
  | glDeleteFramebuffers (framebuffer : Nat)
  | glCreateFramebuffers (framebuffer : Nat)
  | glNamedFramebufferTexture (framebuffer attachment texture level : Nat)
  | glNamedFramebufferDrawBuffers (framebuffer n : Nat) (bufs : List Nat)
  | glClearNamedFramebufferfv (framebuffer buffer drawbuffer : Nat) (value : List Nat)
  | glClearNamedFramebufferiv (framebuffer buffer drawbuffer : Nat) (value : List Int)
  | glClearNamedFramebufferuiv (framebuffer buffer drawbuffer : Nat) (value : List Nat)
  | glClearNamedFramebufferfi (framebuffer buffer drawbuffer : Nat) (depth : Nat) (stencil : Int)
  | glViewport (x y : Int) (width height : Nat)
  | glDepthRangef (n f : Nat)
  | glUseProgram (program : Nat)
  | glDeleteVertexArrays (array : Nat)
  | glCreateVertexArrays (array : Nat)
  | glEnableVertexArrayAttrib (vaobj index : Nat)
  | glVertexArrayAttribBinding (vaobj attribindex bindingindex : Nat)
  | glVertexArrayAttribFormat (vaobj attribindex size type : Nat) (normalized : Bool)
      (relativeoffset : Nat)
  | glVertexArrayAttribIFormat (vaobj attribindex size type relativeoffset : Nat)
  | glVertexArrayAttribLFormat (vaobj attribindex size type relativeoffset : Nat)
  | glBindVertexArray (array : Nat)
  | glPolygonMode (face mode : Nat)
  | glCullFace (mode : Nat)
  | glFrontFace (mode : Nat)
  | glPolygonOffset (factor units : Nat)
  | glLineWidth (width : Nat)
  | glPointSize (size : Nat)
  | glDepthMask (flag : Bool)
  | glLogicOp (opcode : Nat)
  | glBlendColor (red green blue alpha : Nat)
  | glBlendFuncSeparatei (buf srcRGB dstRGB srcAlpha dstAlpha : Nat)
  | glBlendEquationSeparatei (buf modeRGB modeAlpha : Nat)
  | glColorMaski (buf : Nat) (red green blue alpha : Bool)
  | glVertexArrayVertexBuffer (vaobj bindingindex buffer offset stride : Nat)
  | glVertexArrayElementBuffer (vaobj buffer : Nat)
  | glDrawArraysInstancedBaseInstance (mode first count instancecount baseinstance : Nat)
  | glDrawElementsInstancedBaseVertexBaseInstance (mode count type indices instancecount : Nat)
      (basevertex : Int) (baseinstance : Nat)
  | glBindBufferRange (target index buffer offset size : Nat)
  | glBindTextureUnit (unit texture : Nat)
  | glBindSampler (unit sampler : Nat)
  | glBindImageTexture (unit texture level layered layer access format : Nat)
deriving DecidableEq

/-! ## The render session: data -/

/-- Modelled from the spec: the class `TextureView` (declared in a header that is not part of
the sources at hand) is an opaque object with a native handle and format/level metadata.
`addr` is the address of the object, which is what a `TextureView*` comparison compares. -/
structure TextureView where
  addr : Nat
  handle : Nat
  format : Nat
  numLevels : Nat
deriving DecidableEq

/-- The class `Buffer`, by the native handle that `Handle()` returns. -/
structure Buffer where
  handle : Nat
deriving DecidableEq

/-- The class `TextureSampler`, by the native handle that `Handle()` returns. -/
structure TextureSampler where
  handle : Nat
deriving DecidableEq

/-- The union `ClearColorValue`, by the three members the source reads: `f`, `i` and `ui`. -/
structure ClearColorValue where
  f : Float4
  i : Int4
  ui : Float4
deriving DecidableEq

/-- The struct `ClearDepthStencilValue`. -/
structure ClearDepthStencilValue where
  depth : Nat
  stencil : Int
deriving DecidableEq

/-- The union `ClearValue`, by the two members the source reads. -/
structure ClearValue where
  color : ClearColorValue
  depthStencil : ClearDepthStencilValue
deriving DecidableEq

/-- The struct `RenderAttachment`. -/
structure RenderAttachment where
  textureView : TextureView
  clearValue : ClearValue
  clearOnLoad : Bool
deriving DecidableEq

/-- The struct `Viewport`: `drawRect.offset`, `drawRect.extent`, `minDepth`, `maxDepth`. -/
structure Viewport where
  offsetX : Int
  offsetY : Int
  extentWidth : Nat
  extentHeight : Nat
  minDepth : Nat
  maxDepth : Nat
deriving DecidableEq

/-- The struct `RenderInfo`: the render-target set of a custom-target pass. -/
structure RenderInfo where
  viewport : Viewport
  colorAttachments : List RenderAttachment
  depthAttachment : Option RenderAttachment
  stencilAttachment : Option RenderAttachment
deriving DecidableEq

/-- The struct `SwapchainRenderInfo`: the clear settings of a default-target pass. -/
structure SwapchainRenderInfo where
  clearColorOnLoad : Bool
  clearColorValue : ClearColorValue
  clearDepthOnLoad : Bool
  clearDepthValue : Nat
  clearStencilOnLoad : Bool
  clearStencilValue : Int
deriving DecidableEq

/-- The file-scope state of `Rendering.cpp`, together with the trace of the OpenGL calls made so
far (oldest first). `sLastRenderInfo = none` is the null pointer; otherwise it holds the address
of the `RenderInfo` last passed to `BeginRendering`. -/
structure RenderState where
  isRendering : Bool
  isPipelineBound : Bool
  isIndexBufferBound : Bool
  sLastGraphicsPipeline : GraphicsPipeline
  sLastRenderInfo : Option Nat
  sTopology : Nat
  sIndexType : Nat
  sVao : Nat
  sFbo : Nat
  glCalls : List GLCall
deriving DecidableEq

/-- The session state at program start, as initialised at file scope. -/
def initialRenderState : RenderState where
  isRendering := false
  isPipelineBound := false
  isIndexBufferBound := false
  sLastGraphicsPipeline := { id := 0 }
  sLastRenderInfo := none
  sTopology := 0
  sIndexType := 0
  sVao := 0
  sFbo := 0
  glCalls := []

/-- The ways an operation ends the program instead of returning. -/
inductive Failure where
  /-- A failed `GSDF_ASSERT` or `assert`. -/
  | assertion
deriving DecidableEq

/-- Appends OpenGL calls to the trace. -/
def RenderState.gl (s : RenderState) (calls : List GLCall) : RenderState :=
  { s with glCalls := s.glCalls ++ calls }

/-- The helper `GLEnableOrDisable(state, value)`. -/
def GLEnableOrDisable (state : Nat) (value : Bool) : GLCall :=
  if value then GLCall.glEnable state else GLCall.glDisable state

/-- The elements of a `float[4]`, as the array a pointer argument points to. -/
def Float4.toList (v : Float4) : List Nat := [v.e0, v.e1, v.e2, v.e3]

/-- The elements of an `int[4]`, as the array a pointer argument points to. -/
def Int4.toList (v : Int4) : List Int := [v.e0, v.e1, v.e2, v.e3]

/-! ## The render session: pass begin and end -/

/-- The function `BeginSwapchainRendering`. -/
def BeginSwapchainRendering (s : RenderState) (renderInfo : SwapchainRenderInfo) :
    Except Failure RenderState :=
  if s.isRendering then Except.error Failure.assertion else
  let s := { s with isRendering := true }
  let s := { s with sLastRenderInfo := none }
  let s := s.gl [GLCall.glBindFramebuffer GL_FRAMEBUFFER 0]
  let ri := renderInfo
  let clearBuffers := 0
  let (s, clearBuffers) :=
    if ri.clearColorOnLoad then
      let f := ri.clearColorValue.f
      (s.gl [GLCall.glClearColor f.e0 f.e1 f.e2 f.e3], clearBuffers ||| GL_COLOR_BUFFER_BIT)
    else (s, clearBuffers)
  let (s, clearBuffers) :=
    if ri.clearDepthOnLoad then
      (s.gl [GLCall.glClearDepthf ri.clearDepthValue], clearBuffers ||| GL_DEPTH_BUFFER_BIT)
    else (s, clearBuffers)
  let (s, clearBuffers) :=
    if ri.clearStencilOnLoad then
      (s.gl [GLCall.glClearStencil ri.clearStencilValue], clearBuffers ||| GL_STENCIL_BUFFER_BIT)
    else (s, clearBuffers)
  Except.ok (s.gl [GLCall.glClear clearBuffers])

/-- The first loop of `BeginRendering`, from index `i` on: attaches each colour target and
collects `drawBuffers`. The attachment enumerator `GL_COLOR_ATTACHMENT0 + i` is a 32-bit
`GLenum`. -/
def attachColorLoop (sFbo : Nat) : Nat → List RenderAttachment → List GLCall × List Nat
  | _, [] => ([], [])
  | i, attachment :: rest =>
    let r := attachColorLoop sFbo (i + 1) rest
    (GLCall.glNamedFramebufferTexture sFbo ((GL_COLOR_ATTACHMENT0 + i) % 2 ^ 32)
        attachment.textureView.handle 0 :: r.1,
      (GL_COLOR_ATTACHMENT0 + i) % 2 ^ 32 :: r.2)

/-- The body of the second loop of `BeginRendering` for the attachment at index `i`. -/
def clearColorCall (api : ApiToEnum) (sFbo i : Nat) (attachment : RenderAttachment) :
    List GLCall :=
  if attachment.clearOnLoad then
    let format := attachment.textureView.format
    let baseTypeClass := api.FormatToBaseTypeClass format
    match baseTypeClass with
    | GlBaseTypeClass.FLOAT =>
      [GLCall.glClearNamedFramebufferfv sFbo GL_COLOR i attachment.clearValue.color.f.toList]
    | GlBaseTypeClass.SINT =>
      [GLCall.glClearNamedFramebufferiv sFbo GL_COLOR i attachment.clearValue.color.i.toList]
    | GlBaseTypeClass.UINT =>
      [GLCall.glClearNamedFramebufferuiv sFbo GL_COLOR i attachment.clearValue.color.ui.toList]
  else []

/-- The second loop of `BeginRendering`, from index `i` on: clears the flagged colour targets. -/
def clearColorLoop (api : ApiToEnum) (sFbo : Nat) : Nat → List RenderAttachment → List GLCall
  | _, [] => []
  | i, attachment :: rest =>
    clearColorCall api sFbo i attachment ++ clearColorLoop api sFbo (i + 1) rest

/-- The depth/stencil attachment of `BeginRendering` (the `if`/`else if` chain on which of the
two attachments are present and whether they point to the same texture view). -/
def attachDepthStencil (sFbo : Nat) (ri : RenderInfo) : List GLCall :=
  match ri.depthAttachment, ri.stencilAttachment with
  | some depth, some stencil =>
    if depth.textureView.addr = stencil.textureView.addr then
      [GLCall.glNamedFramebufferTexture sFbo GL_DEPTH_STENCIL_ATTACHMENT depth.textureView.handle 0]
    else
      [GLCall.glNamedFramebufferTexture sFbo GL_DEPTH_ATTACHMENT depth.textureView.handle 0]
  | some depth, none =>
    [GLCall.glNamedFramebufferTexture sFbo GL_DEPTH_ATTACHMENT depth.textureView.handle 0]
  | none, some stencil =>
    [GLCall.glNamedFramebufferTexture sFbo GL_STENCIL_ATTACHMENT stencil.textureView.handle 0]
  | none, none => []

/-- The depth/stencil clear of `BeginRendering` (the second `if`/`else if` chain). -/
def clearDepthStencil (sFbo : Nat) (ri : RenderInfo) : List GLCall :=
  match ri.depthAttachment, ri.stencilAttachment with
  | some depth, some stencil =>
    if depth.clearOnLoad && stencil.clearOnLoad then
      [GLCall.glClearNamedFramebufferfi sFbo GL_DEPTH_STENCIL 0
        depth.clearValue.depthStencil.depth depth.clearValue.depthStencil.stencil]
    else if depth.clearOnLoad && !stencil.clearOnLoad then
      [GLCall.glClearNamedFramebufferfv sFbo GL_DEPTH 0 [depth.clearValue.depthStencil.depth]]
    else if stencil.clearOnLoad && !depth.clearOnLoad then
      [GLCall.glClearNamedFramebufferiv sFbo GL_STENCIL 0 [stencil.clearValue.depthStencil.stencil]]
    else []
  | some depth, none =>
    if depth.clearOnLoad then
      [GLCall.glClearNamedFramebufferfv sFbo GL_DEPTH 0 [depth.clearValue.depthStencil.depth]]
    else []
  | none, some stencil =>
    if stencil.clearOnLoad then
      [GLCall.glClearNamedFramebufferiv sFbo GL_STENCIL 0 [stencil.clearValue.depthStencil.stencil]]
    else []
  | none, none => []

/-- The function `BeginRendering`. `renderInfoAddr` is the address `&renderInfo` of the argument
and `newFbo` the framebuffer name that `glCreateFramebuffers` writes into `sFbo`. -/
def BeginRendering (api : ApiToEnum) (s : RenderState) (renderInfoAddr : Nat)
    (renderInfo : RenderInfo) (newFbo : Nat) : Except Failure RenderState :=
  if s.isRendering then Except.error Failure.assertion else
  let s := { s with isRendering := true }
  if s.sLastRenderInfo = some renderInfoAddr then Except.ok s else
  let s := { s with sLastRenderInfo := some renderInfoAddr }
  let ri := renderInfo
  let s := s.gl [GLCall.glDeleteFramebuffers s.sFbo]
  let s := { s with sFbo := newFbo }
  let s := s.gl [GLCall.glCreateFramebuffers s.sFbo]
  let attached := attachColorLoop s.sFbo 0 ri.colorAttachments
  let s := s.gl attached.1
  let drawBuffers := attached.2
  let s := s.gl [GLCall.glNamedFramebufferDrawBuffers s.sFbo drawBuffers.length drawBuffers]
  let s := s.gl (clearColorLoop api s.sFbo 0 ri.colorAttachments)
  let s := s.gl (attachDepthStencil s.sFbo ri)
  let s := s.gl (clearDepthStencil s.sFbo ri)
  let s := s.gl [GLCall.glViewport ri.viewport.offsetX ri.viewport.offsetY
    ri.viewport.extentWidth ri.viewport.extentHeight]
  let s := s.gl [GLCall.glDepthRangef ri.viewport.minDepth ri.viewport.maxDepth]
  Except.ok (s.gl [GLCall.glBindFramebuffer GL_FRAMEBUFFER s.sFbo])

/-- The function `EndRendering`. -/
def EndRendering (s : RenderState) : Except Failure RenderState :=
  if !s.isRendering then Except.error Failure.assertion else
  let s := { s with isPipelineBound := false }
  let s := { s with isRendering := false }
  let s := { s with isIndexBufferBound := false }
  Except.ok s

/-! ## The render session: commands -/

namespace Cmd

/-- The vertex-input loop of `BindGraphicsPipeline`, from index `i` on. -/
def vertexInputLoop (api : ApiToEnum) (sVao : Nat) :
    Nat → List VertexInputBindingDescription → List GLCall
  | _, [] => []
  | i, desc :: rest =>
    let type := api.FormatToTypeGL desc.format
    let size := api.FormatToSizeGL desc.format
    let normalized := api.IsFormatNormalizedGL desc.format
    let internalType := api.FormatToFormatClass desc.format
    [GLCall.glEnableVertexArrayAttrib sVao i,
     GLCall.glVertexArrayAttribBinding sVao i desc.binding,
     match internalType with
     | GlFormatClass.FLOAT => GLCall.glVertexArrayAttribFormat sVao i size type normalized desc.offset
     | GlFormatClass.INT => GLCall.glVertexArrayAttribIFormat sVao i size type desc.offset
     | GlFormatClass.LONG => GLCall.glVertexArrayAttribLFormat sVao i size type desc.offset]
    ++ vertexInputLoop api sVao (i + 1) rest

/-- The colour-blend loop of `BindGraphicsPipeline`, from index `i` on. -/
def blendAttachmentLoop (api : ApiToEnum) : Nat → List ColorBlendAttachmentState → List GLCall
  | _, [] => []
  | i, cba :: rest =>
    [GLCall.glBlendFuncSeparatei i
       (api.BlendFactorToGL cba.srcColorBlendFactor)
       (api.BlendFactorToGL cba.dstColorBlendFactor)
       (api.BlendFactorToGL cba.srcAlphaBlendFactor)
       (api.BlendFactorToGL cba.dstAlphaBlendFactor),
     GLCall.glBlendEquationSeparatei i (api.BlendOpToGL cba.colorBlendOp)
       (api.BlendOpToGL cba.alphaBlendOp),
     GLCall.glColorMaski i
       (cba.colorWriteMask.flags &&& api.ColorComponentFlag_R_BIT != api.ColorComponentFlag_NONE)
       (cba.colorWriteMask.flags &&& api.ColorComponentFlag_G_BIT != api.ColorComponentFlag_NONE)
       (cba.colorWriteMask.flags &&& api.ColorComponentFlag_B_BIT != api.ColorComponentFlag_NONE)
       (cba.colorWriteMask.flags &&& api.ColorComponentFlag_A_BIT != api.ColorComponentFlag_NONE)]
    ++ blendAttachmentLoop api (i + 1) rest

/-- The "shader program" and "input assembly" sections of `BindGraphicsPipeline`. -/
def applyInputAssembly (s : RenderState) (pipelineState : GraphicsPipelineInfoOwning) :
    RenderState :=
  let s := s.gl [GLCall.glUseProgram pipelineState.shaderProgram]
  let ias := pipelineState.inputAssemblyState
  let s := s.gl [GLEnableOrDisable GL_PRIMITIVE_RESTART_FIXED_INDEX ias.primitiveRestartEnable]
  { s with sTopology := ias.topology }

/-- The "vertex input" section of `BindGraphicsPipeline`. `newVao` is the vertex-array name that
`glCreateVertexArrays` writes into `sVao`. -/
def applyVertexInput (api : ApiToEnum) (s : RenderState)
    (pipelineState : GraphicsPipelineInfoOwning) (newVao : Nat) : RenderState :=
  let vis := pipelineState.vertexInputState
  let s := s.gl [GLCall.glDeleteVertexArrays s.sVao]
  let s := { s with sVao := newVao }
  let s := s.gl [GLCall.glCreateVertexArrays s.sVao]
  let s := s.gl (vertexInputLoop api s.sVao 0 vis.vertexBindingDescriptions)
  s.gl [GLCall.glBindVertexArray s.sVao]

/-- The "rasterization" section of `BindGraphicsPipeline`. -/
def applyRasterization (api : ApiToEnum) (s : RenderState)
    (pipelineState : GraphicsPipelineInfoOwning) : RenderState :=
  let rs := pipelineState.rasterizationState
  let s := s.gl [GLEnableOrDisable GL_DEPTH_CLAMP rs.depthClampEnable]
  let s := s.gl [GLCall.glPolygonMode GL_FRONT_AND_BACK (api.PolygonModeToGL rs.polygonMode)]
  let s := s.gl [GLEnableOrDisable GL_CULL_FACE (rs.cullMode != api.CullMode_NONE)]
  let s := s.gl (if rs.cullMode != api.CullMode_NONE
    then [GLCall.glCullFace (api.CullModeToGL rs.cullMode)] else [])
  let s := s.gl [GLCall.glFrontFace (api.FrontFaceToGL rs.frontFace)]
  let s := s.gl [GLEnableOrDisable GL_POLYGON_OFFSET_FILL rs.depthBiasEnable]
  let s := s.gl [GLEnableOrDisable GL_POLYGON_OFFSET_LINE rs.depthBiasEnable]
  let s := s.gl [GLEnableOrDisable GL_POLYGON_OFFSET_POINT rs.depthBiasEnable]
  let s := s.gl (if rs.depthBiasEnable
    then [GLCall.glPolygonOffset rs.depthBiasSlopeFactor rs.depthBiasConstantFactor] else [])
  let s := s.gl [GLCall.glLineWidth rs.lineWidth]
  s.gl [GLCall.glPointSize rs.pointSize]

/-- The "depth + stencil" section of `BindGraphicsPipeline` (stencil state is a TODO there). -/
def applyDepthStencil (s : RenderState) (pipelineState : GraphicsPipelineInfoOwning) :
    RenderState :=
  let ds := pipelineState.depthStencilState
  let s := s.gl [GLEnableOrDisable GL_DEPTH_TEST ds.depthTestEnable]
  s.gl [GLCall.glDepthMask ds.depthWriteEnable]

/-- The "color blending state" section of `BindGraphicsPipeline`. -/
def applyColorBlend (api : ApiToEnum) (s : RenderState)
    (pipelineState : GraphicsPipelineInfoOwning) : RenderState :=
  let cb := pipelineState.colorBlendState
  let s := s.gl [GLEnableOrDisable GL_COLOR_LOGIC_OP cb.logicOpEnable]
  let s := s.gl (if cb.logicOpEnable then [GLCall.glLogicOp (api.LogicOpToGL cb.logicOp)] else [])
  let s := s.gl [GLCall.glBlendColor cb.blendConstants.e0 cb.blendConstants.e1
    cb.blendConstants.e2 cb.blendConstants.e3]
  s.gl (blendAttachmentLoop api 0 cb.attachments)

/-- The function `Cmd::BindGraphicsPipeline`: sets `isPipelineBound`, looks the handle up and
asserts that it was found, returns early when the handle is the last-bound one, and otherwise
records it and applies the sections of the pipeline state in the order of the source. -/
def BindGraphicsPipeline (api : ApiToEnum) (gPipelines : detail.PipelineMap) (s : RenderState)
    (pipeline : GraphicsPipeline) (newVao : Nat) : Except Failure RenderState :=
  let s := { s with isPipelineBound := true }
  match detail.GetGraphicsPipelineInternal gPipelines pipeline with
  | none => Except.error Failure.assertion
  | some pipelineState =>
    if s.sLastGraphicsPipeline = pipeline then Except.ok s else
    let s := { s with sLastGraphicsPipeline := pipeline }
    let s := applyInputAssembly s pipelineState
    let s := applyVertexInput api s pipelineState newVao
    let s := applyRasterization api s pipelineState
    let s := applyDepthStencil s pipelineState
    let s := applyColorBlend api s pipelineState
    Except.ok s

/-- The function `Cmd::BindVertexBuffer`. -/
def BindVertexBuffer (s : RenderState) (bindingIndex : Nat) (buffer : Buffer)
    (offset stride : Nat) : Except Failure RenderState :=
  if !s.isRendering then Except.error Failure.assertion else
  Except.ok (s.gl [GLCall.glVertexArrayVertexBuffer s.sVao bindingIndex buffer.handle offset stride])

/-- The function `Cmd::BindIndexBuffer`. -/
def BindIndexBuffer (s : RenderState) (buffer : Buffer) (indexType : Nat) :
    Except Failure RenderState :=
  if !s.isRendering then Except.error Failure.assertion else
  let s := { s with isIndexBufferBound := true }
  let s := { s with sIndexType := indexType }
  Except.ok (s.gl [GLCall.glVertexArrayElementBuffer s.sVao buffer.handle])

/-- The function `Cmd::Draw`. -/
def Draw (api : ApiToEnum) (s : RenderState)
    (vertexCount instanceCount firstVertex firstInstance : Nat) : Except Failure RenderState :=
  if !s.isRendering then Except.error Failure.assertion else
  Except.ok (s.gl [GLCall.glDrawArraysInstancedBaseInstance
    (api.PrimitiveTopologyToGL s.sTopology) firstVertex vertexCount instanceCount firstInstance])

/-- The function `Cmd::DrawIndexed`. -/
def DrawIndexed (api : ApiToEnum) (s : RenderState) (indexCount instanceCount firstIndex : Nat)
    (vertexOffset : Int) (firstInstance : Nat) : Except Failure RenderState :=
  if !(s.isRendering && s.isIndexBufferBound) then Except.error Failure.assertion else
  Except.ok (s.gl [GLCall.glDrawElementsInstancedBaseVertexBaseInstance
    (api.PrimitiveTopologyToGL s.sTopology) indexCount (api.IndexTypeToGL s.sIndexType)
    firstIndex instanceCount vertexOffset firstInstance])

/-- The function `Cmd::BindUniformBuffer`. -/
def BindUniformBuffer (s : RenderState) (index : Nat) (buffer : Buffer) (offset size : Nat) :
    Except Failure RenderState :=
  if !s.isRendering then Except.error Failure.assertion else
  Except.ok (s.gl [GLCall.glBindBufferRange GL_UNIFORM_BUFFER index buffer.handle offset size])

/-- The function `Cmd::BindStorageBuffer` (the source targets `GL_UNIFORM_BUFFER` here too). -/
def BindStorageBuffer (s : RenderState) (index : Nat) (buffer : Buffer) (offset size : Nat) :
    Except Failure RenderState :=
  if !s.isRendering then Except.error Failure.assertion else
  Except.ok (s.gl [GLCall.glBindBufferRange GL_UNIFORM_BUFFER index buffer.handle offset size])

/-- The function `Cmd::BindSampledImage`. -/
def BindSampledImage (s : RenderState) (index : Nat) (textureView : TextureView)
    (sampler : TextureSampler) : Except Failure RenderState :=
  if !s.isRendering then Except.error Failure.assertion else
  let s := s.gl [GLCall.glBindTextureUnit index textureView.handle]
  Except.ok (s.gl [GLCall.glBindSampler index sampler.handle])

/-- The function `Cmd::BindImage`. -/
def BindImage (api : ApiToEnum) (s : RenderState) (index : Nat) (textureView : TextureView)
    (level : Nat) : Except Failure RenderState :=
  if !s.isRendering then Except.error Failure.assertion else
  if !(level < textureView.numLevels) then Except.error Failure.assertion else
  Except.ok (s.gl [GLCall.glBindImageTexture index textureView.handle level GL_TRUE 0
    GL_READ_WRITE (api.FormatToGL textureView.format)])

end Cmd

/-! ## Programs: sequences of operations on the registry and the session -/

/-- The whole mutable state: the registry `gPipelines` and the session state. -/
structure World where
  gPipelines : detail.PipelineMap
  render : RenderState

/-- The state at program start: empty registry, idle session. -/
def initialWorld : World where
  gPipelines := detail.emptyPipelines
  render := initialRenderState

/-- One call of an operation of the two source files, with its arguments (and, for the two
operations that create an OpenGL object, the name the driver hands back). -/
inductive Op where
  | CompileGraphicsPipeline (info : GraphicsPipelineInfo)
  | DestroyGraphicsPipeline (pipeline : GraphicsPipeline)
  | BeginSwapchainRendering (renderInfo : SwapchainRenderInfo)
  | BeginRendering (renderInfoAddr : Nat) (renderInfo : RenderInfo) (newFbo : Nat)
  | EndRendering
  | BindGraphicsPipeline (pipeline : GraphicsPipeline) (newVao : Nat)
  | BindVertexBuffer (bindingIndex : Nat) (buffer : Buffer) (offset stride : Nat)
  | BindIndexBuffer (buffer : Buffer) (indexType : Nat)
  | Draw (vertexCount instanceCount firstVertex firstInstance : Nat)
  | DrawIndexed (indexCount instanceCount firstIndex : Nat) (vertexOffset : Int)
      (firstInstance : Nat)
  | BindUniformBuffer (index : Nat) (buffer : Buffer) (offset size : Nat)
  | BindStorageBuffer (index : Nat) (buffer : Buffer) (offset size : Nat)
  | BindSampledImage (index : Nat) (textureView : TextureView) (sampler : TextureSampler)
  | BindImage (index : Nat) (textureView : TextureView) (level : Nat)

/-- Whether the operation is one of the two pass-begin variants. -/
def Op.isBeginPass : Op → Bool
  | Op.BeginSwapchainRendering _ => true
  | Op.BeginRendering _ _ _ => true
  | _ => false

/-- Whether the operation is `Cmd::BindIndexBuffer`. -/
def Op.isBindIndexBuffer : Op → Bool
  | Op.BindIndexBuffer _ _ => true
  | _ => false

/-- Whether the operation is one of the nine binding and draw commands of namespace `Cmd`. -/
def Op.isCmd : Op → Bool
  | Op.BindGraphicsPipeline _ _ => true
  | Op.BindVertexBuffer _ _ _ _ => true
  | Op.BindIndexBuffer _ _ => true
  | Op.Draw _ _ _ _ => true
  | Op.DrawIndexed _ _ _ _ _ => true
  | Op.BindUniformBuffer _ _ _ _ => true
  | Op.BindStorageBuffer _ _ _ _ => true
  | Op.BindSampledImage _ _ _ => true
  | Op.BindImage _ _ _ => true
  | _ => false

/-- Puts a new session state into the world. -/
def World.withRender (w : World) (r : Except Failure RenderState) : Except Failure World :=
  match r with
  | Except.ok s => Except.ok { w with render := s }
  | Except.error e => Except.error e

/-- Runs one operation. -/
def step (H : hashing.StdHash) (api : ApiToEnum) (w : World) : Op → Except Failure World
  | Op.CompileGraphicsPipeline info =>
    Except.ok { w with
      gPipelines := (detail.CompileGraphicsPipelineInternal H w.gPipelines info).2 }
  | Op.DestroyGraphicsPipeline pipeline =>
    Except.ok { w with
      gPipelines := (detail.DestroyGraphicsPipelineInternal w.gPipelines pipeline).2 }
  | Op.BeginSwapchainRendering renderInfo =>
    w.withRender (BeginSwapchainRendering w.render renderInfo)
  | Op.BeginRendering renderInfoAddr renderInfo newFbo =>
    w.withRender (BeginRendering api w.render renderInfoAddr renderInfo newFbo)
  | Op.EndRendering => w.withRender (EndRendering w.render)
  | Op.BindGraphicsPipeline pipeline newVao =>
    w.withRender (Cmd.BindGraphicsPipeline api w.gPipelines w.render pipeline newVao)
  | Op.BindVertexBuffer bindingIndex buffer offset stride =>
    w.withRender (Cmd.BindVertexBuffer w.render bindingIndex buffer offset stride)
  | Op.BindIndexBuffer buffer indexType =>
    w.withRender (Cmd.BindIndexBuffer w.render buffer indexType)
  | Op.Draw vertexCount instanceCount firstVertex firstInstance =>
    w.withRender (Cmd.Draw api w.render vertexCount instanceCount firstVertex firstInstance)
  | Op.DrawIndexed indexCount instanceCount firstIndex vertexOffset firstInstance =>
    w.withRender
      (Cmd.DrawIndexed api w.render indexCount instanceCount firstIndex vertexOffset firstInstance)
  | Op.BindUniformBuffer index buffer offset size =>
    w.withRender (Cmd.BindUniformBuffer w.render index buffer offset size)
  | Op.BindStorageBuffer index buffer offset size =>
    w.withRender (Cmd.BindStorageBuffer w.render index buffer offset size)
  | Op.BindSampledImage index textureView sampler =>
    w.withRender (Cmd.BindSampledImage w.render index textureView sampler)
  | Op.BindImage index textureView level =>
    w.withRender (Cmd.BindImage api w.render index textureView level)

/-- Runs a sequence of operations in order, stopping at the first failure. -/
def run (H : hashing.StdHash) (api : ApiToEnum) (w : World) : List Op → Except Failure World
  | [] => Except.ok w
  | op :: rest =>
    match step H api w op with
    | Except.ok w1 => run H api w1 rest
    | Except.error e => Except.error e

/-! ## Sample inputs, for evaluating the operations on concrete values -/

/-- A blend attachment with blending off and all four colour components written. -/
def sampleAttachment : ColorBlendAttachmentState where
  blendEnable := false
  srcColorBlendFactor := 1
  dstColorBlendFactor := 0
  colorBlendOp := 0
  srcAlphaBlendFactor := 1
  dstAlphaBlendFactor := 0
  alphaBlendOp := 0
  colorWriteMask := { flags := 15 }

/-- The description `info` with its vertex-binding sequence replaced by `bindings`, every other
field kept. -/
def GraphicsPipelineInfo.withBindings (info : GraphicsPipelineInfo)
    (bindings : List VertexInputBindingDescription) : GraphicsPipelineInfo :=
  { info with vertexInputState := { vertexBindingDescriptions := bindings } }

/-- A description with no vertex bindings and one blend attachment: shader program 3, back-face
culling, depth test and depth write on, line width and point size `1.0f`. -/
def sampleBase : GraphicsPipelineInfo where
  shaderProgram := 3
  inputAssemblyState := { topology := 3, primitiveRestartEnable := false }
  vertexInputState := { vertexBindingDescriptions := [] }
  rasterizationState :=
    { depthClampEnable := false, polygonMode := 0, cullMode := 2, frontFace := 1,
      depthBiasEnable := false, depthBiasConstantFactor := 0, depthBiasSlopeFactor := 0,
      lineWidth := 0x3F800000, pointSize := 0x3F800000 }
  depthStencilState := { depthTestEnable := true, depthWriteEnable := true }
  colorBlendState :=
    { logicOpEnable := false, logicOp := 0, attachments := [sampleAttachment],
      blendConstants := { e0 := 0, e1 := 0, e2 := 0, e3 := 0 } }

/-- The sample description with the given vertex bindings. -/
def sampleInfo (bindings : List VertexInputBindingDescription) : GraphicsPipelineInfo :=
  sampleBase.withBindings bindings

/-- A vertex-binding descriptor: binding 0, format 0, location 0, byte offset 64. -/
def descA1 : VertexInputBindingDescription :=
  { location := 0, binding := 0, format := 0, offset := 64 }

/-- A vertex-binding descriptor: binding 0, format 0, location 1, byte offset 1. -/
def descB1 : VertexInputBindingDescription :=
  { location := 1, binding := 0, format := 0, offset := 1 }

/-- A vertex-binding descriptor: binding 0, format 0, location 0, byte offset 0. -/
def descA2 : VertexInputBindingDescription :=
  { location := 0, binding := 0, format := 0, offset := 0 }

/-- A vertex-binding descriptor: binding 0, format 0, location 2, byte offset 130. -/
def descB2 : VertexInputBindingDescription :=
  { location := 2, binding := 0, format := 0, offset := 130 }

/-- A vertex-binding descriptor: binding 0, format 5, location 0, byte offset 0. -/
def descP : VertexInputBindingDescription :=
  { location := 0, binding := 0, format := 5, offset := 0 }

/-- A vertex-binding descriptor: binding 0, format 5, location 1, byte offset 12. -/
def descQ : VertexInputBindingDescription :=
  { location := 1, binding := 0, format := 5, offset := 12 }

/-- The registry after compiling `sampleInfo [descP, descQ]` at program start. -/
def sampleRegistry : detail.PipelineMap :=
  (detail.CompileGraphicsPipelineInternal hashing.libcxxHash detail.emptyPipelines
    (sampleInfo [descP, descQ])).2

/-- The handle of `sampleInfo [descP, descQ]` under the libc++ hash. -/
def sampleHandle : GraphicsPipeline :=
  detail.HashPipelineInfo hashing.libcxxHash (sampleInfo [descP, descQ])

/-- A default-target pass description that clears colour only. -/
def sampleSwapchainInfo : SwapchainRenderInfo where
  clearColorOnLoad := true
  clearColorValue :=
    { f := { e0 := 0, e1 := 0, e2 := 0, e3 := 0x3F800000 }
      i := { e0 := 0, e1 := 0, e2 := 0, e3 := 0 }
      ui := { e0 := 0, e1 := 0, e2 := 0, e3 := 0 } }
  clearDepthOnLoad := false
  clearDepthValue := 0
  clearStencilOnLoad := false
  clearStencilValue := 0

/-- A render-target set with no attachments and a 640 by 480 viewport. -/
def sampleRenderInfo : RenderInfo where
  viewport :=
    { offsetX := 0, offsetY := 0, extentWidth := 640, extentHeight := 480,
      minDepth := 0, maxDepth := 0x3F800000 }
  colorAttachments := []
  depthAttachment := none
  stencilAttachment := none

/-- A session state with a pass active and nothing bound. -/
def activeRenderState : RenderState :=
  { initialRenderState with isRendering := true }

/-- Whether the operation is `EndRendering`. -/
def Op.isEndPass : Op → Bool
  | Op.EndRendering => true
  | _ => false

/-- In the history `ops` (oldest first), `post` is the list of the operations that came after
the most recent pass begin, and that pass has not been ended: `ops` is some `pre`, then a pass
begin, then `post`, and `post` holds neither a pass begin nor `EndRendering`. -/
def SinceLastBegin (ops post : List Op) : Prop :=
  ∃ pre b, ops = pre ++ b :: post ∧ b.isBeginPass = true ∧
    ∀ o ∈ post, o.isBeginPass = false ∧ o.isEndPass = false

/-- An index buffer with native handle 7. -/
def sampleBuffer : Buffer := { handle := 7 }

/-- A program: begin a default-target pass, bind an index buffer. -/
def sampleIndexedOps : List Op :=
  [Op.BeginSwapchainRendering sampleSwapchainInfo, Op.BindIndexBuffer sampleBuffer 0]

/-- The world after running `sampleIndexedOps` from program start. -/
def sampleIndexedWorld : World :=
  match run hashing.libcxxHash sampleApi initialWorld sampleIndexedOps with
  | Except.ok w => w
  | Except.error _ => initialWorld

/-- A program: compile the sample description, bind its handle while no pass is active, then
begin a default-target pass. -/
def bindThenSwapchainOps : List Op :=
  [Op.CompileGraphicsPipeline (sampleInfo [descP, descQ]),
   Op.BindGraphicsPipeline sampleHandle 1,
   Op.BeginSwapchainRendering sampleSwapchainInfo]

/-- A program: compile the sample description, bind its handle while no pass is active, then
begin a custom-target pass. -/
def bindThenCustomOps : List Op :=
  [Op.CompileGraphicsPipeline (sampleInfo [descP, descQ]),
   Op.BindGraphicsPipeline sampleHandle 1,
   Op.BeginRendering 4096 sampleRenderInfo 1]

/-! ## Reading the registry and the trace -/

/-- The description that views a stored copy: each span is the owned vector. This is the argument
`HashPipelineInfo` takes when the hash of a stored copy is recomputed. -/
def GraphicsPipelineInfoOwning.toInfo (c : GraphicsPipelineInfoOwning) : GraphicsPipelineInfo :=
  { shaderProgram := c.shaderProgram
    inputAssemblyState := c.inputAssemblyState
    vertexInputState :=
      { vertexBindingDescriptions := c.vertexInputState.vertexBindingDescriptions }
    rasterizationState := c.rasterizationState
    depthStencilState := c.depthStencilState
    colorBlendState :=
      { logicOpEnable := c.colorBlendState.logicOpEnable
        logicOp := c.colorBlendState.logicOp
        attachments := c.colorBlendState.attachments
        blendConstants := c.colorBlendState.blendConstants } }

/-- Whether the operation is one of the two registry operations that change `gPipelines`. -/
def Op.isRegistryOp : Op → Bool
  | Op.CompileGraphicsPipeline _ => true
  | Op.DestroyGraphicsPipeline _ => true
  | _ => false

/-- The OpenGL calls `Cmd::BindGraphicsPipeline` makes when it applies the stored pipeline
`pipelineState`, in source order; `oldVao` is `sVao` before the call and `newVao` the name that
`glCreateVertexArrays` hands back. -/
def Cmd.pipelineStateCalls (api : ApiToEnum) (pipelineState : GraphicsPipelineInfoOwning)
    (oldVao newVao : Nat) : List GLCall :=
  [GLCall.glUseProgram pipelineState.shaderProgram,
   GLEnableOrDisable GL_PRIMITIVE_RESTART_FIXED_INDEX
     pipelineState.inputAssemblyState.primitiveRestartEnable,
   GLCall.glDeleteVertexArrays oldVao,
   GLCall.glCreateVertexArrays newVao] ++
  Cmd.vertexInputLoop api newVao 0 pipelineState.vertexInputState.vertexBindingDescriptions ++
  [GLCall.glBindVertexArray newVao,
   GLEnableOrDisable GL_DEPTH_CLAMP pipelineState.rasterizationState.depthClampEnable,
   GLCall.glPolygonMode GL_FRONT_AND_BACK
     (api.PolygonModeToGL pipelineState.rasterizationState.polygonMode),
   GLEnableOrDisable GL_CULL_FACE (pipelineState.rasterizationState.cullMode != api.CullMode_NONE)] ++
  (if pipelineState.rasterizationState.cullMode != api.CullMode_NONE
    then [GLCall.glCullFace (api.CullModeToGL pipelineState.rasterizationState.cullMode)]
    else []) ++
  [GLCall.glFrontFace (api.FrontFaceToGL pipelineState.rasterizationState.frontFace),
   GLEnableOrDisable GL_POLYGON_OFFSET_FILL pipelineState.rasterizationState.depthBiasEnable,
   GLEnableOrDisable GL_POLYGON_OFFSET_LINE pipelineState.rasterizationState.depthBiasEnable,
   GLEnableOrDisable GL_POLYGON_OFFSET_POINT pipelineState.rasterizationState.depthBiasEnable] ++
  (if pipelineState.rasterizationState.depthBiasEnable
    then [GLCall.glPolygonOffset pipelineState.rasterizationState.depthBiasSlopeFactor
      pipelineState.rasterizationState.depthBiasConstantFactor]
    else []) ++
  [GLCall.glLineWidth pipelineState.rasterizationState.lineWidth,
   GLCall.glPointSize pipelineState.rasterizationState.pointSize,
   GLEnableOrDisable GL_DEPTH_TEST pipelineState.depthStencilState.depthTestEnable,
   GLCall.glDepthMask pipelineState.depthStencilState.depthWriteEnable,
   GLEnableOrDisable GL_COLOR_LOGIC_OP pipelineState.colorBlendState.logicOpEnable] ++
  (if pipelineState.colorBlendState.logicOpEnable
    then [GLCall.glLogicOp (api.LogicOpToGL pipelineState.colorBlendState.logicOp)]
    else []) ++
  [GLCall.glBlendColor pipelineState.colorBlendState.blendConstants.e0
     pipelineState.colorBlendState.blendConstants.e1
     pipelineState.colorBlendState.blendConstants.e2
     pipelineState.colorBlendState.blendConstants.e3] ++
  Cmd.blendAttachmentLoop api 0 pipelineState.colorBlendState.attachments

/-- The OpenGL calls `BeginRendering` makes when it reconfigures the target, in source order;
`oldFbo` is `sFbo` before the call and `newFbo` the name that `glCreateFramebuffers` hands
back. -/
def reconfigureCalls (api : ApiToEnum) (oldFbo newFbo : Nat) (ri : RenderInfo) : List GLCall :=
  [GLCall.glDeleteFramebuffers oldFbo, GLCall.glCreateFramebuffers newFbo] ++
  (attachColorLoop newFbo 0 ri.colorAttachments).1 ++
  [GLCall.glNamedFramebufferDrawBuffers newFbo
    (attachColorLoop newFbo 0 ri.colorAttachments).2.length
    (attachColorLoop newFbo 0 ri.colorAttachments).2] ++
  clearColorLoop api newFbo 0 ri.colorAttachments ++
  attachDepthStencil newFbo ri ++
  clearDepthStencil newFbo ri ++
  [GLCall.glViewport ri.viewport.offsetX ri.viewport.offsetY ri.viewport.extentWidth
     ri.viewport.extentHeight,
   GLCall.glDepthRangef ri.viewport.minDepth ri.viewport.maxDepth,
   GLCall.glBindFramebuffer GL_FRAMEBUFFER newFbo]

/-- The clear mask `clearBuffers` that `BeginSwapchainRendering` builds up. -/
def swapchainClearMask (ri : SwapchainRenderInfo) : Nat :=
  let clearBuffers := 0
  let clearBuffers :=
    if ri.clearColorOnLoad then clearBuffers ||| GL_COLOR_BUFFER_BIT else clearBuffers
  let clearBuffers :=
    if ri.clearDepthOnLoad then clearBuffers ||| GL_DEPTH_BUFFER_BIT else clearBuffers
  let clearBuffers :=
    if ri.clearStencilOnLoad then clearBuffers ||| GL_STENCIL_BUFFER_BIT else clearBuffers
  clearBuffers

/-- The OpenGL calls `BeginSwapchainRendering` makes, in source order. -/
def swapchainCalls (ri : SwapchainRenderInfo) : List GLCall :=
  [GLCall.glBindFramebuffer GL_FRAMEBUFFER 0] ++
  (if ri.clearColorOnLoad
    then [GLCall.glClearColor ri.clearColorValue.f.e0 ri.clearColorValue.f.e1
      ri.clearColorValue.f.e2 ri.clearColorValue.f.e3]
    else []) ++
  (if ri.clearDepthOnLoad then [GLCall.glClearDepthf ri.clearDepthValue] else []) ++
  (if ri.clearStencilOnLoad then [GLCall.glClearStencil ri.clearStencilValue] else []) ++
  [GLCall.glClear (swapchainClearMask ri)]

/-- Whether the call clears buffers: `glClear` or one of the `glClearNamedFramebuffer*` calls. -/
def GLCall.isClear : GLCall → Bool
  | GLCall.glClear _ => true
  | GLCall.glClearNamedFramebufferfv _ _ _ _ => true
  | GLCall.glClearNamedFramebufferiv _ _ _ _ => true
  | GLCall.glClearNamedFramebufferuiv _ _ _ _ => true
  | GLCall.glClearNamedFramebufferfi _ _ _ _ _ => true
  | _ => false

/-- Whether the call clears the depth buffer, the stencil buffer or both of a framebuffer. -/
def GLCall.isDepthStencilClear : GLCall → Bool
  | GLCall.glClearNamedFramebufferfi _ _ _ _ _ => true
  | GLCall.glClearNamedFramebufferfv _ buffer _ _ => buffer == GL_DEPTH
  | GLCall.glClearNamedFramebufferiv _ buffer _ _ => buffer == GL_STENCIL
  | _ => false

/-- Whether the call attaches a texture to a framebuffer. -/
def GLCall.isFramebufferTexture : GLCall → Bool
  | GLCall.glNamedFramebufferTexture _ _ _ _ => true
  | _ => false

/-- Whether the call can change which framebuffer is bound: `glBindFramebuffer`, and
`glDeleteFramebuffers`, which unbinds the framebuffer it deletes. -/
def GLCall.changesBinding : GLCall → Bool
  | GLCall.glBindFramebuffer _ _ => true
  | GLCall.glDeleteFramebuffers _ => true
  | _ => false

/-- The framebuffer that one more call leaves bound, given the one bound before it: a bind
binds its argument, deleting the bound framebuffer falls back to the default framebuffer `0`,
every other call changes nothing. -/
def boundAfter (bound : Nat) : GLCall → Nat
  | GLCall.glBindFramebuffer _ framebuffer => framebuffer
  | GLCall.glDeleteFramebuffers framebuffer => if framebuffer = bound then 0 else bound
  | _ => bound

/-- The framebuffer bound after the calls of a trace, as OpenGL tracks it, starting from the
default framebuffer `0`. -/
def boundFramebuffer (calls : List GLCall) : Nat :=
  calls.foldl boundAfter 0

/-- Whether the depth attachment is present and flagged for clearing. -/
def RenderInfo.depthFlagged (ri : RenderInfo) : Bool :=
  match ri.depthAttachment with
  | some depth => depth.clearOnLoad
  | none => false

/-- Whether the stencil attachment is present and flagged for clearing. -/
def RenderInfo.stencilFlagged (ri : RenderInfo) : Bool :=
  match ri.stencilAttachment with
  | some stencil => stencil.clearOnLoad
  | none => false

/-- In the history `ops` (oldest first) a custom-target pass is active: the most recent pass
begin is a `BeginRendering` and no `EndRendering` came after it. -/
def CustomPassActive (ops : List Op) : Prop :=
  ∃ pre renderInfoAddr renderInfo newFbo post,
    ops = pre ++ Op.BeginRendering renderInfoAddr renderInfo newFbo :: post ∧
    ∀ o ∈ post, o.isBeginPass = false ∧ o.isEndPass = false

/-- Whether the framebuffer name the operation got from `glCreateFramebuffers` is not `0`.
OpenGL reserves the name `0` for the default framebuffer and never hands it out. -/
def Op.freshFramebufferNonzero : Op → Bool
  | Op.BeginRendering _ _ newFbo => newFbo != 0
  | _ => true

/-- Key consistency of a registry: every entry stored under a handle holds a copy whose
recomputed hash is that handle. -/
def detail.KeyConsistent (H : hashing.StdHash) (gPipelines : detail.PipelineMap) : Prop :=
  ∀ (h : GraphicsPipeline) (c : GraphicsPipelineInfoOwning),
    gPipelines h = some c → detail.HashPipelineInfo H c.toInfo = h

/-- A program of registry operations: compile two descriptions with the same handle, compile a
third description, destroy the handle of the third. -/
def registryOps : List Op :=
  [Op.CompileGraphicsPipeline (sampleInfo [descA1]),
   Op.CompileGraphicsPipeline (sampleInfo [descB1]),
   Op.CompileGraphicsPipeline (sampleInfo [descP, descQ]),
   Op.DestroyGraphicsPipeline sampleHandle]

/-- The session state after binding the sample handle at program start. -/
def boundRenderState : RenderState :=
  match Cmd.BindGraphicsPipeline sampleApi sampleRegistry initialRenderState sampleHandle 1 with
  | Except.ok s => s
  | Except.error _ => initialRenderState

/-- A program: compile the sample description, bind its handle, destroy the handle. -/
def bindThenDestroyOps : List Op :=
  [Op.CompileGraphicsPipeline (sampleInfo [descP, descQ]),
   Op.BindGraphicsPipeline sampleHandle 1,
   Op.DestroyGraphicsPipeline sampleHandle]

/-- A depth texture view at address `0x1000` with native handle 11. -/
def sampleDepthView : TextureView := { addr := 0x1000, handle := 11, format := 40, numLevels := 1 }

/-- A stencil texture view at address `0x2000` with native handle 12. -/
def sampleStencilView : TextureView :=
  { addr := 0x2000, handle := 12, format := 41, numLevels := 1 }

/-- A clear value with the given depth (bit pattern) and stencil; the colour members are zero. -/
def sampleClearValue (depth : Nat) (stencil : Int) : ClearValue where
  color :=
    { f := { e0 := 0, e1 := 0, e2 := 0, e3 := 0 }
      i := { e0 := 0, e1 := 0, e2 := 0, e3 := 0 }
      ui := { e0 := 0, e1 := 0, e2 := 0, e3 := 0 } }
  depthStencil := { depth := depth, stencil := stencil }

/-- A render-target set with no colour attachment, a depth attachment on one image (clear to
depth `1.0f`, stencil 0) and a stencil attachment on another image (clear to stencil 255), both
flagged for clearing. -/
def splitDepthStencilInfo : RenderInfo where
  viewport :=
    { offsetX := 0, offsetY := 0, extentWidth := 640, extentHeight := 480,
      minDepth := 0, maxDepth := 0x3F800000 }
  colorAttachments := []
  depthAttachment :=
    some { textureView := sampleDepthView, clearValue := sampleClearValue 0x3F800000 0,
           clearOnLoad := true }
  stencilAttachment :=
    some { textureView := sampleStencilView, clearValue := sampleClearValue 0 255,
           clearOnLoad := true }

/-- A render-target set with only a stencil attachment, flagged for clearing to 255. -/
def stencilOnlyInfo : RenderInfo where
  viewport :=
    { offsetX := 0, offsetY := 0, extentWidth := 640, extentHeight := 480,
      minDepth := 0, maxDepth := 0x3F800000 }
  colorAttachments := []
  depthAttachment := none
  stencilAttachment :=
    some { textureView := sampleStencilView, clearValue := sampleClearValue 0 255,
           clearOnLoad := true }

/-- A program: a custom-target pass, a default-target pass, then a custom-target pass on the
same render-target set. -/
def customSwapchainCustomOps : List Op :=
  [Op.BeginRendering 4096 sampleRenderInfo 1,
   Op.EndRendering,
   Op.BeginSwapchainRendering sampleSwapchainInfo,
   Op.EndRendering,
   Op.BeginRendering 4096 sampleRenderInfo 2]

/-- The world after running `customSwapchainCustomOps` from program start. -/
def customSwapchainCustomWorld : World :=
  match run hashing.libcxxHash sampleApi initialWorld customSwapchainCustomOps with
  | Except.ok w => w
  | Except.error _ => initialWorld

/-- Whether an operation ended the program by a failed assertion. -/
def Failed {α : Type} (r : Except Failure α) : Prop :=
  ∃ e, r = Except.error e

/-- The handle an operation passes to `Cmd::BindGraphicsPipeline`, when it is that operation. -/
def Op.boundPipeline : Op → Option GraphicsPipeline
  | Op.BindGraphicsPipeline pipeline _ => some pipeline
  | _ => none

/-- The handle of the most recent `Cmd::BindGraphicsPipeline` call in the history `ops` (oldest
first); `none` when the history holds no such call. -/
def lastBound (ops : List Op) : Option GraphicsPipeline :=
  (ops.filterMap Op.boundPipeline).getLast?

/-- A program: compile the sample description. -/
def compileOnlyOps : List Op :=
  [Op.CompileGraphicsPipeline (sampleInfo [descP, descQ])]

/-- The world after running `compileOnlyOps` from program start. -/
def compileOnlyWorld : World :=
  match run hashing.libcxxHash sampleApi initialWorld compileOnlyOps with
  | Except.ok w => w
  | Except.error _ => initialWorld

/-- The world after running `bindThenSwapchainOps` from program start. -/
def bindThenSwapchainWorld : World :=
  match run hashing.libcxxHash sampleApi initialWorld bindThenSwapchainOps with
  | Except.ok w => w
  | Except.error _ => initialWorld

/-- The handle of `sampleInfo [descA1]` under the libc++ hash. -/
def otherHandle : GraphicsPipeline :=
  detail.HashPipelineInfo hashing.libcxxHash (sampleInfo [descA1])

/-- A program: compile the sample description and a second description, then bind the handle of
the second. -/
def bindOtherOps : List Op :=
  [Op.CompileGraphicsPipeline (sampleInfo [descP, descQ]),
   Op.CompileGraphicsPipeline (sampleInfo [descA1]),
   Op.BindGraphicsPipeline otherHandle 1]

/-- The world after running `bindOtherOps` from program start. -/
def bindOtherWorld : World :=
  match run hashing.libcxxHash sampleApi initialWorld bindOtherOps with
  | Except.ok w => w
  | Except.error _ => initialWorld

/-- A description whose handle under the libc++ hash has id 0: shader program 3, no vertex
bindings, no blend attachments. -/
def zeroIdInfo : GraphicsPipelineInfo where
  shaderProgram := 3
  inputAssemblyState := { topology := 3, primitiveRestartEnable := false }
  vertexInputState := { vertexBindingDescriptions := [] }
  rasterizationState :=
    { depthClampEnable := false, polygonMode := 0, cullMode := 2, frontFace := 1,
      depthBiasEnable := false, depthBiasConstantFactor := 0, depthBiasSlopeFactor := 0,
      lineWidth := 0x3F800000, pointSize := 912054710 }
  depthStencilState := { depthTestEnable := true, depthWriteEnable := true }
  colorBlendState :=
    { logicOpEnable := false, logicOp := 0, attachments := [],
      blendConstants := { e0 := 0, e1 := 0, e2 := 0, e3 := 3201369566 } }

/-- A program: compile `zeroIdInfo`, begin a default-target pass. -/
def zeroIdOps : List Op :=
  [Op.CompileGraphicsPipeline zeroIdInfo, Op.BeginSwapchainRendering sampleSwapchainInfo]

/-- The world after running `zeroIdOps` from program start. -/
def zeroIdWorld : World :=
  match run hashing.libcxxHash sampleApi initialWorld zeroIdOps with
  | Except.ok w => w
  | Except.error _ => initialWorld

end GFX

/-! ## The pipeline registry -/

namespace GFX
namespace detail

open hashing

/-- The handle returned by `CompileGraphicsPipelineInternal` is the hash of the description, in
both branches. -/
theorem compile_fst (H : StdHash) (gPipelines : PipelineMap) (info : GraphicsPipelineInfo) :
    (CompileGraphicsPipelineInternal H gPipelines info).1 = some (HashPipelineInfo H info) := by
  unfold CompileGraphicsPipelineInternal
  cases h : gPipelines (HashPipelineInfo H info) <;> simp [h]

/-- The registry after `CompileGraphicsPipelineInternal` when the key was absent. -/
theorem compile_snd_absent (H : StdHash) (gPipelines : PipelineMap) (info : GraphicsPipelineInfo)
    (h : gPipelines (HashPipelineInfo H info) = none) :
    (CompileGraphicsPipelineInternal H gPipelines info).2 =
      fun k => if k = HashPipelineInfo H info then some (MakePipelineInfoOwning info)
        else gPipelines k := by
  unfold CompileGraphicsPipelineInternal
  simp [h]

/-- The registry after `CompileGraphicsPipelineInternal` when the key was present. -/
theorem compile_snd_present (H : StdHash) (gPipelines : PipelineMap) (info : GraphicsPipelineInfo)
    (c : GraphicsPipelineInfoOwning) (h : gPipelines (HashPipelineInfo H info) = some c) :
    (CompileGraphicsPipelineInternal H gPipelines info).2 = gPipelines := by
  unfold CompileGraphicsPipelineInternal
  simp [h]

/-- The lookup `GetGraphicsPipelineInternal` returns the map entry. -/
theorem get_eq (gPipelines : PipelineMap) (pipeline : GraphicsPipeline) :
    GetGraphicsPipelineInternal gPipelines pipeline = gPipelines pipeline := by
  unfold GetGraphicsPipelineInternal
  cases gPipelines pipeline <;> rfl

/-- The function `HashPipelineInfo` as one expression: the fold over the blend attachments of the
fold over the vertex bindings, started at the hash of the fixed-size state. -/
theorem HashPipelineInfo_eq (H : StdHash) (info : GraphicsPipelineInfo) :
    HashPipelineInfo H info = GraphicsPipeline.mk (List.foldl
        (fun hashVal attachment => hash_combine H.ofSize hashVal (hashCctup H attachment))
        (List.foldl (fun hashVal desc => hash_combine H.ofSize hashVal (hashDtup H desc))
          (hashRtup H info) info.vertexInputState.vertexBindingDescriptions)
        info.colorBlendState.attachments) := rfl

/-- Replacing the vertex bindings leaves the hash of the fixed-size state unchanged. -/
theorem hashRtup_withBindings (H : StdHash) (d : GraphicsPipelineInfo)
    (l : List VertexInputBindingDescription) : hashRtup H (d.withBindings l) = hashRtup H d := rfl

/-- The vertex bindings of `d.withBindings l` are `l`. -/
theorem withBindings_bindings (d : GraphicsPipelineInfo) (l : List VertexInputBindingDescription) :
    (d.withBindings l).vertexInputState.vertexBindingDescriptions = l := rfl

/-- The blend attachments of `d.withBindings l` are those of `d`. -/
theorem withBindings_attachments (d : GraphicsPipelineInfo)
    (l : List VertexInputBindingDescription) :
    (d.withBindings l).colorBlendState.attachments = d.colorBlendState.attachments := rfl

/-- The hash of a description with exactly two vertex bindings `[a, b]` is unchanged by swapping
them when the two descriptors have the same descriptor hash. -/
theorem hash_swap_of_dtup_eq (H : StdHash) (d : GraphicsPipelineInfo)
    (a b : VertexInputBindingDescription) (h : hashDtup H a = hashDtup H b) :
    HashPipelineInfo H (d.withBindings [a, b]) = HashPipelineInfo H (d.withBindings [b, a]) := by
  rw [HashPipelineInfo_eq, HashPipelineInfo_eq, hashRtup_withBindings, hashRtup_withBindings,
    withBindings_bindings, withBindings_bindings, withBindings_attachments,
    withBindings_attachments, List.foldl_cons, List.foldl_cons, List.foldl_nil,
    List.foldl_cons, List.foldl_cons, List.foldl_nil, h]

/-- C1, as stated, fails: under the libc++ hash the descriptions `sampleInfo [descA1]` and
`sampleInfo [descB1]` differ (in the location and the byte offset of their one vertex binding),
yet compiling the first at program start and then the second returns the same handle twice. -/
theorem C1_distinct_descriptions_same_handle :
    sampleInfo [descA1] ≠ sampleInfo [descB1] ∧
    (CompileGraphicsPipelineInternal libcxxHash emptyPipelines (sampleInfo [descA1])).1 =
      (CompileGraphicsPipelineInternal libcxxHash
        (CompileGraphicsPipelineInternal libcxxHash emptyPipelines (sampleInfo [descA1])).2
        (sampleInfo [descB1])).1 := by
  decide

/-- C1, amended: two descriptions that are equal in every fixed field and have equal
vertex-binding and blend-attachment sequences get the same handle from
`CompileGraphicsPipelineInternal`, whatever `std::hash` is and whatever the registry holds at
either call; and two calls return the same handle exactly when the hashes of the two
descriptions are equal. -/
theorem C1_equal_descriptions_same_handle (H : StdHash) (r1 r2 : PipelineMap)
    (d1 d2 : GraphicsPipelineInfo) :
    (d1 = d2 →
      (CompileGraphicsPipelineInternal H r1 d1).1 = (CompileGraphicsPipelineInternal H r2 d2).1) ∧
    ((CompileGraphicsPipelineInternal H r1 d1).1 = (CompileGraphicsPipelineInternal H r2 d2).1 ↔
      HashPipelineInfo H d1 = HashPipelineInfo H d2) := by
  refine ⟨fun h => ?_, ?_⟩
  · subst h
    rw [compile_fst, compile_fst]
  · rw [compile_fst, compile_fst]
    exact ⟨fun h => Option.some.inj h, fun h => by rw [h]⟩

/-- C1, amended, at a concrete input: `sampleInfo [descP, descQ]` compiled at program start and
compiled again in the registry that results. -/
theorem C1_equal_descriptions_same_handle_witness :
    (CompileGraphicsPipelineInternal libcxxHash emptyPipelines (sampleInfo [descP, descQ])).1 =
      (CompileGraphicsPipelineInternal libcxxHash sampleRegistry (sampleInfo [descP, descQ])).1 :=
  (C1_equal_descriptions_same_handle libcxxHash emptyPipelines sampleRegistry
    (sampleInfo [descP, descQ]) (sampleInfo [descP, descQ])).1 rfl

/-- C2: for every registry and every description, compiling the description and compiling it
again in the resulting registry both return a handle (never the empty optional), and the same
one. -/
theorem C2_compile_twice_same_handle (H : StdHash) (r : PipelineMap) (d : GraphicsPipelineInfo) :
    (CompileGraphicsPipelineInternal H r d).1 =
      (CompileGraphicsPipelineInternal H (CompileGraphicsPipelineInternal H r d).2 d).1 ∧
    (CompileGraphicsPipelineInternal H r d).1 ≠ none ∧
    (CompileGraphicsPipelineInternal H (CompileGraphicsPipelineInternal H r d).2 d).1 ≠ none := by
  simp [compile_fst]

/-- C3, as stated, fails: under the libc++ hash the descriptors `descA2` and `descB2` differ, yet
the description with the vertex bindings `[descA2, descB2]` and one blend attachment, compiled at
program start, and the description with the bindings swapped, compiled next, get the same
handle. -/
theorem C3_swapped_bindings_same_handle :
    descA2 ≠ descB2 ∧
    (CompileGraphicsPipelineInternal libcxxHash emptyPipelines
        (sampleBase.withBindings [descA2, descB2])).1 =
      (CompileGraphicsPipelineInternal libcxxHash
        (CompileGraphicsPipelineInternal libcxxHash emptyPipelines
          (sampleBase.withBindings [descA2, descB2])).2
        (sampleBase.withBindings [descB2, descA2])).1 := by
  decide

/-- C3, amended: in the scenario with the two vertex bindings `descP`, `descQ` and one blend
attachment, under the libc++ hash, the description with the bindings swapped gets a handle
different from the first; but for every `std::hash`, every description and every two descriptors
with the same descriptor hash, swapping the two bindings leaves the handle unchanged. -/
theorem C3_swapped_bindings_handle :
    (CompileGraphicsPipelineInternal libcxxHash emptyPipelines
        (sampleBase.withBindings [descP, descQ])).1 ≠
      (CompileGraphicsPipelineInternal libcxxHash
        (CompileGraphicsPipelineInternal libcxxHash emptyPipelines
          (sampleBase.withBindings [descP, descQ])).2
        (sampleBase.withBindings [descQ, descP])).1 ∧
    ∀ (H : StdHash) (r1 r2 : PipelineMap) (d : GraphicsPipelineInfo)
      (a b : VertexInputBindingDescription), hashDtup H a = hashDtup H b →
      (CompileGraphicsPipelineInternal H r1 (d.withBindings [a, b])).1 =
        (CompileGraphicsPipelineInternal H r2 (d.withBindings [b, a])).1 := by
  refine ⟨by decide, fun H r1 r2 d a b h => ?_⟩
  rw [compile_fst, compile_fst, hash_swap_of_dtup_eq H d a b h]

/-- C3, amended, at a concrete input: the second part applied to the distinct descriptors
`descA1` and `descB1`, whose descriptor hashes agree under the libc++ hash. -/
theorem C3_swapped_bindings_handle_witness :
    descA1 ≠ descB1 ∧
    (CompileGraphicsPipelineInternal libcxxHash emptyPipelines
        (sampleBase.withBindings [descA1, descB1])).1 =
      (CompileGraphicsPipelineInternal libcxxHash sampleRegistry
        (sampleBase.withBindings [descB1, descA1])).1 :=
  ⟨by decide, C3_swapped_bindings_handle.2 libcxxHash emptyPipelines sampleRegistry sampleBase
    descA1 descB1 (by decide)⟩

/-- C4: when the registry has no entry under the handle of description `d`, compiling `d`
returns a handle `h` under which the lookup finds a stored copy that agrees with `d` in every
fixed field and holds the same vertex-binding sequence and the same blend-attachment sequence;
the lookup of every other handle gives what it gave before. -/
theorem C4_compile_absent_stores_copy (H : StdHash) (r : PipelineMap) (d : GraphicsPipelineInfo)
    (habsent : GetGraphicsPipelineInternal r (HashPipelineInfo H d) = none) :
    ∃ h c, (CompileGraphicsPipelineInternal H r d).1 = some h ∧
      GetGraphicsPipelineInternal (CompileGraphicsPipelineInternal H r d).2 h = some c ∧
      c.shaderProgram = d.shaderProgram ∧
      c.inputAssemblyState = d.inputAssemblyState ∧
      c.rasterizationState = d.rasterizationState ∧
      c.depthStencilState = d.depthStencilState ∧
      c.colorBlendState.logicOpEnable = d.colorBlendState.logicOpEnable ∧
      c.colorBlendState.logicOp = d.colorBlendState.logicOp ∧
      c.colorBlendState.blendConstants = d.colorBlendState.blendConstants ∧
      c.vertexInputState.vertexBindingDescriptions =
        d.vertexInputState.vertexBindingDescriptions ∧
      c.colorBlendState.attachments = d.colorBlendState.attachments ∧
      ∀ k, k ≠ h →
        GetGraphicsPipelineInternal (CompileGraphicsPipelineInternal H r d).2 k =
          GetGraphicsPipelineInternal r k := by
  rw [get_eq] at habsent
  refine ⟨HashPipelineInfo H d, MakePipelineInfoOwning d, compile_fst H r d, ?_, rfl, rfl, rfl,
    rfl, rfl, rfl, rfl, rfl, rfl, ?_⟩
  · rw [get_eq, compile_snd_absent H r d habsent]
    simp
  · intro k hk
    rw [get_eq, get_eq, compile_snd_absent H r d habsent]
    simp [hk]

/-- C4 at a concrete input: `sampleInfo [descP, descQ]` compiled at program start. -/
theorem C4_compile_absent_stores_copy_witness :
    ∃ h c, (CompileGraphicsPipelineInternal libcxxHash emptyPipelines
        (sampleInfo [descP, descQ])).1 = some h ∧
      GetGraphicsPipelineInternal (CompileGraphicsPipelineInternal libcxxHash emptyPipelines
        (sampleInfo [descP, descQ])).2 h = some c ∧
      c.shaderProgram = (sampleInfo [descP, descQ]).shaderProgram ∧
      c.inputAssemblyState = (sampleInfo [descP, descQ]).inputAssemblyState ∧
      c.rasterizationState = (sampleInfo [descP, descQ]).rasterizationState ∧
      c.depthStencilState = (sampleInfo [descP, descQ]).depthStencilState ∧
      c.colorBlendState.logicOpEnable = (sampleInfo [descP, descQ]).colorBlendState.logicOpEnable ∧
      c.colorBlendState.logicOp = (sampleInfo [descP, descQ]).colorBlendState.logicOp ∧
      c.colorBlendState.blendConstants = (sampleInfo [descP, descQ]).colorBlendState.blendConstants ∧
      c.vertexInputState.vertexBindingDescriptions =
        (sampleInfo [descP, descQ]).vertexInputState.vertexBindingDescriptions ∧
      c.colorBlendState.attachments = (sampleInfo [descP, descQ]).colorBlendState.attachments ∧
      ∀ k, k ≠ h →
        GetGraphicsPipelineInternal (CompileGraphicsPipelineInternal libcxxHash emptyPipelines
          (sampleInfo [descP, descQ])).2 k = GetGraphicsPipelineInternal emptyPipelines k :=
  C4_compile_absent_stores_copy libcxxHash emptyPipelines (sampleInfo [descP, descQ]) rfl

/-- C5: when the registry already has an entry `c` under the handle of description `d`, compiling
`d` returns that handle and the registry afterwards is the registry before: the entry under the
handle is still `c`, and no entry is added, replaced or removed. -/
theorem C5_compile_present_unchanged (H : StdHash) (r : PipelineMap) (d : GraphicsPipelineInfo)
    (c : GraphicsPipelineInfoOwning)
    (hpresent : GetGraphicsPipelineInternal r (HashPipelineInfo H d) = some c) :
    (CompileGraphicsPipelineInternal H r d).1 = some (HashPipelineInfo H d) ∧
    (CompileGraphicsPipelineInternal H r d).2 = r ∧
    GetGraphicsPipelineInternal (CompileGraphicsPipelineInternal H r d).2
      (HashPipelineInfo H d) = some c := by
  have hr : r (HashPipelineInfo H d) = some c := by rw [get_eq] at hpresent; exact hpresent
  refine ⟨compile_fst H r d, compile_snd_present H r d c hr, ?_⟩
  rw [compile_snd_present H r d c hr]
  exact hpresent

/-- C5 at a concrete input: the registry holds the copy of `sampleInfo [descA1]` and the
colliding description `sampleInfo [descB1]` is compiled; the stored copy stays the first-seen
one. -/
theorem C5_compile_present_unchanged_witness :
    (CompileGraphicsPipelineInternal libcxxHash
        (CompileGraphicsPipelineInternal libcxxHash emptyPipelines (sampleInfo [descA1])).2
        (sampleInfo [descB1])).1 = some (HashPipelineInfo libcxxHash (sampleInfo [descB1])) ∧
    (CompileGraphicsPipelineInternal libcxxHash
        (CompileGraphicsPipelineInternal libcxxHash emptyPipelines (sampleInfo [descA1])).2
        (sampleInfo [descB1])).2 =
      (CompileGraphicsPipelineInternal libcxxHash emptyPipelines (sampleInfo [descA1])).2 ∧
    GetGraphicsPipelineInternal (CompileGraphicsPipelineInternal libcxxHash
        (CompileGraphicsPipelineInternal libcxxHash emptyPipelines (sampleInfo [descA1])).2
        (sampleInfo [descB1])).2 (HashPipelineInfo libcxxHash (sampleInfo [descB1])) =
      some (MakePipelineInfoOwning (sampleInfo [descA1])) :=
  C5_compile_present_unchanged libcxxHash
    (CompileGraphicsPipelineInternal libcxxHash emptyPipelines (sampleInfo [descA1])).2
    (sampleInfo [descB1]) (MakePipelineInfoOwning (sampleInfo [descA1])) (by decide)

/-- C6: `DestroyGraphicsPipelineInternal` returns `true` exactly when the lookup of the handle
found an entry before the call; afterwards the lookup of the handle finds nothing and the lookup
of every other handle gives what it gave before; and when the handle was not present the result
is `false` and the registry is unchanged. -/
theorem C6_destroy (r : PipelineMap) (h : GraphicsPipeline) :
    ((DestroyGraphicsPipelineInternal r h).1 = true ↔
      GetGraphicsPipelineInternal r h ≠ none) ∧
    GetGraphicsPipelineInternal (DestroyGraphicsPipelineInternal r h).2 h = none ∧
    (∀ k, k ≠ h →
      GetGraphicsPipelineInternal (DestroyGraphicsPipelineInternal r h).2 k =
        GetGraphicsPipelineInternal r k) ∧
    (GetGraphicsPipelineInternal r h = none →
      (DestroyGraphicsPipelineInternal r h).1 = false ∧
      (DestroyGraphicsPipelineInternal r h).2 = r) := by
  simp only [get_eq]
  unfold DestroyGraphicsPipelineInternal
  cases hr : r h with
  | none => simp [hr]
  | some c =>
    simp only [hr]
    refine ⟨by simp, by simp, fun k hk => by simp [hk], by simp⟩

/-- C6 at a concrete input: destroying the sample handle in the empty registry. -/
theorem C6_destroy_witness :
    (DestroyGraphicsPipelineInternal emptyPipelines sampleHandle).1 = false ∧
    (DestroyGraphicsPipelineInternal emptyPipelines sampleHandle).2 = emptyPipelines :=
  (C6_destroy emptyPipelines sampleHandle).2.2.2 rfl

end detail
end GFX

/-! ## The render session -/

namespace GFX

/-- Appending to the trace keeps `isRendering`. -/
theorem gl_isRendering (s : RenderState) (c : List GLCall) :
    (s.gl c).isRendering = s.isRendering := rfl

/-- Appending to the trace keeps `isPipelineBound`. -/
theorem gl_isPipelineBound (s : RenderState) (c : List GLCall) :
    (s.gl c).isPipelineBound = s.isPipelineBound := rfl

/-- Appending to the trace keeps `isIndexBufferBound`. -/
theorem gl_isIndexBufferBound (s : RenderState) (c : List GLCall) :
    (s.gl c).isIndexBufferBound = s.isIndexBufferBound := rfl

/-- `BeginSwapchainRendering` fails on an active session. -/
theorem BeginSwapchainRendering_active (s : RenderState) (ri : SwapchainRenderInfo)
    (h : s.isRendering = true) : BeginSwapchainRendering s ri = Except.error Failure.assertion := by
  unfold BeginSwapchainRendering
  simp [h]

/-- `BeginSwapchainRendering` succeeds on an idle session, sets `isRendering`, clears
`sLastRenderInfo` and keeps the two bound flags. -/
theorem BeginSwapchainRendering_idle (s : RenderState) (ri : SwapchainRenderInfo)
    (h : s.isRendering = false) :
    ∃ s1, BeginSwapchainRendering s ri = Except.ok s1 ∧ s1.isRendering = true ∧
      s1.isPipelineBound = s.isPipelineBound ∧ s1.isIndexBufferBound = s.isIndexBufferBound ∧
      s1.sLastRenderInfo = none := by
  unfold BeginSwapchainRendering
  rw [if_neg (by simp [h])]
  obtain ⟨c, cv, d, dv, st, stv⟩ := ri
  cases c <;> cases d <;> cases st <;> exact ⟨_, rfl, rfl, rfl, rfl, rfl⟩

/-- `BeginRendering` fails on an active session. -/
theorem BeginRendering_active (api : ApiToEnum) (s : RenderState) (addr : Nat) (ri : RenderInfo)
    (newFbo : Nat) (h : s.isRendering = true) :
    BeginRendering api s addr ri newFbo = Except.error Failure.assertion := by
  unfold BeginRendering
  simp [h]

/-- `BeginRendering` succeeds on an idle session, sets `isRendering`, records the address of the
render-target set and keeps the two bound flags. -/
theorem BeginRendering_idle (api : ApiToEnum) (s : RenderState) (addr : Nat) (ri : RenderInfo)
    (newFbo : Nat) (h : s.isRendering = false) :
    ∃ s1, BeginRendering api s addr ri newFbo = Except.ok s1 ∧ s1.isRendering = true ∧
      s1.isPipelineBound = s.isPipelineBound ∧ s1.isIndexBufferBound = s.isIndexBufferBound ∧
      s1.sLastRenderInfo = some addr := by
  unfold BeginRendering
  rw [if_neg (by simp [h])]
  by_cases hl : s.sLastRenderInfo = some addr
  · exact ⟨_, if_pos hl, rfl, rfl, rfl, hl⟩
  · exact ⟨_, if_neg hl, rfl, rfl, rfl, rfl⟩

/-- `EndRendering` fails on an idle session. -/
theorem EndRendering_idle (s : RenderState) (h : s.isRendering = false) :
    EndRendering s = Except.error Failure.assertion := by
  unfold EndRendering
  simp [h]

/-- `EndRendering` succeeds on an active session and resets the three flags. -/
theorem EndRendering_active (s : RenderState) (h : s.isRendering = true) :
    ∃ s1, EndRendering s = Except.ok s1 ∧ s1.isRendering = false ∧
      s1.isPipelineBound = false ∧ s1.isIndexBufferBound = false := by
  unfold EndRendering
  rw [if_neg (by simp [h])]
  exact ⟨_, rfl, rfl, rfl, rfl⟩

namespace Cmd

/-- The "shader program" and "input assembly" sections keep the three flags. -/
theorem applyInputAssembly_flags (s : RenderState) (pipelineState : GraphicsPipelineInfoOwning) :
    (applyInputAssembly s pipelineState).isRendering = s.isRendering ∧
    (applyInputAssembly s pipelineState).isIndexBufferBound = s.isIndexBufferBound ∧
    (applyInputAssembly s pipelineState).isPipelineBound = s.isPipelineBound := by
  unfold applyInputAssembly
  simp only [gl_isRendering, gl_isIndexBufferBound, gl_isPipelineBound, and_self]

/-- The "vertex input" section keeps the three flags. -/
theorem applyVertexInput_flags (api : ApiToEnum) (s : RenderState)
    (pipelineState : GraphicsPipelineInfoOwning) (newVao : Nat) :
    (applyVertexInput api s pipelineState newVao).isRendering = s.isRendering ∧
    (applyVertexInput api s pipelineState newVao).isIndexBufferBound = s.isIndexBufferBound ∧
    (applyVertexInput api s pipelineState newVao).isPipelineBound = s.isPipelineBound := by
  unfold applyVertexInput
  simp only [gl_isRendering, gl_isIndexBufferBound, gl_isPipelineBound, and_self]

/-- The "rasterization" section keeps the three flags. -/
theorem applyRasterization_flags (api : ApiToEnum) (s : RenderState)
    (pipelineState : GraphicsPipelineInfoOwning) :
    (applyRasterization api s pipelineState).isRendering = s.isRendering ∧
    (applyRasterization api s pipelineState).isIndexBufferBound = s.isIndexBufferBound ∧
    (applyRasterization api s pipelineState).isPipelineBound = s.isPipelineBound := by
  unfold applyRasterization
  simp only [gl_isRendering, gl_isIndexBufferBound, gl_isPipelineBound, and_self]

/-- The "depth + stencil" section keeps the three flags. -/
theorem applyDepthStencil_flags (s : RenderState) (pipelineState : GraphicsPipelineInfoOwning) :
    (applyDepthStencil s pipelineState).isRendering = s.isRendering ∧
    (applyDepthStencil s pipelineState).isIndexBufferBound = s.isIndexBufferBound ∧
    (applyDepthStencil s pipelineState).isPipelineBound = s.isPipelineBound := by
  unfold applyDepthStencil
  simp only [gl_isRendering, gl_isIndexBufferBound, gl_isPipelineBound, and_self]

/-- The "color blending state" section keeps the three flags. -/
theorem applyColorBlend_flags (api : ApiToEnum) (s : RenderState)
    (pipelineState : GraphicsPipelineInfoOwning) :
    (applyColorBlend api s pipelineState).isRendering = s.isRendering ∧
    (applyColorBlend api s pipelineState).isIndexBufferBound = s.isIndexBufferBound ∧
    (applyColorBlend api s pipelineState).isPipelineBound = s.isPipelineBound := by
  unfold applyColorBlend
  simp only [gl_isRendering, gl_isIndexBufferBound, gl_isPipelineBound, and_self]

/-- `Cmd::BindGraphicsPipeline`, when it returns, has set `isPipelineBound` and kept
`isRendering` and `isIndexBufferBound`. -/
theorem BindGraphicsPipeline_flags (api : ApiToEnum) (gPipelines : detail.PipelineMap)
    (s s1 : RenderState) (pipeline : GraphicsPipeline) (newVao : Nat)
    (h : BindGraphicsPipeline api gPipelines s pipeline newVao = Except.ok s1) :
    s1.isRendering = s.isRendering ∧ s1.isIndexBufferBound = s.isIndexBufferBound ∧
      s1.isPipelineBound = true := by
  unfold BindGraphicsPipeline at h
  cases hg : detail.GetGraphicsPipelineInternal gPipelines pipeline with
  | none => simp [hg] at h
  | some pipelineState =>
    simp only [hg] at h
    by_cases hl : s.sLastGraphicsPipeline = pipeline
    · rw [if_pos hl] at h
      cases h
      exact ⟨rfl, rfl, rfl⟩
    · rw [if_neg hl] at h
      injection h with h
      subst h
      simp only [applyColorBlend_flags, applyDepthStencil_flags, applyRasterization_flags,
        applyVertexInput_flags, applyInputAssembly_flags, and_self]

/-- `Cmd::BindGraphicsPipeline` on a registered handle returns, whether or not a pass is
active. -/
theorem BindGraphicsPipeline_registered (api : ApiToEnum) (gPipelines : detail.PipelineMap)
    (s : RenderState) (pipeline : GraphicsPipeline) (newVao : Nat)
    (c : GraphicsPipelineInfoOwning)
    (hg : detail.GetGraphicsPipelineInternal gPipelines pipeline = some c) :
    ∃ s1, BindGraphicsPipeline api gPipelines s pipeline newVao = Except.ok s1 := by
  unfold BindGraphicsPipeline
  simp only [hg]
  by_cases hl : s.sLastGraphicsPipeline = pipeline
  · exact ⟨_, if_pos hl⟩
  · exact ⟨_, if_neg hl⟩

/-- `Cmd::BindVertexBuffer` fails on an idle session. -/
theorem BindVertexBuffer_idle (s : RenderState) (bindingIndex : Nat) (buffer : Buffer)
    (offset stride : Nat) (h : s.isRendering = false) :
    BindVertexBuffer s bindingIndex buffer offset stride = Except.error Failure.assertion := by
  unfold BindVertexBuffer
  simp [h]

/-- `Cmd::BindVertexBuffer`, when it returns, has kept the three flags. -/
theorem BindVertexBuffer_flags (s s1 : RenderState) (bindingIndex : Nat) (buffer : Buffer)
    (offset stride : Nat)
    (h : BindVertexBuffer s bindingIndex buffer offset stride = Except.ok s1) :
    s1.isRendering = s.isRendering ∧ s1.isIndexBufferBound = s.isIndexBufferBound ∧
      s1.isPipelineBound = s.isPipelineBound := by
  unfold BindVertexBuffer at h
  split at h
  · cases h
  · cases h
    exact ⟨rfl, rfl, rfl⟩

/-- `Cmd::BindIndexBuffer` fails on an idle session. -/
theorem BindIndexBuffer_idle (s : RenderState) (buffer : Buffer) (indexType : Nat)
    (h : s.isRendering = false) :
    BindIndexBuffer s buffer indexType = Except.error Failure.assertion := by
  unfold BindIndexBuffer
  simp [h]

/-- `Cmd::BindIndexBuffer`, when it returns, was called in an active pass, has set
`isIndexBufferBound` and kept the other two flags. -/
theorem BindIndexBuffer_flags (s s1 : RenderState) (buffer : Buffer) (indexType : Nat)
    (h : BindIndexBuffer s buffer indexType = Except.ok s1) :
    s.isRendering = true ∧ s1.isRendering = true ∧ s1.isIndexBufferBound = true ∧
      s1.isPipelineBound = s.isPipelineBound := by
  unfold BindIndexBuffer at h
  split at h
  · cases h
  · rename_i hr
    cases h
    have hr2 : s.isRendering = true := by simpa using hr
    exact ⟨hr2, hr2, rfl, rfl⟩

/-- `Cmd::Draw` fails on an idle session. -/
theorem Draw_idle (api : ApiToEnum) (s : RenderState)
    (vertexCount instanceCount firstVertex firstInstance : Nat) (h : s.isRendering = false) :
    Draw api s vertexCount instanceCount firstVertex firstInstance =
      Except.error Failure.assertion := by
  unfold Draw
  simp [h]

/-- `Cmd::Draw`, when it returns, has kept the three flags. -/
theorem Draw_flags (api : ApiToEnum) (s s1 : RenderState)
    (vertexCount instanceCount firstVertex firstInstance : Nat)
    (h : Draw api s vertexCount instanceCount firstVertex firstInstance = Except.ok s1) :
    s1.isRendering = s.isRendering ∧ s1.isIndexBufferBound = s.isIndexBufferBound ∧
      s1.isPipelineBound = s.isPipelineBound := by
  unfold Draw at h
  split at h
  · cases h
  · cases h
    exact ⟨rfl, rfl, rfl⟩

/-- `Cmd::DrawIndexed` fails unless a pass is active and an index buffer is bound. -/
theorem DrawIndexed_fails (api : ApiToEnum) (s : RenderState)
    (indexCount instanceCount firstIndex : Nat) (vertexOffset : Int) (firstInstance : Nat)
    (h : s.isRendering = false ∨ s.isIndexBufferBound = false) :
    DrawIndexed api s indexCount instanceCount firstIndex vertexOffset firstInstance =
      Except.error Failure.assertion := by
  unfold DrawIndexed
  rcases h with h | h <;> simp [h]

/-- `Cmd::DrawIndexed`, when it returns, was called in an active pass with an index buffer bound
and has kept the three flags. -/
theorem DrawIndexed_flags (api : ApiToEnum) (s s1 : RenderState)
    (indexCount instanceCount firstIndex : Nat) (vertexOffset : Int) (firstInstance : Nat)
    (h : DrawIndexed api s indexCount instanceCount firstIndex vertexOffset firstInstance =
      Except.ok s1) :
    s.isRendering = true ∧ s.isIndexBufferBound = true ∧ s1.isRendering = s.isRendering ∧
      s1.isIndexBufferBound = s.isIndexBufferBound ∧ s1.isPipelineBound = s.isPipelineBound := by
  unfold DrawIndexed at h
  split at h
  · cases h
  · rename_i hr
    cases h
    have hr2 : s.isRendering = true ∧ s.isIndexBufferBound = true := by simpa using hr
    exact ⟨hr2.1, hr2.2, rfl, rfl, rfl⟩

/-- `Cmd::BindUniformBuffer` fails on an idle session. -/
theorem BindUniformBuffer_idle (s : RenderState) (index : Nat) (buffer : Buffer)
    (offset size : Nat) (h : s.isRendering = false) :
    BindUniformBuffer s index buffer offset size = Except.error Failure.assertion := by
  unfold BindUniformBuffer
  simp [h]

/-- `Cmd::BindUniformBuffer`, when it returns, has kept the three flags. -/
theorem BindUniformBuffer_flags (s s1 : RenderState) (index : Nat) (buffer : Buffer)
    (offset size : Nat) (h : BindUniformBuffer s index buffer offset size = Except.ok s1) :
    s1.isRendering = s.isRendering ∧ s1.isIndexBufferBound = s.isIndexBufferBound ∧
      s1.isPipelineBound = s.isPipelineBound := by
  unfold BindUniformBuffer at h
  split at h
  · cases h
  · cases h
    exact ⟨rfl, rfl, rfl⟩

/-- `Cmd::BindStorageBuffer` fails on an idle session. -/
theorem BindStorageBuffer_idle (s : RenderState) (index : Nat) (buffer : Buffer)
    (offset size : Nat) (h : s.isRendering = false) :
    BindStorageBuffer s index buffer offset size = Except.error Failure.assertion := by
  unfold BindStorageBuffer
  simp [h]

/-- `Cmd::BindStorageBuffer`, when it returns, has kept the three flags. -/
theorem BindStorageBuffer_flags (s s1 : RenderState) (index : Nat) (buffer : Buffer)
    (offset size : Nat) (h : BindStorageBuffer s index buffer offset size = Except.ok s1) :
    s1.isRendering = s.isRendering ∧ s1.isIndexBufferBound = s.isIndexBufferBound ∧
      s1.isPipelineBound = s.isPipelineBound := by
  unfold BindStorageBuffer at h
  split at h
  · cases h
  · cases h
    exact ⟨rfl, rfl, rfl⟩

/-- `Cmd::BindSampledImage` fails on an idle session. -/
theorem BindSampledImage_idle (s : RenderState) (index : Nat) (textureView : TextureView)
    (sampler : TextureSampler) (h : s.isRendering = false) :
    BindSampledImage s index textureView sampler = Except.error Failure.assertion := by
  unfold BindSampledImage
  simp [h]

/-- `Cmd::BindSampledImage`, when it returns, has kept the three flags. -/
theorem BindSampledImage_flags (s s1 : RenderState) (index : Nat) (textureView : TextureView)
    (sampler : TextureSampler) (h : BindSampledImage s index textureView sampler = Except.ok s1) :
    s1.isRendering = s.isRendering ∧ s1.isIndexBufferBound = s.isIndexBufferBound ∧
      s1.isPipelineBound = s.isPipelineBound := by
  unfold BindSampledImage at h
  split at h
  · cases h
  · cases h
    exact ⟨rfl, rfl, rfl⟩

/-- `Cmd::BindImage` fails on an idle session. -/
theorem BindImage_idle (api : ApiToEnum) (s : RenderState) (index : Nat)
    (textureView : TextureView) (level : Nat) (h : s.isRendering = false) :
    BindImage api s index textureView level = Except.error Failure.assertion := by
  unfold BindImage
  simp [h]

/-- `Cmd::BindImage`, when it returns, has kept the three flags. -/
theorem BindImage_flags (api : ApiToEnum) (s s1 : RenderState) (index : Nat)
    (textureView : TextureView) (level : Nat)
    (h : BindImage api s index textureView level = Except.ok s1) :
    s1.isRendering = s.isRendering ∧ s1.isIndexBufferBound = s.isIndexBufferBound ∧
      s1.isPipelineBound = s.isPipelineBound := by
  unfold BindImage at h
  split at h
  · cases h
  · split at h
    · cases h
    · cases h
      exact ⟨rfl, rfl, rfl⟩

end Cmd
/-- Running `ops` and then one more operation: the last operation runs in the world that `ops`
leaves. -/
theorem run_append_singleton (H : hashing.StdHash) (api : ApiToEnum) (ops : List Op) (op : Op) :
    ∀ w : World, run H api w (ops ++ [op]) =
      match run H api w ops with
      | Except.ok w1 => step H api w1 op
      | Except.error e => Except.error e := by
  induction ops with
  | nil =>
    intro w
    show (match step H api w op with
      | Except.ok w1 => run H api w1 []
      | Except.error e => Except.error e) = step H api w op
    cases step H api w op <;> rfl
  | cons o rest ih =>
    intro w
    show (match step H api w o with
      | Except.ok w1 => run H api w1 (rest ++ [op])
      | Except.error e => Except.error e) =
      match (match step H api w o with
        | Except.ok w1 => run H api w1 rest
        | Except.error e => Except.error e) with
      | Except.ok w1 => step H api w1 op
      | Except.error e => Except.error e
    cases step H api w o with
    | error e => rfl
    | ok w1 => exact ih w1

/-- A successful run of `ops ++ [op]` is a successful run of `ops` followed by a successful
step. -/
theorem run_append_singleton_ok (H : hashing.StdHash) (api : ApiToEnum) (ops : List Op) (op : Op)
    (w w2 : World) (h : run H api w (ops ++ [op]) = Except.ok w2) :
    ∃ w1, run H api w ops = Except.ok w1 ∧ step H api w1 op = Except.ok w2 := by
  rw [run_append_singleton] at h
  cases hr : run H api w ops with
  | error e => rw [hr] at h; cases h
  | ok w1 => rw [hr] at h; exact ⟨w1, rfl, h⟩

/-- The session state after `World.withRender` succeeded is the one put in. -/
theorem withRender_ok (w w1 : World) (r : Except Failure RenderState)
    (h : w.withRender r = Except.ok w1) : r = Except.ok w1.render := by
  cases r with
  | error e => cases h
  | ok s =>
    unfold World.withRender at h
    cases h
    rfl

/-- What a successful step does to `isRendering` and `isIndexBufferBound`, by kind of
operation. -/
theorem step_flags (H : hashing.StdHash) (api : ApiToEnum) (w w1 : World) (op : Op)
    (h : step H api w op = Except.ok w1) :
    (op.isBeginPass = true →
      w.render.isRendering = false ∧ w1.render.isRendering = true ∧
      w1.render.isIndexBufferBound = w.render.isIndexBufferBound) ∧
    (op.isEndPass = true →
      w1.render.isRendering = false ∧ w1.render.isIndexBufferBound = false) ∧
    (op.isBindIndexBuffer = true →
      w.render.isRendering = true ∧ w1.render.isRendering = true ∧
      w1.render.isIndexBufferBound = true) ∧
    (op.isBeginPass = false → op.isEndPass = false → op.isBindIndexBuffer = false →
      w1.render.isRendering = w.render.isRendering ∧
      w1.render.isIndexBufferBound = w.render.isIndexBufferBound) := by
  cases op with
  | CompileGraphicsPipeline info =>
    cases h
    simp [Op.isBeginPass, Op.isEndPass, Op.isBindIndexBuffer]
  | DestroyGraphicsPipeline pipeline =>
    cases h
    simp [Op.isBeginPass, Op.isEndPass, Op.isBindIndexBuffer]
  | BeginSwapchainRendering renderInfo =>
    have h1 := withRender_ok _ _ _ h
    simp only [Op.isBeginPass, Op.isEndPass, Op.isBindIndexBuffer]
    cases hr : w.render.isRendering with
    | true => rw [BeginSwapchainRendering_active _ _ hr] at h1; cases h1
    | false =>
      obtain ⟨s1, hs1, ha, _, hc, _⟩ := BeginSwapchainRendering_idle w.render renderInfo hr
      rw [hs1] at h1
      injection h1 with h1
      subst h1
      simp [ha, hc]
  | BeginRendering renderInfoAddr renderInfo newFbo =>
    have h1 := withRender_ok _ _ _ h
    simp only [Op.isBeginPass, Op.isEndPass, Op.isBindIndexBuffer]
    cases hr : w.render.isRendering with
    | true => rw [BeginRendering_active _ _ _ _ _ hr] at h1; cases h1
    | false =>
      obtain ⟨s1, hs1, ha, _, hc, _⟩ :=
        BeginRendering_idle api w.render renderInfoAddr renderInfo newFbo hr
      rw [hs1] at h1
      injection h1 with h1
      subst h1
      simp [ha, hc]
  | EndRendering =>
    have h1 := withRender_ok _ _ _ h
    simp only [Op.isBeginPass, Op.isEndPass, Op.isBindIndexBuffer]
    cases hr : w.render.isRendering with
    | false => rw [EndRendering_idle _ hr] at h1; cases h1
    | true =>
      obtain ⟨s1, hs1, ha, _, hc⟩ := EndRendering_active w.render hr
      rw [hs1] at h1
      injection h1 with h1
      subst h1
      simp [ha, hc]
  | BindGraphicsPipeline pipeline newVao =>
    have h1 := Cmd.BindGraphicsPipeline_flags _ _ _ _ _ _ (withRender_ok _ _ _ h)
    simp [Op.isBeginPass, Op.isEndPass, Op.isBindIndexBuffer, h1.1, h1.2.1]
  | BindVertexBuffer bindingIndex buffer offset stride =>
    have h1 := Cmd.BindVertexBuffer_flags _ _ _ _ _ _ (withRender_ok _ _ _ h)
    simp [Op.isBeginPass, Op.isEndPass, Op.isBindIndexBuffer, h1.1, h1.2.1]
  | BindIndexBuffer buffer indexType =>
    have h1 := Cmd.BindIndexBuffer_flags _ _ _ _ (withRender_ok _ _ _ h)
    simp [Op.isBeginPass, Op.isEndPass, Op.isBindIndexBuffer, h1.1, h1.2.1, h1.2.2.1]
  | Draw vertexCount instanceCount firstVertex firstInstance =>
    have h1 := Cmd.Draw_flags _ _ _ _ _ _ _ (withRender_ok _ _ _ h)
    simp [Op.isBeginPass, Op.isEndPass, Op.isBindIndexBuffer, h1.1, h1.2.1]
  | DrawIndexed indexCount instanceCount firstIndex vertexOffset firstInstance =>
    have h1 := Cmd.DrawIndexed_flags _ _ _ _ _ _ _ _ (withRender_ok _ _ _ h)
    simp [Op.isBeginPass, Op.isEndPass, Op.isBindIndexBuffer, h1.2.2.1, h1.2.2.2.1]
  | BindUniformBuffer index buffer offset size =>
    have h1 := Cmd.BindUniformBuffer_flags _ _ _ _ _ _ (withRender_ok _ _ _ h)
    simp [Op.isBeginPass, Op.isEndPass, Op.isBindIndexBuffer, h1.1, h1.2.1]
  | BindStorageBuffer index buffer offset size =>
    have h1 := Cmd.BindStorageBuffer_flags _ _ _ _ _ _ (withRender_ok _ _ _ h)
    simp [Op.isBeginPass, Op.isEndPass, Op.isBindIndexBuffer, h1.1, h1.2.1]
  | BindSampledImage index textureView sampler =>
    have h1 := Cmd.BindSampledImage_flags _ _ _ _ _ (withRender_ok _ _ _ h)
    simp [Op.isBeginPass, Op.isEndPass, Op.isBindIndexBuffer, h1.1, h1.2.1]
  | BindImage index textureView level =>
    have h1 := Cmd.BindImage_flags _ _ _ _ _ _ (withRender_ok _ _ _ h)
    simp [Op.isBeginPass, Op.isEndPass, Op.isBindIndexBuffer, h1.1, h1.2.1]

open hashing

/-- An operation that returned a state did not fail. -/
theorem not_failed_ok {α : Type} (a : α) : ¬ Failed (Except.ok a : Except Failure α) := by
  rintro ⟨e, he⟩
  cases he

/-- An operation that ended on the assertion failed. -/
theorem failed_error {α : Type} : Failed (Except.error Failure.assertion : Except Failure α) :=
  ⟨Failure.assertion, rfl⟩

/-- Appending an operation that neither begins nor ends a pass extends the operations since the
most recent pass begin. -/
theorem SinceLastBegin_snoc (ops post : List Op) (op : Op) (h : SinceLastBegin ops post)
    (hb : op.isBeginPass = false) (he : op.isEndPass = false) :
    SinceLastBegin (ops ++ [op]) (post ++ [op]) := by
  obtain ⟨pre, b, hops, hbegin, hpost⟩ := h
  refine ⟨pre, b, ?_, hbegin, ?_⟩
  · rw [hops, List.append_assoc, List.cons_append]
  · intro o ho
    rcases List.mem_append.mp ho with ho | ho
    · exact hpost o ho
    · rw [List.mem_singleton.mp ho]
      exact ⟨hb, he⟩

/-- The invariant of the session along every run from program start: while a pass is active the
history ends in a pass begin followed by operations `post` that neither begin nor end a pass,
and if the index-bound flag is set then `post` holds a `BindIndexBuffer`; and the index-bound
flag is never set while the session is idle. -/
theorem run_invariant (H : StdHash) (api : ApiToEnum) (ops : List Op) :
    ∀ w : World, run H api initialWorld ops = Except.ok w →
      (w.render.isRendering = true →
        ∃ post, SinceLastBegin ops post ∧
          (w.render.isIndexBufferBound = true → ∃ o ∈ post, o.isBindIndexBuffer = true)) ∧
      (w.render.isIndexBufferBound = true → w.render.isRendering = true) := by
  induction ops using List.reverseRecOn with
  | nil =>
    intro w h
    cases h
    exact ⟨fun h => (by cases h), fun h => (by cases h)⟩
  | append_singleton ops op ih =>
    intro w h
    obtain ⟨w0, hrun, hstep⟩ := run_append_singleton_ok H api ops op initialWorld w h
    obtain ⟨ih1, ih2⟩ := ih w0 hrun
    obtain ⟨fBegin, fEnd, fBind, fOther⟩ := step_flags H api w0 w op hstep
    cases hb : op.isBeginPass with
    | true =>
      obtain ⟨h0, _, h2⟩ := fBegin hb
      have hidx0 : w0.render.isIndexBufferBound = false := by
        cases hi : w0.render.isIndexBufferBound with
        | false => rfl
        | true => rw [ih2 hi] at h0; cases h0
      have hidx : w.render.isIndexBufferBound = false := by rw [h2, hidx0]
      refine ⟨fun _ => ⟨[], ⟨ops, op, rfl, hb, ?_⟩, ?_⟩, ?_⟩
      · intro o ho
        cases ho
      · intro hi
        rw [hidx] at hi
        cases hi
      · intro hi
        rw [hidx] at hi
        cases hi
    | false =>
      cases he : op.isEndPass with
      | true =>
        obtain ⟨h1, h2⟩ := fEnd he
        refine ⟨fun hr => ?_, fun hi => ?_⟩
        · rw [h1] at hr
          cases hr
        · rw [h2] at hi
          cases hi
      | false =>
        cases hx : op.isBindIndexBuffer with
        | true =>
          obtain ⟨h0, h1, _⟩ := fBind hx
          obtain ⟨post, hpost, _⟩ := ih1 h0
          refine ⟨fun _ => ⟨post ++ [op], SinceLastBegin_snoc ops post op hpost hb he, ?_⟩,
            fun _ => h1⟩
          intro _
          exact ⟨op, List.mem_append.mpr (Or.inr (List.mem_singleton.mpr rfl)), hx⟩
        | false =>
          obtain ⟨h1, h2⟩ := fOther hb he hx
          refine ⟨fun hr => ?_, fun hi => ?_⟩
          · rw [h1] at hr
            obtain ⟨post, hpost, hbound⟩ := ih1 hr
            refine ⟨post ++ [op], SinceLastBegin_snoc ops post op hpost hb he, fun hi => ?_⟩
            rw [h2] at hi
            obtain ⟨o, ho, hob⟩ := hbound hi
            exact ⟨o, List.mem_append.mpr (Or.inl ho), hob⟩
          · rw [h2] at hi
            rw [h1]
            exact ih2 hi

/-- C7: in every session state, each pass-begin variant fails exactly when a session is already
active and on success leaves the session active; `EndRendering` fails exactly when no session is
active and on success leaves the session idle. So after a successful begin of either variant
every begin fails, and `EndRendering` fails at program start. -/
theorem C7_session_state_machine (api : ApiToEnum) (s : RenderState)
    (swapchainInfo : SwapchainRenderInfo) (renderInfoAddr : Nat) (renderInfo : RenderInfo)
    (newFbo : Nat) :
    (Failed (BeginSwapchainRendering s swapchainInfo) ↔ s.isRendering = true) ∧
    (∀ s1, BeginSwapchainRendering s swapchainInfo = Except.ok s1 → s1.isRendering = true) ∧
    (Failed (BeginRendering api s renderInfoAddr renderInfo newFbo) ↔ s.isRendering = true) ∧
    (∀ s1, BeginRendering api s renderInfoAddr renderInfo newFbo = Except.ok s1 →
      s1.isRendering = true) ∧
    (Failed (EndRendering s) ↔ s.isRendering = false) ∧
    (∀ s1, EndRendering s = Except.ok s1 → s1.isRendering = false) ∧
    (∀ s1, (BeginSwapchainRendering s swapchainInfo = Except.ok s1 ∨
        BeginRendering api s renderInfoAddr renderInfo newFbo = Except.ok s1) →
      ∀ (swapchainInfo2 : SwapchainRenderInfo) (renderInfoAddr2 : Nat) (renderInfo2 : RenderInfo)
        (newFbo2 : Nat),
        Failed (BeginSwapchainRendering s1 swapchainInfo2) ∧
        Failed (BeginRendering api s1 renderInfoAddr2 renderInfo2 newFbo2)) ∧
    Failed (EndRendering initialRenderState) := by
  have hsw : ∀ s1, BeginSwapchainRendering s swapchainInfo = Except.ok s1 →
      s1.isRendering = true := by
    intro s1 h1
    cases hr : s.isRendering with
    | true => rw [BeginSwapchainRendering_active s swapchainInfo hr] at h1; cases h1
    | false =>
      obtain ⟨s2, hs2, ha, _⟩ := BeginSwapchainRendering_idle s swapchainInfo hr
      rw [hs2] at h1
      injection h1 with h1
      rw [← h1]
      exact ha
  have hcu : ∀ s1, BeginRendering api s renderInfoAddr renderInfo newFbo = Except.ok s1 →
      s1.isRendering = true := by
    intro s1 h1
    cases hr : s.isRendering with
    | true => rw [BeginRendering_active api s renderInfoAddr renderInfo newFbo hr] at h1; cases h1
    | false =>
      obtain ⟨s2, hs2, ha, _⟩ := BeginRendering_idle api s renderInfoAddr renderInfo newFbo hr
      rw [hs2] at h1
      injection h1 with h1
      rw [← h1]
      exact ha
  refine ⟨?_, hsw, ?_, hcu, ?_, ?_, ?_, ?_⟩
  · cases hr : s.isRendering with
    | true => rw [BeginSwapchainRendering_active s swapchainInfo hr]; simp [failed_error]
    | false =>
      obtain ⟨s2, hs2, _⟩ := BeginSwapchainRendering_idle s swapchainInfo hr
      rw [hs2]
      simp [not_failed_ok]
  · cases hr : s.isRendering with
    | true =>
      rw [BeginRendering_active api s renderInfoAddr renderInfo newFbo hr]
      simp [failed_error]
    | false =>
      obtain ⟨s2, hs2, _⟩ := BeginRendering_idle api s renderInfoAddr renderInfo newFbo hr
      rw [hs2]
      simp [not_failed_ok]
  · cases hr : s.isRendering with
    | false => rw [EndRendering_idle s hr]; simp [failed_error]
    | true =>
      obtain ⟨s2, hs2, _⟩ := EndRendering_active s hr
      rw [hs2]
      simp [not_failed_ok]
  · intro s1 h1
    cases hr : s.isRendering with
    | false => rw [EndRendering_idle s hr] at h1; cases h1
    | true =>
      obtain ⟨s2, hs2, ha, _⟩ := EndRendering_active s hr
      rw [hs2] at h1
      injection h1 with h1
      rw [← h1]
      exact ha
  · intro s1 h1 swapchainInfo2 renderInfoAddr2 renderInfo2 newFbo2
    have hact : s1.isRendering = true := by
      rcases h1 with h1 | h1
      · exact hsw s1 h1
      · exact hcu s1 h1
    rw [BeginSwapchainRendering_active s1 swapchainInfo2 hact,
      BeginRendering_active api s1 renderInfoAddr2 renderInfo2 newFbo2 hact]
    exact ⟨failed_error, failed_error⟩
  · rw [EndRendering_idle initialRenderState rfl]
    exact failed_error

/-- C7 at a concrete input: at program start a custom-target begin does not fail, and the state
it returns is active. -/
theorem C7_session_state_machine_witness :
    ¬ Failed (BeginRendering sampleApi initialRenderState 4096 sampleRenderInfo 1) ∧
    ∀ s1, BeginRendering sampleApi initialRenderState 4096 sampleRenderInfo 1 = Except.ok s1 →
      s1.isRendering = true :=
  ⟨fun h => Bool.noConfusion
      ((C7_session_state_machine sampleApi initialRenderState sampleSwapchainInfo 4096
        sampleRenderInfo 1).2.2.1.mp h),
    (C7_session_state_machine sampleApi initialRenderState sampleSwapchainInfo 4096
      sampleRenderInfo 1).2.2.2.1⟩

/-- C8 fails on the code: from program start, compiling a description, binding its handle while
no pass is active (which `Cmd::BindGraphicsPipeline` does not reject) and then beginning a pass,
of either variant, all succeed, and the pass begins with the pipeline-bound flag set. -/
theorem C8_pipeline_bound_survives_begin :
    (∃ w, run libcxxHash sampleApi initialWorld bindThenSwapchainOps = Except.ok w ∧
      w.render.isRendering = true ∧ w.render.isPipelineBound = true) ∧
    (∃ w, run libcxxHash sampleApi initialWorld bindThenCustomOps = Except.ok w ∧
      w.render.isRendering = true ∧ w.render.isPipelineBound = true) :=
  ⟨⟨_, rfl, rfl, rfl⟩, ⟨_, rfl, rfl, rfl⟩⟩

/-- C9: along every run from program start, `Cmd::DrawIndexed` returns only if a pass is active
and a `BindIndexBuffer` is among the operations that came after the most recent pass begin; and
`Cmd::DrawIndexed` directly after a successful pass begin fails, whatever came before. -/
theorem C9_draw_indexed_precondition (H : StdHash) (api : ApiToEnum) (ops : List Op) (w : World)
    (hrun : run H api initialWorld ops = Except.ok w) :
    (∀ (indexCount instanceCount firstIndex : Nat) (vertexOffset : Int) (firstInstance : Nat)
      (s1 : RenderState),
      Cmd.DrawIndexed api w.render indexCount instanceCount firstIndex vertexOffset
        firstInstance = Except.ok s1 →
      w.render.isRendering = true ∧
      ∃ post, SinceLastBegin ops post ∧ ∃ o ∈ post, o.isBindIndexBuffer = true) ∧
    (∀ (b : Op) (w1 : World), b.isBeginPass = true → step H api w b = Except.ok w1 →
      ∀ (indexCount instanceCount firstIndex : Nat) (vertexOffset : Int) (firstInstance : Nat),
        Cmd.DrawIndexed api w1.render indexCount instanceCount firstIndex vertexOffset
          firstInstance = Except.error Failure.assertion) := by
  obtain ⟨inv1, inv2⟩ := run_invariant H api ops w hrun
  refine ⟨?_, ?_⟩
  · intro indexCount instanceCount firstIndex vertexOffset firstInstance s1 hd
    obtain ⟨hr, hi, _⟩ := Cmd.DrawIndexed_flags api w.render s1 indexCount instanceCount
      firstIndex vertexOffset firstInstance hd
    obtain ⟨post, hpost, hbound⟩ := inv1 hr
    exact ⟨hr, post, hpost, hbound hi⟩
  · intro b w1 hb hstep indexCount instanceCount firstIndex vertexOffset firstInstance
    obtain ⟨h0, _, h2⟩ := (step_flags H api w w1 b hstep).1 hb
    have hidx0 : w.render.isIndexBufferBound = false := by
      cases hi : w.render.isIndexBufferBound with
      | false => rfl
      | true => rw [inv2 hi] at h0; cases h0
    exact Cmd.DrawIndexed_fails api w1.render indexCount instanceCount firstIndex vertexOffset
      firstInstance (Or.inr (by rw [h2, hidx0]))

/-- C9 at a concrete input: after beginning a default-target pass and binding an index buffer,
an indexed draw returns, and the history has the shape the theorem gives. -/
theorem C9_draw_indexed_precondition_witness :
    run libcxxHash sampleApi initialWorld sampleIndexedOps = Except.ok sampleIndexedWorld ∧
    sampleIndexedWorld.render.isRendering = true ∧
    ∃ post, SinceLastBegin sampleIndexedOps post ∧ ∃ o ∈ post, o.isBindIndexBuffer = true :=
  ⟨rfl, (C9_draw_indexed_precondition libcxxHash sampleApi sampleIndexedOps sampleIndexedWorld
    rfl).1 36 1 0 0 0 _ rfl⟩

/-- C10 fails on the code for `Cmd::BindGraphicsPipeline`: at program start, with no pass
active, binding a registered handle returns a state instead of failing. The other eight binding
and draw commands do fail in every idle state, for every argument. -/
theorem C10_bind_pipeline_idle_returns :
    (initialRenderState.isRendering = false ∧
      ∃ s1, Cmd.BindGraphicsPipeline sampleApi sampleRegistry initialRenderState sampleHandle 1 =
        Except.ok s1) ∧
    ∀ (api : ApiToEnum) (s : RenderState), s.isRendering = false →
      (∀ bindingIndex buffer offset stride,
        Failed (Cmd.BindVertexBuffer s bindingIndex buffer offset stride)) ∧
      (∀ buffer indexType, Failed (Cmd.BindIndexBuffer s buffer indexType)) ∧
      (∀ index buffer offset size, Failed (Cmd.BindUniformBuffer s index buffer offset size)) ∧
      (∀ index buffer offset size, Failed (Cmd.BindStorageBuffer s index buffer offset size)) ∧
      (∀ index textureView sampler, Failed (Cmd.BindSampledImage s index textureView sampler)) ∧
      (∀ index textureView level, Failed (Cmd.BindImage api s index textureView level)) ∧
      (∀ vertexCount instanceCount firstVertex firstInstance,
        Failed (Cmd.Draw api s vertexCount instanceCount firstVertex firstInstance)) ∧
      (∀ indexCount instanceCount firstIndex vertexOffset firstInstance,
        Failed (Cmd.DrawIndexed api s indexCount instanceCount firstIndex vertexOffset
          firstInstance)) := by
  refine ⟨⟨rfl, _, rfl⟩, fun api s h => ⟨?_, ?_, ?_, ?_, ?_, ?_, ?_, ?_⟩⟩
  · intro bindingIndex buffer offset stride
    rw [Cmd.BindVertexBuffer_idle s bindingIndex buffer offset stride h]
    exact failed_error
  · intro buffer indexType
    rw [Cmd.BindIndexBuffer_idle s buffer indexType h]
    exact failed_error
  · intro index buffer offset size
    rw [Cmd.BindUniformBuffer_idle s index buffer offset size h]
    exact failed_error
  · intro index buffer offset size
    rw [Cmd.BindStorageBuffer_idle s index buffer offset size h]
    exact failed_error
  · intro index textureView sampler
    rw [Cmd.BindSampledImage_idle s index textureView sampler h]
    exact failed_error
  · intro index textureView level
    rw [Cmd.BindImage_idle api s index textureView level h]
    exact failed_error
  · intro vertexCount instanceCount firstVertex firstInstance
    rw [Cmd.Draw_idle api s vertexCount instanceCount firstVertex firstInstance h]
    exact failed_error
  · intro indexCount instanceCount firstIndex vertexOffset firstInstance
    rw [Cmd.DrawIndexed_fails api s indexCount instanceCount firstIndex vertexOffset
      firstInstance (Or.inl h)]
    exact failed_error

end GFX

/-! ## Registry key consistency -/

namespace GFX
namespace detail

open hashing

/-- Viewing the owning copy of a description gives the description back. -/
theorem toInfo_MakePipelineInfoOwning (info : GraphicsPipelineInfo) :
    (MakePipelineInfoOwning info).toInfo = info := rfl

/-- The empty registry is key-consistent. -/
theorem keyConsistent_empty (H : StdHash) : KeyConsistent H emptyPipelines := by
  intro h c hc
  cases hc

/-- Compiling a description keeps the registry key-consistent. -/
theorem keyConsistent_compile (H : StdHash) (r : PipelineMap) (info : GraphicsPipelineInfo)
    (hr : KeyConsistent H r) :
    KeyConsistent H (CompileGraphicsPipelineInternal H r info).2 := by
  cases hp : r (HashPipelineInfo H info) with
  | some c0 =>
    rw [compile_snd_present H r info c0 hp]
    exact hr
  | none =>
    rw [compile_snd_absent H r info hp]
    intro h c hc
    change (if h = HashPipelineInfo H info then some (MakePipelineInfoOwning info) else r h) =
      some c at hc
    by_cases hk : h = HashPipelineInfo H info
    · rw [if_pos hk] at hc
      injection hc with hc
      rw [← hc, toInfo_MakePipelineInfoOwning, hk]
    · rw [if_neg hk] at hc
      exact hr h c hc

/-- Destroying a handle keeps the registry key-consistent. -/
theorem keyConsistent_destroy (H : StdHash) (r : PipelineMap) (pipeline : GraphicsPipeline)
    (hr : KeyConsistent H r) :
    KeyConsistent H (DestroyGraphicsPipelineInternal r pipeline).2 := by
  unfold DestroyGraphicsPipelineInternal
  cases hp : r pipeline with
  | none => exact hr
  | some c0 =>
    intro h c hc
    by_cases hk : h = pipeline
    · simp [hk] at hc
    · have hc2 : r h = some c := by simpa [hk] using hc
      exact hr h c hc2

end detail

/-- A session operation that succeeded left the registry as it was. -/
theorem withRender_gPipelines (w w1 : World) (r : Except Failure RenderState)
    (h : w.withRender r = Except.ok w1) : w1.gPipelines = w.gPipelines := by
  cases r with
  | error e => cases h
  | ok s =>
    unfold World.withRender at h
    cases h
    rfl

/-- Every successful step keeps the registry key-consistent. -/
theorem step_keyConsistent (H : hashing.StdHash) (api : ApiToEnum) (w w1 : World) (op : Op)
    (h : step H api w op = Except.ok w1) (hw : detail.KeyConsistent H w.gPipelines) :
    detail.KeyConsistent H w1.gPipelines := by
  cases op with
  | CompileGraphicsPipeline info =>
    cases h
    exact detail.keyConsistent_compile H w.gPipelines info hw
  | DestroyGraphicsPipeline pipeline =>
    cases h
    exact detail.keyConsistent_destroy H w.gPipelines pipeline hw
  | BeginSwapchainRendering renderInfo => rw [withRender_gPipelines _ _ _ h]; exact hw
  | BeginRendering renderInfoAddr renderInfo newFbo =>
    rw [withRender_gPipelines _ _ _ h]; exact hw
  | EndRendering => rw [withRender_gPipelines _ _ _ h]; exact hw
  | BindGraphicsPipeline pipeline newVao => rw [withRender_gPipelines _ _ _ h]; exact hw
  | BindVertexBuffer bindingIndex buffer offset stride =>
    rw [withRender_gPipelines _ _ _ h]; exact hw
  | BindIndexBuffer buffer indexType => rw [withRender_gPipelines _ _ _ h]; exact hw
  | Draw vertexCount instanceCount firstVertex firstInstance =>
    rw [withRender_gPipelines _ _ _ h]; exact hw
  | DrawIndexed indexCount instanceCount firstIndex vertexOffset firstInstance =>
    rw [withRender_gPipelines _ _ _ h]; exact hw
  | BindUniformBuffer index buffer offset size => rw [withRender_gPipelines _ _ _ h]; exact hw
  | BindStorageBuffer index buffer offset size => rw [withRender_gPipelines _ _ _ h]; exact hw
  | BindSampledImage index textureView sampler => rw [withRender_gPipelines _ _ _ h]; exact hw
  | BindImage index textureView level => rw [withRender_gPipelines _ _ _ h]; exact hw

/-- Every run from a key-consistent world ends in a key-consistent world. -/
theorem run_keyConsistent (H : hashing.StdHash) (api : ApiToEnum) (ops : List Op) :
    ∀ w w1 : World, detail.KeyConsistent H w.gPipelines → run H api w ops = Except.ok w1 →
      detail.KeyConsistent H w1.gPipelines := by
  induction ops with
  | nil =>
    intro w w1 hw h
    cases h
    exact hw
  | cons op rest ih =>
    intro w w1 hw h
    unfold run at h
    cases hs : step H api w op with
    | error e => rw [hs] at h; cases h
    | ok w0 =>
      rw [hs] at h
      exact ih w0 w1 (step_keyConsistent H api w w0 op hs hw) h

/-- A sequence of registry operations never fails. -/
theorem run_registryOps_ok (H : hashing.StdHash) (api : ApiToEnum) (ops : List Op) :
    ∀ w : World, (∀ o ∈ ops, o.isRegistryOp = true) → ∃ w1, run H api w ops = Except.ok w1 := by
  induction ops with
  | nil => intro w _; exact ⟨w, rfl⟩
  | cons op rest ih =>
    intro w hall
    have hop := hall op (List.mem_cons_self op rest)
    have hrest : ∀ o ∈ rest, o.isRegistryOp = true :=
      fun o ho => hall o (List.mem_cons_of_mem op ho)
    cases op with
    | CompileGraphicsPipeline info => exact ih _ hrest
    | DestroyGraphicsPipeline pipeline => exact ih _ hrest
    | BeginSwapchainRendering renderInfo => cases hop
    | BeginRendering renderInfoAddr renderInfo newFbo => cases hop
    | EndRendering => cases hop
    | BindGraphicsPipeline pipeline newVao => cases hop
    | BindVertexBuffer bindingIndex buffer offset stride => cases hop
    | BindIndexBuffer buffer indexType => cases hop
    | Draw vertexCount instanceCount firstVertex firstInstance => cases hop
    | DrawIndexed indexCount instanceCount firstIndex vertexOffset firstInstance => cases hop
    | BindUniformBuffer index buffer offset size => cases hop
    | BindStorageBuffer index buffer offset size => cases hop
    | BindSampledImage index textureView sampler => cases hop
    | BindImage index textureView level => cases hop

/-- C18: starting from the empty registry, after any sequence of operations that ran, every entry
stored under a handle `h` holds a copy whose recomputed hash (fixed fields, then vertex bindings
in order, then blend attachments in order) is `h`; and a sequence made of
`CompileGraphicsPipelineInternal` and `DestroyGraphicsPipelineInternal` calls only always
runs. -/
theorem C18_registry_key_consistency (H : hashing.StdHash) (api : ApiToEnum) (ops : List Op) :
    (∀ w : World, run H api initialWorld ops = Except.ok w →
      ∀ (h : GraphicsPipeline) (c : GraphicsPipelineInfoOwning),
        detail.GetGraphicsPipelineInternal w.gPipelines h = some c →
        detail.HashPipelineInfo H c.toInfo = h) ∧
    ((∀ o ∈ ops, o.isRegistryOp = true) → ∃ w, run H api initialWorld ops = Except.ok w) := by
  refine ⟨fun w hrun h c hc => ?_, fun hall => run_registryOps_ok H api ops initialWorld hall⟩
  rw [detail.get_eq] at hc
  exact run_keyConsistent H api ops initialWorld w (detail.keyConsistent_empty H) hrun h c hc

/-- C18 at a concrete input: compile two colliding descriptions and a third one, then destroy
the third; the program runs. -/
theorem C18_registry_key_consistency_witness :
    ∃ w, run hashing.libcxxHash sampleApi initialWorld registryOps = Except.ok w :=
  (C18_registry_key_consistency hashing.libcxxHash sampleApi registryOps).2 (by decide)

end GFX

/-! ## The trace of `Cmd::BindGraphicsPipeline` -/

namespace GFX
namespace Cmd

/-- The state after the "shader program" and "input assembly" sections. -/
theorem applyInputAssembly_eq (s : RenderState) (pipelineState : GraphicsPipelineInfoOwning) :
    applyInputAssembly s pipelineState =
      { s with
        sTopology := pipelineState.inputAssemblyState.topology
        glCalls := s.glCalls ++
          [GLCall.glUseProgram pipelineState.shaderProgram,
           GLEnableOrDisable GL_PRIMITIVE_RESTART_FIXED_INDEX
             pipelineState.inputAssemblyState.primitiveRestartEnable] } := by
  unfold applyInputAssembly RenderState.gl
  simp

/-- The state after the "vertex input" section. -/
theorem applyVertexInput_eq (api : ApiToEnum) (s : RenderState)
    (pipelineState : GraphicsPipelineInfoOwning) (newVao : Nat) :
    applyVertexInput api s pipelineState newVao =
      { s with
        sVao := newVao
        glCalls := s.glCalls ++
          ([GLCall.glDeleteVertexArrays s.sVao, GLCall.glCreateVertexArrays newVao] ++
           vertexInputLoop api newVao 0 pipelineState.vertexInputState.vertexBindingDescriptions ++
           [GLCall.glBindVertexArray newVao]) } := by
  unfold applyVertexInput RenderState.gl
  simp

/-- The state after the "rasterization" section. -/
theorem applyRasterization_eq (api : ApiToEnum) (s : RenderState)
    (pipelineState : GraphicsPipelineInfoOwning) :
    applyRasterization api s pipelineState =
      { s with
        glCalls := s.glCalls ++
          ([GLEnableOrDisable GL_DEPTH_CLAMP pipelineState.rasterizationState.depthClampEnable,
            GLCall.glPolygonMode GL_FRONT_AND_BACK
              (api.PolygonModeToGL pipelineState.rasterizationState.polygonMode),
            GLEnableOrDisable GL_CULL_FACE
              (pipelineState.rasterizationState.cullMode != api.CullMode_NONE)] ++
           (if pipelineState.rasterizationState.cullMode != api.CullMode_NONE
             then [GLCall.glCullFace (api.CullModeToGL pipelineState.rasterizationState.cullMode)]
             else []) ++
           [GLCall.glFrontFace (api.FrontFaceToGL pipelineState.rasterizationState.frontFace),
            GLEnableOrDisable GL_POLYGON_OFFSET_FILL
              pipelineState.rasterizationState.depthBiasEnable,
            GLEnableOrDisable GL_POLYGON_OFFSET_LINE
              pipelineState.rasterizationState.depthBiasEnable,
            GLEnableOrDisable GL_POLYGON_OFFSET_POINT
              pipelineState.rasterizationState.depthBiasEnable] ++
           (if pipelineState.rasterizationState.depthBiasEnable
             then [GLCall.glPolygonOffset pipelineState.rasterizationState.depthBiasSlopeFactor
               pipelineState.rasterizationState.depthBiasConstantFactor]
             else []) ++
           [GLCall.glLineWidth pipelineState.rasterizationState.lineWidth,
            GLCall.glPointSize pipelineState.rasterizationState.pointSize]) } := by
  unfold applyRasterization RenderState.gl
  simp

/-- The state after the "depth + stencil" section. -/
theorem applyDepthStencil_eq (s : RenderState) (pipelineState : GraphicsPipelineInfoOwning) :
    applyDepthStencil s pipelineState =
      { s with
        glCalls := s.glCalls ++
          [GLEnableOrDisable GL_DEPTH_TEST pipelineState.depthStencilState.depthTestEnable,
           GLCall.glDepthMask pipelineState.depthStencilState.depthWriteEnable] } := by
  unfold applyDepthStencil RenderState.gl
  simp

/-- The state after the "color blending state" section. -/
theorem applyColorBlend_eq (api : ApiToEnum) (s : RenderState)
    (pipelineState : GraphicsPipelineInfoOwning) :
    applyColorBlend api s pipelineState =
      { s with
        glCalls := s.glCalls ++
          ([GLEnableOrDisable GL_COLOR_LOGIC_OP pipelineState.colorBlendState.logicOpEnable] ++
           (if pipelineState.colorBlendState.logicOpEnable
             then [GLCall.glLogicOp (api.LogicOpToGL pipelineState.colorBlendState.logicOp)]
             else []) ++
           [GLCall.glBlendColor pipelineState.colorBlendState.blendConstants.e0
              pipelineState.colorBlendState.blendConstants.e1
              pipelineState.colorBlendState.blendConstants.e2
              pipelineState.colorBlendState.blendConstants.e3] ++
           blendAttachmentLoop api 0 pipelineState.colorBlendState.attachments) } := by
  unfold applyColorBlend RenderState.gl
  simp

/-- `Cmd::BindGraphicsPipeline` fails when the handle is not in the registry, whatever the
last-bound handle is. -/
theorem BindGraphicsPipeline_unknown (api : ApiToEnum) (gPipelines : detail.PipelineMap)
    (s : RenderState) (pipeline : GraphicsPipeline) (newVao : Nat)
    (hg : detail.GetGraphicsPipelineInternal gPipelines pipeline = none) :
    BindGraphicsPipeline api gPipelines s pipeline newVao = Except.error Failure.assertion := by
  unfold BindGraphicsPipeline
  simp only [hg]

/-- `Cmd::BindGraphicsPipeline` on a registered handle that is the last-bound one only sets
`isPipelineBound`. -/
theorem BindGraphicsPipeline_skip (api : ApiToEnum) (gPipelines : detail.PipelineMap)
    (s : RenderState) (pipeline : GraphicsPipeline) (newVao : Nat)
    (c : GraphicsPipelineInfoOwning)
    (hg : detail.GetGraphicsPipelineInternal gPipelines pipeline = some c)
    (hl : s.sLastGraphicsPipeline = pipeline) :
    BindGraphicsPipeline api gPipelines s pipeline newVao =
      Except.ok { s with isPipelineBound := true } := by
  unfold BindGraphicsPipeline
  simp only [hg]
  exact if_pos hl

/-- `Cmd::BindGraphicsPipeline` on a registered handle that is not the last-bound one: the
state it returns, field by field. -/
theorem BindGraphicsPipeline_apply (api : ApiToEnum) (gPipelines : detail.PipelineMap)
    (s : RenderState) (pipeline : GraphicsPipeline) (newVao : Nat)
    (c : GraphicsPipelineInfoOwning)
    (hg : detail.GetGraphicsPipelineInternal gPipelines pipeline = some c)
    (hl : s.sLastGraphicsPipeline ≠ pipeline) :
    BindGraphicsPipeline api gPipelines s pipeline newVao =
      Except.ok
        { isRendering := s.isRendering
          isPipelineBound := true
          isIndexBufferBound := s.isIndexBufferBound
          sLastGraphicsPipeline := pipeline
          sLastRenderInfo := s.sLastRenderInfo
          sTopology := c.inputAssemblyState.topology
          sIndexType := s.sIndexType
          sVao := newVao
          sFbo := s.sFbo
          glCalls := s.glCalls ++ pipelineStateCalls api c s.sVao newVao } := by
  unfold BindGraphicsPipeline
  simp only [hg]
  rw [if_neg hl]
  simp only [applyInputAssembly_eq, applyVertexInput_eq, applyRasterization_eq,
    applyDepthStencil_eq, applyColorBlend_eq, pipelineStateCalls]
  simp

end Cmd
end GFX

namespace GFX
namespace Cmd

end Cmd
open hashing

/-- C16, as stated, fails: after compiling a description, binding its handle and destroying the
handle, the handle is the last-bound one, and binding it again fails on the assertion. -/
theorem C16_rebind_destroyed_fails :
    ∃ w, run libcxxHash sampleApi initialWorld bindThenDestroyOps = Except.ok w ∧
      w.render.sLastGraphicsPipeline = sampleHandle ∧
      Cmd.BindGraphicsPipeline sampleApi w.gPipelines w.render sampleHandle 2 =
        Except.error Failure.assertion :=
  ⟨_, rfl, rfl, rfl⟩

/-- C16, amended: for every session state and every handle `h` equal to the last-bound handle,
if `h` is present in the registry then binding `h` does not fail, emits no call and changes no
session state other than setting pipeline-bound to true; if `h` is not present (for instance
after it was destroyed) then binding `h` fails on the assertion. -/
theorem C16_bind_last_bound (api : ApiToEnum) (gPipelines : detail.PipelineMap)
    (s : RenderState) (h : GraphicsPipeline) (newVao : Nat)
    (hlast : s.sLastGraphicsPipeline = h) :
    (detail.GetGraphicsPipelineInternal gPipelines h ≠ none →
      Cmd.BindGraphicsPipeline api gPipelines s h newVao =
        Except.ok { s with isPipelineBound := true }) ∧
    (detail.GetGraphicsPipelineInternal gPipelines h = none →
      Cmd.BindGraphicsPipeline api gPipelines s h newVao = Except.error Failure.assertion) := by
  refine ⟨fun hreg => ?_, fun hreg => Cmd.BindGraphicsPipeline_unknown api gPipelines s h newVao hreg⟩
  cases hg : detail.GetGraphicsPipelineInternal gPipelines h with
  | none => exact absurd hg hreg
  | some c => exact Cmd.BindGraphicsPipeline_skip api gPipelines s h newVao c hg hlast

/-- C16, amended, at a concrete input: rebinding the sample handle while it is registered. -/
theorem C16_bind_last_bound_witness :
    Cmd.BindGraphicsPipeline sampleApi sampleRegistry boundRenderState sampleHandle 2 =
      Except.ok { boundRenderState with isPipelineBound := true } :=
  (C16_bind_last_bound sampleApi sampleRegistry boundRenderState sampleHandle 2 rfl).1
    (by decide)

end GFX

/-! ## The trace of the pass begins -/

namespace GFX

/-- The state `BeginSwapchainRendering` returns on an idle session. -/
theorem BeginSwapchainRendering_eq (s : RenderState) (ri : SwapchainRenderInfo)
    (h : s.isRendering = false) :
    BeginSwapchainRendering s ri =
      Except.ok { s with
        isRendering := true
        sLastRenderInfo := none
        glCalls := s.glCalls ++ swapchainCalls ri } := by
  unfold BeginSwapchainRendering
  rw [if_neg (by simp [h])]
  obtain ⟨c, cv, d, dv, st, stv⟩ := ri
  cases c <;> cases d <;> cases st <;>
    simp [RenderState.gl, swapchainCalls, swapchainClearMask]

/-- The state `BeginRendering` returns on an idle session whose cached render-target set is the
argument: only `isRendering` is set. -/
theorem BeginRendering_skip (api : ApiToEnum) (s : RenderState) (addr : Nat) (ri : RenderInfo)
    (newFbo : Nat) (h : s.isRendering = false) (hl : s.sLastRenderInfo = some addr) :
    BeginRendering api s addr ri newFbo = Except.ok { s with isRendering := true } := by
  unfold BeginRendering
  rw [if_neg (by simp [h])]
  exact if_pos hl

/-- The state `BeginRendering` returns on an idle session whose cached render-target set is not
the argument: the target is reconfigured. -/
theorem BeginRendering_reconfigure (api : ApiToEnum) (s : RenderState) (addr : Nat)
    (ri : RenderInfo) (newFbo : Nat) (h : s.isRendering = false)
    (hl : s.sLastRenderInfo ≠ some addr) :
    BeginRendering api s addr ri newFbo =
      Except.ok { s with
        isRendering := true
        sLastRenderInfo := some addr
        sFbo := newFbo
        glCalls := s.glCalls ++ reconfigureCalls api s.sFbo newFbo ri } := by
  unfold BeginRendering
  rw [if_neg (by simp [h])]
  have hl2 : ¬ ({ s with isRendering := true } : RenderState).sLastRenderInfo = some addr := hl
  rw [if_neg hl2]
  simp [RenderState.gl, reconfigureCalls]

/-- The state `EndRendering` returns on an active session. -/
theorem EndRendering_eq (s : RenderState) (h : s.isRendering = true) :
    EndRendering s =
      Except.ok { s with
        isPipelineBound := false
        isRendering := false
        isIndexBufferBound := false } := by
  unfold EndRendering
  rw [if_neg (by simp [h])]

/-- The clear calls among the calls of a default-target begin: the one `glClear` at the end. -/
theorem filter_isClear_swapchainCalls (ri : SwapchainRenderInfo) :
    (swapchainCalls ri).filter GLCall.isClear = [GLCall.glClear (swapchainClearMask ri)] := by
  unfold swapchainCalls
  cases ri.clearColorOnLoad <;> cases ri.clearDepthOnLoad <;> cases ri.clearStencilOnLoad <;>
    simp [List.filter_cons, GLCall.isClear]

/-- The bits of the clear mask of a default-target begin. -/
theorem swapchainClearMask_bits (ri : SwapchainRenderInfo) :
    (swapchainClearMask ri &&& GL_COLOR_BUFFER_BIT ≠ 0 ↔ ri.clearColorOnLoad = true) ∧
    (swapchainClearMask ri &&& GL_DEPTH_BUFFER_BIT ≠ 0 ↔ ri.clearDepthOnLoad = true) ∧
    (swapchainClearMask ri &&& GL_STENCIL_BUFFER_BIT ≠ 0 ↔ ri.clearStencilOnLoad = true) := by
  unfold swapchainClearMask
  cases ri.clearColorOnLoad <;> cases ri.clearDepthOnLoad <;> cases ri.clearStencilOnLoad <;>
    decide

/-- C12: for every render-target set and every idle session state, in the sequence
`BeginRendering(rt)`, `EndRendering`, `BeginRendering(rt)` with the same address all three calls
return, and the second begin emits no call at all and changes nothing but `isRendering`: the
trace and the framebuffer object after it are those after the first begin. The first begin emits
exactly the calls of one reconfiguration when the cached render-target set was not `rt` (as at
program start), so the sequence reconstructs the framebuffer once. -/
theorem C12_same_target_skips (api : ApiToEnum) (s : RenderState) (addr : Nat) (ri : RenderInfo)
    (newFbo1 newFbo2 : Nat) (hidle : s.isRendering = false) :
    ∃ s1 s2 s3, BeginRendering api s addr ri newFbo1 = Except.ok s1 ∧
      EndRendering s1 = Except.ok s2 ∧
      BeginRendering api s2 addr ri newFbo2 = Except.ok s3 ∧
      s3 = { s2 with isRendering := true } ∧
      s3.glCalls = s1.glCalls ∧ s3.sFbo = s1.sFbo ∧
      (s.sLastRenderInfo ≠ some addr →
        s3.glCalls = s.glCalls ++ reconfigureCalls api s.sFbo newFbo1 ri) := by
  by_cases hl : s.sLastRenderInfo = some addr
  · refine ⟨_, _, _, BeginRendering_skip api s addr ri newFbo1 hidle hl,
      EndRendering_eq _ rfl, BeginRendering_skip api _ addr ri newFbo2 rfl hl, rfl, rfl, rfl,
      fun hne => absurd hl hne⟩
  · refine ⟨_, _, _, BeginRendering_reconfigure api s addr ri newFbo1 hidle hl,
      EndRendering_eq _ rfl, BeginRendering_skip api _ addr ri newFbo2 rfl rfl, rfl, rfl, rfl,
      fun _ => rfl⟩

/-- C12 at a concrete input: the sample render-target set at program start. -/
theorem C12_same_target_skips_witness :
    ∃ s1 s2 s3, BeginRendering sampleApi initialRenderState 4096 sampleRenderInfo 1 =
        Except.ok s1 ∧
      EndRendering s1 = Except.ok s2 ∧
      BeginRendering sampleApi s2 4096 sampleRenderInfo 2 = Except.ok s3 ∧
      s3 = { s2 with isRendering := true } ∧
      s3.glCalls = s1.glCalls ∧ s3.sFbo = s1.sFbo ∧
      (initialRenderState.sLastRenderInfo ≠ some 4096 →
        s3.glCalls = initialRenderState.glCalls ++
          reconfigureCalls sampleApi initialRenderState.sFbo 1 sampleRenderInfo) :=
  C12_same_target_skips sampleApi initialRenderState 4096 sampleRenderInfo 1 2 rfl

/-- C13: a default-target begin on an idle session returns, and among the calls it emits there
is exactly one clear call, a `glClear` whose mask has the colour bit exactly when clear-colour
is flagged, the depth bit exactly when clear-depth is flagged and the stencil bit exactly when
clear-stencil is flagged; with only colour flagged the mask is the colour bit alone. -/
theorem C13_swapchain_one_clear (s : RenderState) (ri : SwapchainRenderInfo)
    (hidle : s.isRendering = false) :
    ∃ s1 emitted mask, BeginSwapchainRendering s ri = Except.ok s1 ∧
      s1.glCalls = s.glCalls ++ emitted ∧
      emitted.filter GLCall.isClear = [GLCall.glClear mask] ∧
      (mask &&& GL_COLOR_BUFFER_BIT ≠ 0 ↔ ri.clearColorOnLoad = true) ∧
      (mask &&& GL_DEPTH_BUFFER_BIT ≠ 0 ↔ ri.clearDepthOnLoad = true) ∧
      (mask &&& GL_STENCIL_BUFFER_BIT ≠ 0 ↔ ri.clearStencilOnLoad = true) ∧
      (ri.clearColorOnLoad = true → ri.clearDepthOnLoad = false →
        ri.clearStencilOnLoad = false → mask = GL_COLOR_BUFFER_BIT) := by
  obtain ⟨hc, hd, hs⟩ := swapchainClearMask_bits ri
  refine ⟨_, swapchainCalls ri, swapchainClearMask ri, BeginSwapchainRendering_eq s ri hidle,
    rfl, filter_isClear_swapchainCalls ri, hc, hd, hs, fun h1 h2 h3 => ?_⟩
  unfold swapchainClearMask
  rw [h1, h2, h3]
  rfl

/-- C13 at a concrete input: the sample default-target begin, which flags colour only, at
program start. -/
theorem C13_swapchain_one_clear_witness :
    ∃ s1 emitted mask, BeginSwapchainRendering initialRenderState sampleSwapchainInfo =
        Except.ok s1 ∧
      s1.glCalls = initialRenderState.glCalls ++ emitted ∧
      emitted.filter GLCall.isClear = [GLCall.glClear mask] ∧ mask = GL_COLOR_BUFFER_BIT := by
  obtain ⟨s1, emitted, mask, h1, h2, h3, _, _, _, h7⟩ :=
    C13_swapchain_one_clear initialRenderState sampleSwapchainInfo rfl
  exact ⟨s1, emitted, mask, h1, h2, h3, h7 rfl rfl rfl⟩

end GFX

namespace GFX

/-- No call of the colour-attach loop clears depth or stencil. -/
theorem filter_isDepthStencilClear_attachColorLoop (sFbo : Nat)
    (attachments : List RenderAttachment) :
    ∀ i, (attachColorLoop sFbo i attachments).1.filter GLCall.isDepthStencilClear = [] := by
  induction attachments with
  | nil => intro i; rfl
  | cons a rest ih =>
    intro i
    unfold attachColorLoop
    simp [List.filter_cons, GLCall.isDepthStencilClear, ih (i + 1)]

/-- No colour clear of one attachment clears depth or stencil. -/
theorem filter_isDepthStencilClear_clearColorCall (api : ApiToEnum) (sFbo i : Nat)
    (a : RenderAttachment) :
    (clearColorCall api sFbo i a).filter GLCall.isDepthStencilClear = [] := by
  unfold clearColorCall
  cases hl : a.clearOnLoad <;> cases hc : api.FormatToBaseTypeClass a.textureView.format <;>
    simp [hc, List.filter_cons, GLCall.isDepthStencilClear, GL_COLOR, GL_DEPTH, GL_STENCIL]

/-- No call of the colour-clear loop clears depth or stencil. -/
theorem filter_isDepthStencilClear_clearColorLoop (api : ApiToEnum) (sFbo : Nat)
    (attachments : List RenderAttachment) :
    ∀ i, (clearColorLoop api sFbo i attachments).filter GLCall.isDepthStencilClear = [] := by
  induction attachments with
  | nil => intro i; rfl
  | cons a rest ih =>
    intro i
    unfold clearColorLoop
    rw [List.filter_append, filter_isDepthStencilClear_clearColorCall, ih (i + 1)]
    rfl

/-- No depth/stencil attach call clears depth or stencil. -/
theorem filter_isDepthStencilClear_attachDepthStencil (sFbo : Nat) (ri : RenderInfo) :
    (attachDepthStencil sFbo ri).filter GLCall.isDepthStencilClear = [] := by
  unfold attachDepthStencil
  cases ri.depthAttachment <;> cases ri.stencilAttachment <;>
    simp only [] <;> (try split_ifs) <;> simp [List.filter_cons, GLCall.isDepthStencilClear]

/-- Every call of the depth/stencil clear chain clears depth or stencil. -/
theorem filter_isDepthStencilClear_clearDepthStencil (sFbo : Nat) (ri : RenderInfo) :
    (clearDepthStencil sFbo ri).filter GLCall.isDepthStencilClear = clearDepthStencil sFbo ri := by
  unfold clearDepthStencil
  cases ri.depthAttachment <;> cases ri.stencilAttachment <;>
    simp only [] <;> (try split_ifs) <;>
    simp [List.filter_cons, GLCall.isDepthStencilClear, GL_DEPTH, GL_STENCIL]

/-- The depth/stencil clears among the calls of a reconfiguration are the calls of the
depth/stencil clear chain. -/
theorem filter_isDepthStencilClear_reconfigureCalls (api : ApiToEnum) (oldFbo newFbo : Nat)
    (ri : RenderInfo) :
    (reconfigureCalls api oldFbo newFbo ri).filter GLCall.isDepthStencilClear =
      clearDepthStencil newFbo ri := by
  unfold reconfigureCalls
  simp only [List.filter_append, filter_isDepthStencilClear_attachColorLoop,
    filter_isDepthStencilClear_clearColorLoop, filter_isDepthStencilClear_attachDepthStencil,
    filter_isDepthStencilClear_clearDepthStencil]
  simp [List.filter_cons, GLCall.isDepthStencilClear]

/-- The depth/stencil clear chain, by which attachments are present and flagged. -/
theorem clearDepthStencil_cases (sFbo : Nat) (ri : RenderInfo) :
    (clearDepthStencil sFbo ri).length ≤ 1 ∧
    ((ri.depthFlagged = true ∧ ri.stencilFlagged = true) ↔
      ∃ depth stencil, clearDepthStencil sFbo ri =
        [GLCall.glClearNamedFramebufferfi sFbo GL_DEPTH_STENCIL 0 depth stencil]) ∧
    ((ri.depthFlagged = true ∧ ri.stencilFlagged = false) ↔
      ∃ depth, clearDepthStencil sFbo ri =
        [GLCall.glClearNamedFramebufferfv sFbo GL_DEPTH 0 [depth]]) ∧
    ((ri.stencilFlagged = true ∧ ri.depthFlagged = false) ↔
      ∃ stencil, clearDepthStencil sFbo ri =
        [GLCall.glClearNamedFramebufferiv sFbo GL_STENCIL 0 [stencil]]) ∧
    ((ri.depthFlagged = false ∧ ri.stencilFlagged = false) ↔ clearDepthStencil sFbo ri = []) := by
  obtain ⟨vp, cas, depth, stencil⟩ := ri
  cases depth with
  | none =>
    cases stencil with
    | none => simp [clearDepthStencil, RenderInfo.depthFlagged, RenderInfo.stencilFlagged]
    | some st =>
      cases hs : st.clearOnLoad <;>
        simp [clearDepthStencil, RenderInfo.depthFlagged, RenderInfo.stencilFlagged, hs]
  | some d =>
    cases stencil with
    | none =>
      cases hd : d.clearOnLoad <;>
        simp [clearDepthStencil, RenderInfo.depthFlagged, RenderInfo.stencilFlagged, hd]
    | some st =>
      cases hd : d.clearOnLoad <;> cases hs : st.clearOnLoad <;>
        simp [clearDepthStencil, RenderInfo.depthFlagged, RenderInfo.stencilFlagged, hd, hs]

/-- When both attachments are present on different images, only the depth image is attached. -/
theorem attachDepthStencil_split (sFbo : Nat) (ri : RenderInfo) (depth stencil : RenderAttachment)
    (hd : ri.depthAttachment = some depth) (hs : ri.stencilAttachment = some stencil)
    (hne : depth.textureView.addr ≠ stencil.textureView.addr) :
    attachDepthStencil sFbo ri =
      [GLCall.glNamedFramebufferTexture sFbo GL_DEPTH_ATTACHMENT depth.textureView.handle 0] := by
  unfold attachDepthStencil
  rw [hd, hs]
  exact if_neg hne

/-- C14 fails on the code: at program start, begin a custom-target pass on a render-target set
whose depth attachment and stencil attachment are present on different images; the begin
returns and the only texture it attaches is the depth image, at the depth attachment, so the
present stencil attachment is not attached. -/
theorem C14_split_stencil_not_attached :
    sampleDepthView.addr ≠ sampleStencilView.addr ∧
    ∃ s1, BeginRendering sampleApi initialRenderState 4096 splitDepthStencilInfo 1 =
        Except.ok s1 ∧
      s1.glCalls.filter GLCall.isFramebufferTexture =
        [GLCall.glNamedFramebufferTexture 1 GL_DEPTH_ATTACHMENT sampleDepthView.handle 0] :=
  ⟨by decide, _, rfl, by decide⟩

/-- C15: a custom-target begin that reconfigures the target returns, and among the calls it
emits there is at most one depth/stencil clear: a combined depth+stencil clear exactly when both
attachments are present and flagged; a depth-only clear exactly when the depth attachment is
present and flagged and the stencil attachment is absent or unflagged; a stencil-only clear
exactly when the stencil attachment is present and flagged and the depth attachment is absent
or unflagged; none exactly when neither is present and flagged. -/
theorem C15_depth_stencil_clear (api : ApiToEnum) (s : RenderState) (addr : Nat)
    (ri : RenderInfo) (newFbo : Nat) (hidle : s.isRendering = false)
    (hl : s.sLastRenderInfo ≠ some addr) :
    ∃ s1 emitted, BeginRendering api s addr ri newFbo = Except.ok s1 ∧
      s1.glCalls = s.glCalls ++ emitted ∧
      (emitted.filter GLCall.isDepthStencilClear).length ≤ 1 ∧
      ((ri.depthFlagged = true ∧ ri.stencilFlagged = true) ↔
        ∃ depth stencil, emitted.filter GLCall.isDepthStencilClear =
          [GLCall.glClearNamedFramebufferfi newFbo GL_DEPTH_STENCIL 0 depth stencil]) ∧
      ((ri.depthFlagged = true ∧ ri.stencilFlagged = false) ↔
        ∃ depth, emitted.filter GLCall.isDepthStencilClear =
          [GLCall.glClearNamedFramebufferfv newFbo GL_DEPTH 0 [depth]]) ∧
      ((ri.stencilFlagged = true ∧ ri.depthFlagged = false) ↔
        ∃ stencil, emitted.filter GLCall.isDepthStencilClear =
          [GLCall.glClearNamedFramebufferiv newFbo GL_STENCIL 0 [stencil]]) ∧
      ((ri.depthFlagged = false ∧ ri.stencilFlagged = false) ↔
        emitted.filter GLCall.isDepthStencilClear = []) := by
  refine ⟨_, reconfigureCalls api s.sFbo newFbo ri,
    BeginRendering_reconfigure api s addr ri newFbo hidle hl, rfl, ?_⟩
  rw [filter_isDepthStencilClear_reconfigureCalls]
  exact clearDepthStencil_cases newFbo ri

/-- C15 at a concrete input: the render-target set with only a flagged stencil attachment, at
program start; the one depth/stencil clear is a stencil-only clear. -/
theorem C15_depth_stencil_clear_witness :
    initialRenderState.isRendering = false ∧ initialRenderState.sLastRenderInfo ≠ some 4096 ∧
    ∃ s1 emitted, BeginRendering sampleApi initialRenderState 4096 stencilOnlyInfo 1 =
        Except.ok s1 ∧
      s1.glCalls = initialRenderState.glCalls ++ emitted ∧
      ∃ stencil, emitted.filter GLCall.isDepthStencilClear =
        [GLCall.glClearNamedFramebufferiv 1 GL_STENCIL 0 [stencil]] := by
  have hl : initialRenderState.sLastRenderInfo ≠ some 4096 := by decide
  obtain ⟨s1, emitted, h1, h2, _, _, _, h6, _⟩ :=
    C15_depth_stencil_clear sampleApi initialRenderState 4096 stencilOnlyInfo 1 rfl hl
  exact ⟨rfl, hl, s1, emitted, h1, h2, h6.mp ⟨rfl, rfl⟩⟩

end GFX

namespace GFX

/-- The depth/stencil attach chain does not read the clear value of the stencil attachment. -/
theorem attachDepthStencil_stencil_clearValue (sFbo : Nat) (ri : RenderInfo)
    (st : RenderAttachment) (cv : ClearValue) (hs : ri.stencilAttachment = some st) :
    attachDepthStencil sFbo { ri with stencilAttachment := some { st with clearValue := cv } } =
      attachDepthStencil sFbo ri := by
  unfold attachDepthStencil
  simp only [hs]
  cases ri.depthAttachment <;> rfl

/-- The combined depth+stencil clear takes both values from the depth attachment. -/
theorem clearDepthStencil_combined (sFbo : Nat) (ri : RenderInfo) (d st : RenderAttachment)
    (hd : ri.depthAttachment = some d) (hs : ri.stencilAttachment = some st)
    (hdf : d.clearOnLoad = true) (hsf : st.clearOnLoad = true) :
    clearDepthStencil sFbo ri =
      [GLCall.glClearNamedFramebufferfi sFbo GL_DEPTH_STENCIL 0
        d.clearValue.depthStencil.depth d.clearValue.depthStencil.stencil] := by
  unfold clearDepthStencil
  simp [hd, hs, hdf, hsf]

/-- The stencil-only clear takes its value from the stencil attachment. -/
theorem clearDepthStencil_stencilOnly (sFbo : Nat) (ri : RenderInfo) (st : RenderAttachment)
    (hs : ri.stencilAttachment = some st) (hsf : st.clearOnLoad = true)
    (hdf : ri.depthFlagged = false) :
    clearDepthStencil sFbo ri =
      [GLCall.glClearNamedFramebufferiv sFbo GL_STENCIL 0
        [st.clearValue.depthStencil.stencil]] := by
  unfold clearDepthStencil
  unfold RenderInfo.depthFlagged at hdf
  cases hd : ri.depthAttachment with
  | none => simp [hs, hsf]
  | some d =>
    rw [hd] at hdf
    simp only at hdf
    simp [hs, hsf, hdf]

/-- With both attachments present and flagged, the calls of a reconfiguration do not depend on
the clear value of the stencil attachment. -/
theorem reconfigureCalls_stencil_clearValue (api : ApiToEnum) (oldFbo newFbo : Nat)
    (ri : RenderInfo) (d st : RenderAttachment) (cv : ClearValue)
    (hd : ri.depthAttachment = some d) (hs : ri.stencilAttachment = some st)
    (hdf : d.clearOnLoad = true) (hsf : st.clearOnLoad = true) :
    reconfigureCalls api oldFbo newFbo
        { ri with stencilAttachment := some { st with clearValue := cv } } =
      reconfigureCalls api oldFbo newFbo ri := by
  unfold reconfigureCalls
  rw [attachDepthStencil_stencil_clearValue newFbo ri st cv hs,
    clearDepthStencil_combined newFbo ri d st hd hs hdf hsf,
    clearDepthStencil_combined newFbo
      { ri with stencilAttachment := some { st with clearValue := cv } } d
      { st with clearValue := cv } hd rfl hdf hsf]

/-- C20: in a custom-target begin that reconfigures the target with the stencil attachment
present and flagged: when the depth attachment is present and flagged too, the one
depth/stencil clear is the combined clear with both the depth value and the stencil value taken
from the clear value of the depth attachment, and replacing the clear value of the stencil
attachment by any other gives the same state and the same emitted calls; when the depth
attachment is absent or unflagged, the one depth/stencil clear is the stencil-only clear with
the stencil value of the stencil attachment. -/
theorem C20_combined_clear_values (api : ApiToEnum) (s : RenderState) (addr : Nat)
    (ri : RenderInfo) (newFbo : Nat) (st : RenderAttachment) (hidle : s.isRendering = false)
    (hl : s.sLastRenderInfo ≠ some addr) (hs : ri.stencilAttachment = some st)
    (hsf : st.clearOnLoad = true) :
    ∃ s1 emitted, BeginRendering api s addr ri newFbo = Except.ok s1 ∧
      s1.glCalls = s.glCalls ++ emitted ∧
      (∀ d, ri.depthAttachment = some d → d.clearOnLoad = true →
        emitted.filter GLCall.isDepthStencilClear =
          [GLCall.glClearNamedFramebufferfi newFbo GL_DEPTH_STENCIL 0
            d.clearValue.depthStencil.depth d.clearValue.depthStencil.stencil] ∧
        ∀ cv, BeginRendering api s addr
            { ri with stencilAttachment := some { st with clearValue := cv } } newFbo =
          Except.ok s1) ∧
      (ri.depthFlagged = false →
        emitted.filter GLCall.isDepthStencilClear =
          [GLCall.glClearNamedFramebufferiv newFbo GL_STENCIL 0
            [st.clearValue.depthStencil.stencil]]) := by
  refine ⟨_, reconfigureCalls api s.sFbo newFbo ri,
    BeginRendering_reconfigure api s addr ri newFbo hidle hl, rfl, fun d hd hdf => ⟨?_, ?_⟩,
    fun hdf => ?_⟩
  · rw [filter_isDepthStencilClear_reconfigureCalls,
      clearDepthStencil_combined newFbo ri d st hd hs hdf hsf]
  · intro cv
    rw [BeginRendering_reconfigure api s addr _ newFbo hidle hl,
      reconfigureCalls_stencil_clearValue api s.sFbo newFbo ri d st cv hd hs hdf hsf]
  · rw [filter_isDepthStencilClear_reconfigureCalls,
      clearDepthStencil_stencilOnly newFbo ri st hs hsf hdf]

/-- C20 at a concrete input: depth (clear value: depth `1.0f`, stencil 0) and stencil (clear
value: stencil 255) both present and flagged, at program start; the combined clear is called
with stencil 0, the value of the depth attachment. -/
theorem C20_combined_clear_values_witness :
    initialRenderState.isRendering = false ∧ initialRenderState.sLastRenderInfo ≠ some 4096 ∧
    ∃ s1 emitted, BeginRendering sampleApi initialRenderState 4096 splitDepthStencilInfo 1 =
        Except.ok s1 ∧
      s1.glCalls = initialRenderState.glCalls ++ emitted ∧
      emitted.filter GLCall.isDepthStencilClear =
        [GLCall.glClearNamedFramebufferfi 1 GL_DEPTH_STENCIL 0 0x3F800000 0] := by
  have hl : initialRenderState.sLastRenderInfo ≠ some 4096 := by decide
  obtain ⟨s1, emitted, h1, h2, h3, _⟩ :=
    C20_combined_clear_values sampleApi initialRenderState 4096 splitDepthStencilInfo 1
      { textureView := sampleStencilView, clearValue := sampleClearValue 0 255,
        clearOnLoad := true } rfl hl rfl rfl
  exact ⟨rfl, hl, s1, emitted, h1, h2,
    (h3 { textureView := sampleDepthView, clearValue := sampleClearValue 0x3F800000 0,
          clearOnLoad := true } rfl rfl).1⟩

end GFX

/-! ## The bound framebuffer -/

namespace GFX

/-- The framebuffer bound after two traces in a row. -/
theorem boundFramebuffer_append (cs ds : List GLCall) :
    boundFramebuffer (cs ++ ds) = ds.foldl boundAfter (boundFramebuffer cs) := by
  unfold boundFramebuffer
  rw [List.foldl_append]

/-- Calls that do not change the binding leave the bound framebuffer as it was. -/
theorem foldl_boundAfter_of_no_bind (ds : List GLCall)
    (h : ∀ c ∈ ds, c.changesBinding = false) : ∀ b, ds.foldl boundAfter b = b := by
  induction ds with
  | nil => intro b; rfl
  | cons d rest ih =>
    intro b
    have hd : d.changesBinding = false := h d (List.mem_cons_self d rest)
    have hb : boundAfter b d = b := by
      cases d <;> first | rfl | cases hd
    rw [List.foldl_cons, hb]
    exact ih (fun c hc => h c (List.mem_cons_of_mem d hc)) b

/-- One call that does not change the binding leaves the bound framebuffer as it was. -/
theorem boundFramebuffer_append_singleton (cs : List GLCall) (c : GLCall)
    (h : c.changesBinding = false) :
    boundFramebuffer (cs ++ [c]) = boundFramebuffer cs := by
  rw [boundFramebuffer_append]
  exact foldl_boundAfter_of_no_bind [c] (fun x hx => by rw [List.mem_singleton.mp hx]; exact h) _

/-- The helper `GLEnableOrDisable` never changes the framebuffer binding. -/
theorem changesBinding_GLEnableOrDisable (state : Nat) (value : Bool) :
    (GLEnableOrDisable state value).changesBinding = false := by
  cases value <;> rfl

/-- The vertex-input loop never changes the framebuffer binding. -/
theorem no_bind_vertexInputLoop (api : ApiToEnum) (sVao : Nat)
    (descs : List VertexInputBindingDescription) :
    ∀ i, ∀ c ∈ Cmd.vertexInputLoop api sVao i descs, c.changesBinding = false := by
  induction descs with
  | nil => intro i c hc; cases hc
  | cons desc rest ih =>
    intro i c hc
    unfold Cmd.vertexInputLoop at hc
    cases hcl : api.FormatToFormatClass desc.format <;>
      simp only [hcl, List.cons_append, List.nil_append, List.mem_cons] at hc <;>
      rcases hc with hc | hc | hc | hc <;>
      first
        | exact ih (i + 1) c hc
        | (rw [hc]; rfl)

/-- The colour-blend loop never changes the framebuffer binding. -/
theorem no_bind_blendAttachmentLoop (api : ApiToEnum)
    (attachments : List ColorBlendAttachmentState) :
    ∀ i, ∀ c ∈ Cmd.blendAttachmentLoop api i attachments, c.changesBinding = false := by
  induction attachments with
  | nil => intro i c hc; cases hc
  | cons cba rest ih =>
    intro i c hc
    unfold Cmd.blendAttachmentLoop at hc
    simp only [List.cons_append, List.nil_append, List.mem_cons] at hc
    rcases hc with hc | hc | hc | hc
    · rw [hc]; rfl
    · rw [hc]; rfl
    · rw [hc]; rfl
    · exact ih (i + 1) c hc

/-- Applying a pipeline never changes the framebuffer binding. -/
theorem no_bind_pipelineStateCalls (api : ApiToEnum) (c : GraphicsPipelineInfoOwning)
    (oldVao newVao : Nat) :
    ∀ x ∈ Cmd.pipelineStateCalls api c oldVao newVao, x.changesBinding = false := by
  have hv := no_bind_vertexInputLoop api newVao c.vertexInputState.vertexBindingDescriptions 0
  have hb := no_bind_blendAttachmentLoop api c.colorBlendState.attachments 0
  unfold Cmd.pipelineStateCalls
  cases c.rasterizationState.cullMode != api.CullMode_NONE <;>
    cases c.rasterizationState.depthBiasEnable <;>
    cases c.colorBlendState.logicOpEnable <;>
    (simp only [List.forall_mem_append, List.forall_mem_cons, changesBinding_GLEnableOrDisable];
     simp [GLCall.changesBinding];
     exact ⟨hv, hb⟩)

end GFX

namespace GFX

/-- Appending calls that do not change the binding leaves the framebuffer object, the cached
render-target set and the bound framebuffer as they were. -/
theorem gl_target (s : RenderState) (calls : List GLCall)
    (h : ∀ c ∈ calls, c.changesBinding = false) :
    (s.gl calls).sFbo = s.sFbo ∧ (s.gl calls).sLastRenderInfo = s.sLastRenderInfo ∧
      boundFramebuffer (s.gl calls).glCalls = boundFramebuffer s.glCalls := by
  refine ⟨rfl, rfl, ?_⟩
  show boundFramebuffer (s.glCalls ++ calls) = boundFramebuffer s.glCalls
  rw [boundFramebuffer_append]
  exact foldl_boundAfter_of_no_bind calls h _

/-- The framebuffer bound after the calls of a reconfiguration is the new framebuffer object. -/
theorem boundFramebuffer_reconfigureCalls (api : ApiToEnum) (cs : List GLCall)
    (oldFbo newFbo : Nat) (ri : RenderInfo) :
    boundFramebuffer (cs ++ reconfigureCalls api oldFbo newFbo ri) = newFbo := by
  unfold reconfigureCalls boundFramebuffer
  simp [List.foldl_append, boundAfter]

/-- The framebuffer bound after the calls of a default-target begin is the default one. -/
theorem boundFramebuffer_swapchainCalls (cs : List GLCall) (ri : SwapchainRenderInfo) :
    boundFramebuffer (cs ++ swapchainCalls ri) = 0 := by
  unfold swapchainCalls boundFramebuffer
  cases ri.clearColorOnLoad <;> cases ri.clearDepthOnLoad <;> cases ri.clearStencilOnLoad <;>
    simp [List.foldl_append, boundAfter]

/-- `Cmd::BindGraphicsPipeline`, when it returns, has left the framebuffer object, the cached
render-target set and the bound framebuffer as they were. -/
theorem BindGraphicsPipeline_target (api : ApiToEnum) (gPipelines : detail.PipelineMap)
    (s s1 : RenderState) (pipeline : GraphicsPipeline) (newVao : Nat)
    (h : Cmd.BindGraphicsPipeline api gPipelines s pipeline newVao = Except.ok s1) :
    s1.sFbo = s.sFbo ∧ s1.sLastRenderInfo = s.sLastRenderInfo ∧
      boundFramebuffer s1.glCalls = boundFramebuffer s.glCalls := by
  cases hg : detail.GetGraphicsPipelineInternal gPipelines pipeline with
  | none =>
    rw [Cmd.BindGraphicsPipeline_unknown api gPipelines s pipeline newVao hg] at h
    cases h
  | some c =>
    by_cases hl : s.sLastGraphicsPipeline = pipeline
    · rw [Cmd.BindGraphicsPipeline_skip api gPipelines s pipeline newVao c hg hl] at h
      cases h
      exact ⟨rfl, rfl, rfl⟩
    · rw [Cmd.BindGraphicsPipeline_apply api gPipelines s pipeline newVao c hg hl] at h
      cases h
      refine ⟨rfl, rfl, ?_⟩
      show boundFramebuffer (s.glCalls ++ Cmd.pipelineStateCalls api c s.sVao newVao) =
        boundFramebuffer s.glCalls
      rw [boundFramebuffer_append]
      exact foldl_boundAfter_of_no_bind _ (no_bind_pipelineStateCalls api c s.sVao newVao) _

/-- A successful step of an operation that neither is a pass begin leaves the framebuffer
object, the cached render-target set and the bound framebuffer as they were. -/
theorem step_target_other (H : hashing.StdHash) (api : ApiToEnum) (w w1 : World) (op : Op)
    (h : step H api w op = Except.ok w1) (hb : op.isBeginPass = false) :
    w1.render.sFbo = w.render.sFbo ∧ w1.render.sLastRenderInfo = w.render.sLastRenderInfo ∧
      boundFramebuffer w1.render.glCalls = boundFramebuffer w.render.glCalls := by
  cases op with
  | CompileGraphicsPipeline info => cases h; exact ⟨rfl, rfl, rfl⟩
  | DestroyGraphicsPipeline pipeline => cases h; exact ⟨rfl, rfl, rfl⟩
  | BeginSwapchainRendering renderInfo => cases hb
  | BeginRendering renderInfoAddr renderInfo newFbo => cases hb
  | EndRendering =>
    have h1 := withRender_ok _ _ _ h
    cases hr : w.render.isRendering with
    | false => rw [EndRendering_idle _ hr] at h1; cases h1
    | true =>
      rw [EndRendering_eq _ hr] at h1
      injection h1 with h1
      rw [← h1]
      exact ⟨rfl, rfl, rfl⟩
  | BindGraphicsPipeline pipeline newVao =>
    exact BindGraphicsPipeline_target api _ _ _ _ _ (withRender_ok _ _ _ h)
  | BindVertexBuffer bindingIndex buffer offset stride =>
    have h1 := withRender_ok _ _ _ h
    unfold Cmd.BindVertexBuffer at h1
    split at h1
    · cases h1
    · injection h1 with h1
      rw [← h1]
      exact gl_target _ _ (by simp [GLCall.changesBinding])
  | BindIndexBuffer buffer indexType =>
    have h1 := withRender_ok _ _ _ h
    unfold Cmd.BindIndexBuffer at h1
    split at h1
    · cases h1
    · injection h1 with h1
      rw [← h1]
      exact gl_target _ _ (by simp [GLCall.changesBinding])
  | Draw vertexCount instanceCount firstVertex firstInstance =>
    have h1 := withRender_ok _ _ _ h
    unfold Cmd.Draw at h1
    split at h1
    · cases h1
    · injection h1 with h1
      rw [← h1]
      exact gl_target _ _ (by simp [GLCall.changesBinding])
  | DrawIndexed indexCount instanceCount firstIndex vertexOffset firstInstance =>
    have h1 := withRender_ok _ _ _ h
    unfold Cmd.DrawIndexed at h1
    split at h1
    · cases h1
    · injection h1 with h1
      rw [← h1]
      exact gl_target _ _ (by simp [GLCall.changesBinding])
  | BindUniformBuffer index buffer offset size =>
    have h1 := withRender_ok _ _ _ h
    unfold Cmd.BindUniformBuffer at h1
    split at h1
    · cases h1
    · injection h1 with h1
      rw [← h1]
      exact gl_target _ _ (by simp [GLCall.changesBinding])
  | BindStorageBuffer index buffer offset size =>
    have h1 := withRender_ok _ _ _ h
    unfold Cmd.BindStorageBuffer at h1
    split at h1
    · cases h1
    · injection h1 with h1
      rw [← h1]
      exact gl_target _ _ (by simp [GLCall.changesBinding])
  | BindSampledImage index textureView sampler =>
    have h1 := withRender_ok _ _ _ h
    unfold Cmd.BindSampledImage at h1
    split at h1
    · cases h1
    · injection h1 with h1
      rw [← h1]
      obtain ⟨a1, a2, a3⟩ := gl_target w.render [GLCall.glBindTextureUnit index textureView.handle]
        (by simp [GLCall.changesBinding])
      obtain ⟨b1, b2, b3⟩ := gl_target
        (w.render.gl [GLCall.glBindTextureUnit index textureView.handle])
        [GLCall.glBindSampler index sampler.handle] (by simp [GLCall.changesBinding])
      exact ⟨b1.trans a1, b2.trans a2, b3.trans a3⟩
  | BindImage index textureView level =>
    have h1 := withRender_ok _ _ _ h
    unfold Cmd.BindImage at h1
    split at h1
    · cases h1
    · split at h1
      · cases h1
      · injection h1 with h1
        rw [← h1]
        exact gl_target _ _ (by simp [GLCall.changesBinding])

/-- A successful default-target begin clears the cached render-target set. -/
theorem step_target_swapchain (H : hashing.StdHash) (api : ApiToEnum) (w w1 : World)
    (renderInfo : SwapchainRenderInfo)
    (h : step H api w (Op.BeginSwapchainRendering renderInfo) = Except.ok w1) :
    w1.render.sLastRenderInfo = none := by
  have h1 := withRender_ok _ _ _ h
  cases hr : w.render.isRendering with
  | true => rw [BeginSwapchainRendering_active _ _ hr] at h1; cases h1
  | false =>
    rw [BeginSwapchainRendering_eq _ _ hr] at h1
    injection h1 with h1
    rw [← h1]

/-- A successful custom-target begin caches its render-target set, and either skipped (the set
was cached already, nothing else changed) or reconfigured (the new framebuffer object is the
session's and is bound). -/
theorem step_target_custom (H : hashing.StdHash) (api : ApiToEnum) (w w1 : World)
    (renderInfoAddr : Nat) (renderInfo : RenderInfo) (newFbo : Nat)
    (h : step H api w (Op.BeginRendering renderInfoAddr renderInfo newFbo) = Except.ok w1) :
    w1.render.sLastRenderInfo = some renderInfoAddr ∧
    ((w.render.sLastRenderInfo = some renderInfoAddr ∧ w1.render.sFbo = w.render.sFbo ∧
        w1.render.glCalls = w.render.glCalls) ∨
      (w1.render.sFbo = newFbo ∧ boundFramebuffer w1.render.glCalls = newFbo)) := by
  have h1 := withRender_ok _ _ _ h
  cases hr : w.render.isRendering with
  | true => rw [BeginRendering_active _ _ _ _ _ hr] at h1; cases h1
  | false =>
    by_cases hl : w.render.sLastRenderInfo = some renderInfoAddr
    · rw [BeginRendering_skip api _ _ _ _ hr hl] at h1
      injection h1 with h1
      rw [← h1]
      exact ⟨hl, Or.inl ⟨hl, rfl, rfl⟩⟩
    · rw [BeginRendering_reconfigure api _ _ _ _ hr hl] at h1
      injection h1 with h1
      rw [← h1]
      exact ⟨rfl, Or.inr ⟨rfl, boundFramebuffer_reconfigureCalls api _ _ _ _⟩⟩

/-- Splitting a history that ends in `op` at its most recent custom-target begin: either that
begin is `op` itself, or it lies in the history before `op`. -/
theorem customPassActive_snoc (ops : List Op) (op : Op) (h : CustomPassActive (ops ++ [op])) :
    (∃ renderInfoAddr renderInfo newFbo, op = Op.BeginRendering renderInfoAddr renderInfo newFbo) ∨
    (op.isBeginPass = false ∧ op.isEndPass = false ∧ CustomPassActive ops) := by
  obtain ⟨pre, addr, ri, newFbo, post, hops, hpost⟩ := h
  rcases List.eq_nil_or_concat post with hnil | ⟨post0, last, hlast⟩
  · subst hnil
    have hsplit : ops ++ [op] = pre ++ [Op.BeginRendering addr ri newFbo] := hops
    have hop := (List.append_inj' hsplit rfl).2
    injection hop with hop
    exact Or.inl ⟨addr, ri, newFbo, hop⟩
  · subst hlast
    rw [List.concat_eq_append] at hops hpost
    have hsplit : ops ++ [op] = (pre ++ Op.BeginRendering addr ri newFbo :: post0) ++ [last] := by
      rw [hops, List.append_assoc, List.cons_append]
    obtain ⟨hops0, hop⟩ := List.append_inj' hsplit rfl
    injection hop with hop
    have hl := hpost last (List.mem_append.mpr (Or.inr (List.mem_singleton.mpr rfl)))
    rw [← hop] at hl
    exact Or.inr ⟨hl.1, hl.2, pre, addr, ri, newFbo, post0, hops0,
      fun o ho => hpost o (List.mem_append.mpr (Or.inl ho))⟩

/-- The invariant of the render target along every run from program start in which the driver
never hands out the framebuffer name 0: while a render-target set is cached, the bound
framebuffer is the session's framebuffer object and is not the default one; and while a
custom-target pass is active a render-target set is cached. -/
theorem run_target_invariant (H : hashing.StdHash) (api : ApiToEnum) (ops : List Op) :
    ∀ w : World, run H api initialWorld ops = Except.ok w →
      (∀ o ∈ ops, o.freshFramebufferNonzero = true) →
      (w.render.sLastRenderInfo ≠ none →
        boundFramebuffer w.render.glCalls = w.render.sFbo ∧ w.render.sFbo ≠ 0) ∧
      (CustomPassActive ops → w.render.sLastRenderInfo ≠ none) := by
  induction ops using List.reverseRecOn with
  | nil =>
    intro w h _
    cases h
    refine ⟨fun hne => absurd rfl hne, fun hact => ?_⟩
    obtain ⟨pre, addr, ri, newFbo, post, hops, _⟩ := hact
    cases pre <;> cases hops
  | append_singleton ops op ih =>
    intro w h hfresh
    obtain ⟨w0, hrun, hstep⟩ := run_append_singleton_ok H api ops op initialWorld w h
    obtain ⟨ih1, ih2⟩ := ih w0 hrun
      (fun o ho => hfresh o (List.mem_append.mpr (Or.inl ho)))
    have hop := hfresh op (List.mem_append.mpr (Or.inr (List.mem_singleton.mpr rfl)))
    cases op with
    | BeginSwapchainRendering renderInfo =>
      have hnone := step_target_swapchain H api w0 w renderInfo hstep
      refine ⟨fun hne => absurd hnone hne, fun hact => ?_⟩
      rcases customPassActive_snoc ops _ hact with ⟨a, r, f, hx⟩ | ⟨hb, _, _⟩
      · cases hx
      · cases hb
    | BeginRendering renderInfoAddr renderInfo newFbo =>
      obtain ⟨hsome, hcase⟩ := step_target_custom H api w0 w renderInfoAddr renderInfo newFbo hstep
      have hnz : newFbo ≠ 0 := by simpa [Op.freshFramebufferNonzero] using hop
      refine ⟨fun _ => ?_, fun _ => by rw [hsome]; simp⟩
      rcases hcase with ⟨hl, hf, hg⟩ | ⟨hf, hg⟩
      · have h0 := ih1 (by rw [hl]; simp)
        rw [hf, hg]
        exact h0
      · rw [hf, hg]
        exact ⟨rfl, hnz⟩
    | EndRendering =>
      obtain ⟨hf, hl, hg⟩ := step_target_other H api w0 w _ hstep rfl
      refine ⟨fun hne => ?_, fun hact => ?_⟩
      · rw [hf, hg]
        exact ih1 (by rw [← hl]; exact hne)
      · rcases customPassActive_snoc ops _ hact with ⟨a, r, f, hx⟩ | ⟨_, he, _⟩
        · cases hx
        · cases he
    | CompileGraphicsPipeline info =>
      obtain ⟨hf, hl, hg⟩ := step_target_other H api w0 w _ hstep rfl
      refine ⟨fun hne => ?_, fun hact => ?_⟩
      · rw [hf, hg]
        exact ih1 (by rw [← hl]; exact hne)
      · rcases customPassActive_snoc ops _ hact with ⟨a, r, f, hx⟩ | ⟨_, _, hact0⟩
        · cases hx
        · rw [hl]; exact ih2 hact0
    | DestroyGraphicsPipeline pipeline =>
      obtain ⟨hf, hl, hg⟩ := step_target_other H api w0 w _ hstep rfl
      refine ⟨fun hne => ?_, fun hact => ?_⟩
      · rw [hf, hg]
        exact ih1 (by rw [← hl]; exact hne)
      · rcases customPassActive_snoc ops _ hact with ⟨a, r, f, hx⟩ | ⟨_, _, hact0⟩
        · cases hx
        · rw [hl]; exact ih2 hact0
    | BindGraphicsPipeline pipeline newVao =>
      obtain ⟨hf, hl, hg⟩ := step_target_other H api w0 w _ hstep rfl
      refine ⟨fun hne => ?_, fun hact => ?_⟩
      · rw [hf, hg]
        exact ih1 (by rw [← hl]; exact hne)
      · rcases customPassActive_snoc ops _ hact with ⟨a, r, f, hx⟩ | ⟨_, _, hact0⟩
        · cases hx
        · rw [hl]; exact ih2 hact0
    | BindVertexBuffer bindingIndex buffer offset stride =>
      obtain ⟨hf, hl, hg⟩ := step_target_other H api w0 w _ hstep rfl
      refine ⟨fun hne => ?_, fun hact => ?_⟩
      · rw [hf, hg]
        exact ih1 (by rw [← hl]; exact hne)
      · rcases customPassActive_snoc ops _ hact with ⟨a, r, f, hx⟩ | ⟨_, _, hact0⟩
        · cases hx
        · rw [hl]; exact ih2 hact0
    | BindIndexBuffer buffer indexType =>
      obtain ⟨hf, hl, hg⟩ := step_target_other H api w0 w _ hstep rfl
      refine ⟨fun hne => ?_, fun hact => ?_⟩
      · rw [hf, hg]
        exact ih1 (by rw [← hl]; exact hne)
      · rcases customPassActive_snoc ops _ hact with ⟨a, r, f, hx⟩ | ⟨_, _, hact0⟩
        · cases hx
        · rw [hl]; exact ih2 hact0
    | Draw vertexCount instanceCount firstVertex firstInstance =>
      obtain ⟨hf, hl, hg⟩ := step_target_other H api w0 w _ hstep rfl
      refine ⟨fun hne => ?_, fun hact => ?_⟩
      · rw [hf, hg]
        exact ih1 (by rw [← hl]; exact hne)
      · rcases customPassActive_snoc ops _ hact with ⟨a, r, f, hx⟩ | ⟨_, _, hact0⟩
        · cases hx
        · rw [hl]; exact ih2 hact0
    | DrawIndexed indexCount instanceCount firstIndex vertexOffset firstInstance =>
      obtain ⟨hf, hl, hg⟩ := step_target_other H api w0 w _ hstep rfl
      refine ⟨fun hne => ?_, fun hact => ?_⟩
      · rw [hf, hg]
        exact ih1 (by rw [← hl]; exact hne)
      · rcases customPassActive_snoc ops _ hact with ⟨a, r, f, hx⟩ | ⟨_, _, hact0⟩
        · cases hx
        · rw [hl]; exact ih2 hact0
    | BindUniformBuffer index buffer offset size =>
      obtain ⟨hf, hl, hg⟩ := step_target_other H api w0 w _ hstep rfl
      refine ⟨fun hne => ?_, fun hact => ?_⟩
      · rw [hf, hg]
        exact ih1 (by rw [← hl]; exact hne)
      · rcases customPassActive_snoc ops _ hact with ⟨a, r, f, hx⟩ | ⟨_, _, hact0⟩
        · cases hx
        · rw [hl]; exact ih2 hact0
    | BindStorageBuffer index buffer offset size =>
      obtain ⟨hf, hl, hg⟩ := step_target_other H api w0 w _ hstep rfl
      refine ⟨fun hne => ?_, fun hact => ?_⟩
      · rw [hf, hg]
        exact ih1 (by rw [← hl]; exact hne)
      · rcases customPassActive_snoc ops _ hact with ⟨a, r, f, hx⟩ | ⟨_, _, hact0⟩
        · cases hx
        · rw [hl]; exact ih2 hact0
    | BindSampledImage index textureView sampler =>
      obtain ⟨hf, hl, hg⟩ := step_target_other H api w0 w _ hstep rfl
      refine ⟨fun hne => ?_, fun hact => ?_⟩
      · rw [hf, hg]
        exact ih1 (by rw [← hl]; exact hne)
      · rcases customPassActive_snoc ops _ hact with ⟨a, r, f, hx⟩ | ⟨_, _, hact0⟩
        · cases hx
        · rw [hl]; exact ih2 hact0
    | BindImage index textureView level =>
      obtain ⟨hf, hl, hg⟩ := step_target_other H api w0 w _ hstep rfl
      refine ⟨fun hne => ?_, fun hact => ?_⟩
      · rw [hf, hg]
        exact ih1 (by rw [← hl]; exact hne)
      · rcases customPassActive_snoc ops _ hact with ⟨a, r, f, hx⟩ | ⟨_, _, hact0⟩
        · cases hx
        · rw [hl]; exact ih2 hact0

end GFX

namespace GFX

/-- The calls of a reconfiguration end with the bind of the new framebuffer object. -/
theorem reconfigureCalls_ends_with_bind (api : ApiToEnum) (oldFbo newFbo : Nat)
    (ri : RenderInfo) :
    ∃ front, reconfigureCalls api oldFbo newFbo ri =
      front ++ [GLCall.glBindFramebuffer GL_FRAMEBUFFER newFbo] :=
  ⟨[GLCall.glDeleteFramebuffers oldFbo, GLCall.glCreateFramebuffers newFbo] ++
    (attachColorLoop newFbo 0 ri.colorAttachments).1 ++
    [GLCall.glNamedFramebufferDrawBuffers newFbo
      (attachColorLoop newFbo 0 ri.colorAttachments).2.length
      (attachColorLoop newFbo 0 ri.colorAttachments).2] ++
    clearColorLoop api newFbo 0 ri.colorAttachments ++
    attachDepthStencil newFbo ri ++
    clearDepthStencil newFbo ri ++
    [GLCall.glViewport ri.viewport.offsetX ri.viewport.offsetY ri.viewport.extentWidth
       ri.viewport.extentHeight,
     GLCall.glDepthRangef ri.viewport.minDepth ri.viewport.maxDepth],
   by unfold reconfigureCalls; simp⟩

/-- C19: a default-target begin invalidates the cached render-target set. For every idle session
state and every render-target set, the sequence `BeginRendering(rt)`, `EndRendering`,
`BeginSwapchainRendering`, `EndRendering`, `BeginRendering(rt)` runs, and its last begin emits
exactly the calls of a full reconfiguration (framebuffer rebuild, attachments, clears, viewport,
depth range), ending with the bind of the rebuilt framebuffer, which is the session's
framebuffer object afterwards. And along every run from program start in which the driver never
hands out the framebuffer name 0, whenever a custom-target pass is active the bound framebuffer
is the session's framebuffer object and is not the default one. -/
theorem C19_swapchain_invalidates_target_cache (H : hashing.StdHash) (api : ApiToEnum) :
    (∀ (s : RenderState) (addr : Nat) (ri : RenderInfo) (swapchainInfo : SwapchainRenderInfo)
      (newFbo1 newFbo2 : Nat), s.isRendering = false →
      ∃ s1 s2 s3 s4 s5, BeginRendering api s addr ri newFbo1 = Except.ok s1 ∧
        EndRendering s1 = Except.ok s2 ∧
        BeginSwapchainRendering s2 swapchainInfo = Except.ok s3 ∧
        EndRendering s3 = Except.ok s4 ∧
        BeginRendering api s4 addr ri newFbo2 = Except.ok s5 ∧
        s5.glCalls = s4.glCalls ++ reconfigureCalls api s4.sFbo newFbo2 ri ∧
        (∃ front, reconfigureCalls api s4.sFbo newFbo2 ri =
          front ++ [GLCall.glBindFramebuffer GL_FRAMEBUFFER newFbo2]) ∧
        s5.sFbo = newFbo2 ∧ boundFramebuffer s5.glCalls = newFbo2) ∧
    (∀ (ops : List Op) (w : World), run H api initialWorld ops = Except.ok w →
      (∀ o ∈ ops, o.freshFramebufferNonzero = true) → CustomPassActive ops →
      boundFramebuffer w.render.glCalls = w.render.sFbo ∧ w.render.sFbo ≠ 0) := by
  refine ⟨fun s addr ri swapchainInfo newFbo1 newFbo2 hidle => ?_,
    fun ops w hrun hfresh hact => ?_⟩
  · obtain ⟨s1, hs1, hact1, _, _, _⟩ := BeginRendering_idle api s addr ri newFbo1 hidle
    obtain ⟨s2, hs2, hidle2, _, _⟩ := EndRendering_active s1 hact1
    obtain ⟨s3, hs3, hact3, _, _, hnone3⟩ :=
      BeginSwapchainRendering_idle s2 swapchainInfo hidle2
    have hs4 := EndRendering_eq s3 hact3
    have hl3 : s3.sLastRenderInfo ≠ some addr := by
      rw [hnone3]
      simp
    have hs5 := BeginRendering_reconfigure api
      { s3 with
        isPipelineBound := false
        isRendering := false
        isIndexBufferBound := false }
      addr ri newFbo2 rfl hl3
    refine ⟨s1, s2, s3, _, _, hs1, hs2, hs3, hs4, hs5, rfl, ?_, rfl, ?_⟩
    · exact reconfigureCalls_ends_with_bind api _ newFbo2 ri
    · exact boundFramebuffer_reconfigureCalls api _ _ _ _
  · obtain ⟨inv1, inv2⟩ := run_target_invariant H api ops w hrun hfresh
    exact inv1 (inv2 hact)

/-- C19 at a concrete input: a custom-target pass, a default-target pass and a custom-target
pass on the same render-target set, from program start, with the driver handing out the
framebuffer names 1 and 2; afterwards framebuffer 2 is bound. -/
theorem C19_swapchain_invalidates_target_cache_witness :
    run hashing.libcxxHash sampleApi initialWorld customSwapchainCustomOps =
      Except.ok customSwapchainCustomWorld ∧
    (∀ o ∈ customSwapchainCustomOps, o.freshFramebufferNonzero = true) ∧
    CustomPassActive customSwapchainCustomOps ∧
    boundFramebuffer customSwapchainCustomWorld.render.glCalls =
      customSwapchainCustomWorld.render.sFbo ∧
    customSwapchainCustomWorld.render.sFbo ≠ 0 := by
  have hfresh : ∀ o ∈ customSwapchainCustomOps, o.freshFramebufferNonzero = true := by decide
  have hact : CustomPassActive customSwapchainCustomOps :=
    ⟨[Op.BeginRendering 4096 sampleRenderInfo 1, Op.EndRendering,
      Op.BeginSwapchainRendering sampleSwapchainInfo, Op.EndRendering],
      4096, sampleRenderInfo, 2, [], rfl, fun o ho => by cases ho⟩
  exact ⟨rfl, hfresh, hact,
    (C19_swapchain_invalidates_target_cache hashing.libcxxHash sampleApi).2
      customSwapchainCustomOps customSwapchainCustomWorld rfl hfresh hact⟩

end GFX

namespace GFX

/-! ## The last-bound handle over a run -/

/-- The most recent bind of a history extended by one operation. -/
theorem lastBound_append_singleton (ops : List Op) (op : Op) :
    lastBound (ops ++ [op]) =
      match op.boundPipeline with
      | some pipeline => some pipeline
      | none => lastBound ops := by
  unfold lastBound
  rw [List.filterMap_append]
  cases hb : op.boundPipeline with
  | none => simp [List.filterMap_cons, hb]
  | some p => simp [List.filterMap_cons, hb]

/-- `Cmd::BindGraphicsPipeline`, when it returns, has left its argument in
`sLastGraphicsPipeline`: on the skip it was there already, otherwise it is stored. -/
theorem BindGraphicsPipeline_last (api : ApiToEnum) (gPipelines : detail.PipelineMap)
    (s s1 : RenderState) (pipeline : GraphicsPipeline) (newVao : Nat)
    (h : Cmd.BindGraphicsPipeline api gPipelines s pipeline newVao = Except.ok s1) :
    s1.sLastGraphicsPipeline = pipeline := by
  cases hg : detail.GetGraphicsPipelineInternal gPipelines pipeline with
  | none =>
    rw [Cmd.BindGraphicsPipeline_unknown api gPipelines s pipeline newVao hg] at h
    cases h
  | some c =>
    by_cases hl : s.sLastGraphicsPipeline = pipeline
    · rw [Cmd.BindGraphicsPipeline_skip api gPipelines s pipeline newVao c hg hl] at h
      cases h
      exact hl
    · rw [Cmd.BindGraphicsPipeline_apply api gPipelines s pipeline newVao c hg hl] at h
      cases h
      rfl

/-- A successful step leaves `sLastGraphicsPipeline` as it was, unless the operation is
`Cmd::BindGraphicsPipeline`, which leaves its argument there. -/
theorem step_last (H : hashing.StdHash) (api : ApiToEnum) (w w1 : World) (op : Op)
    (h : step H api w op = Except.ok w1) :
    w1.render.sLastGraphicsPipeline =
      match op.boundPipeline with
      | some pipeline => pipeline
      | none => w.render.sLastGraphicsPipeline := by
  cases op with
  | CompileGraphicsPipeline info => cases h; rfl
  | DestroyGraphicsPipeline pipeline => cases h; rfl
  | BeginSwapchainRendering renderInfo =>
    have h1 := withRender_ok _ _ _ h
    cases hr : w.render.isRendering with
    | true => rw [BeginSwapchainRendering_active _ _ hr] at h1; cases h1
    | false =>
      rw [BeginSwapchainRendering_eq _ _ hr] at h1
      injection h1 with h1
      rw [← h1]
      rfl
  | BeginRendering renderInfoAddr renderInfo newFbo =>
    have h1 := withRender_ok _ _ _ h
    cases hr : w.render.isRendering with
    | true => rw [BeginRendering_active _ _ _ _ _ hr] at h1; cases h1
    | false =>
      by_cases hl : w.render.sLastRenderInfo = some renderInfoAddr
      · rw [BeginRendering_skip _ _ _ _ _ hr hl] at h1
        injection h1 with h1
        rw [← h1]
        rfl
      · rw [BeginRendering_reconfigure _ _ _ _ _ hr hl] at h1
        injection h1 with h1
        rw [← h1]
        rfl
  | EndRendering =>
    have h1 := withRender_ok _ _ _ h
    cases hr : w.render.isRendering with
    | false => rw [EndRendering_idle _ hr] at h1; cases h1
    | true =>
      rw [EndRendering_eq _ hr] at h1
      injection h1 with h1
      rw [← h1]
      rfl
  | BindGraphicsPipeline pipeline newVao =>
    exact BindGraphicsPipeline_last api _ _ _ _ _ (withRender_ok _ _ _ h)
  | BindVertexBuffer bindingIndex buffer offset stride =>
    have h1 := withRender_ok _ _ _ h
    unfold Cmd.BindVertexBuffer at h1
    split at h1
    · cases h1
    · injection h1 with h1
      rw [← h1]
      rfl
  | BindIndexBuffer buffer indexType =>
    have h1 := withRender_ok _ _ _ h
    unfold Cmd.BindIndexBuffer at h1
    split at h1
    · cases h1
    · injection h1 with h1
      rw [← h1]
      rfl
  | Draw vertexCount instanceCount firstVertex firstInstance =>
    have h1 := withRender_ok _ _ _ h
    unfold Cmd.Draw at h1
    split at h1
    · cases h1
    · injection h1 with h1
      rw [← h1]
      rfl
  | DrawIndexed indexCount instanceCount firstIndex vertexOffset firstInstance =>
    have h1 := withRender_ok _ _ _ h
    unfold Cmd.DrawIndexed at h1
    split at h1
    · cases h1
    · injection h1 with h1
      rw [← h1]
      rfl
  | BindUniformBuffer index buffer offset size =>
    have h1 := withRender_ok _ _ _ h
    unfold Cmd.BindUniformBuffer at h1
    split at h1
    · cases h1
    · injection h1 with h1
      rw [← h1]
      rfl
  | BindStorageBuffer index buffer offset size =>
    have h1 := withRender_ok _ _ _ h
    unfold Cmd.BindStorageBuffer at h1
    split at h1
    · cases h1
    · injection h1 with h1
      rw [← h1]
      rfl
  | BindSampledImage index textureView sampler =>
    have h1 := withRender_ok _ _ _ h
    unfold Cmd.BindSampledImage at h1
    split at h1
    · cases h1
    · injection h1 with h1
      rw [← h1]
      rfl
  | BindImage index textureView level =>
    have h1 := withRender_ok _ _ _ h
    unfold Cmd.BindImage at h1
    split at h1
    · cases h1
    · split at h1
      · cases h1
      · injection h1 with h1
        rw [← h1]
        rfl

/-- After a run from program start, `sLastGraphicsPipeline` holds the handle of the most recent
`Cmd::BindGraphicsPipeline` call, and its initial value when there was no such call. -/
theorem run_last (H : hashing.StdHash) (api : ApiToEnum) (ops : List Op) :
    ∀ w, run H api initialWorld ops = Except.ok w →
      w.render.sLastGraphicsPipeline =
        match lastBound ops with
        | some pipeline => pipeline
        | none => initialRenderState.sLastGraphicsPipeline := by
  induction ops using List.reverseRecOn with
  | nil =>
    intro w h
    cases h
    rfl
  | append_singleton ops op ih =>
    intro w h
    obtain ⟨w0, h0, hs⟩ := run_append_singleton_ok H api ops op initialWorld w h
    rw [step_last H api w0 w op hs, lastBound_append_singleton, ih w0 h0]
    cases op.boundPipeline <;> rfl

open hashing

/-- C11, as stated, fails: in the session state reached by binding the sample handle once, the
handle is registered and is the last-bound one, and two further consecutive binds of it both
return without emitting any call, so the state-application logic runs zero times in the two
calls. -/
theorem C11_rebind_applies_nothing :
    detail.GetGraphicsPipelineInternal sampleRegistry sampleHandle ≠ none ∧
    ∃ s1 s2,
      Cmd.BindGraphicsPipeline sampleApi sampleRegistry boundRenderState sampleHandle 2 =
        Except.ok s1 ∧
      Cmd.BindGraphicsPipeline sampleApi sampleRegistry s1 sampleHandle 3 = Except.ok s2 ∧
      s1.glCalls = boundRenderState.glCalls ∧ s2.glCalls = boundRenderState.glCalls :=
  ⟨by decide, _, _, rfl, rfl, rfl, rfl⟩

/-- C11, amended: after every run from program start and for every handle `h` present in the
registry, take two consecutive binds of `h`. If the most recent `Cmd::BindGraphicsPipeline` call
of the run was for a handle other than `h`, or the run holds no such call and the id of `h` is
not 0, the first bind emits exactly the state-setting calls for the stored pipeline of `h`
(which start with the program activation) and the second returns the same state again: it emits
no call. If the most recent call was for `h` itself, the first bind emits no call and the second
returns the same state again. -/
theorem C11_bind_twice_applies_once (H : StdHash) (api : ApiToEnum) (ops : List Op) (w : World)
    (h : GraphicsPipeline) (c : GraphicsPipelineInfoOwning) (newVao1 newVao2 : Nat)
    (hrun : run H api initialWorld ops = Except.ok w)
    (hreg : detail.GetGraphicsPipelineInternal w.gPipelines h = some c) :
    ((∃ g, lastBound ops = some g ∧ g ≠ h) ∨ (lastBound ops = none ∧ h.id ≠ 0) →
      ∃ s1, Cmd.BindGraphicsPipeline api w.gPipelines w.render h newVao1 = Except.ok s1 ∧
        s1.glCalls = w.render.glCalls ++ Cmd.pipelineStateCalls api c w.render.sVao newVao1 ∧
        (∃ rest, Cmd.pipelineStateCalls api c w.render.sVao newVao1 =
          GLCall.glUseProgram c.shaderProgram :: rest) ∧
        Cmd.BindGraphicsPipeline api w.gPipelines s1 h newVao2 = Except.ok s1) ∧
    (lastBound ops = some h →
      ∃ s1, Cmd.BindGraphicsPipeline api w.gPipelines w.render h newVao1 = Except.ok s1 ∧
        s1.glCalls = w.render.glCalls ∧
        Cmd.BindGraphicsPipeline api w.gPipelines s1 h newVao2 = Except.ok s1) := by
  have hlast := run_last H api ops w hrun
  refine ⟨fun hcase => ?_, fun hsame => ?_⟩
  · have hne : w.render.sLastGraphicsPipeline ≠ h := by
      rcases hcase with ⟨g, hg, hgh⟩ | ⟨hnone, hid⟩
      · rw [hg] at hlast
        rw [hlast]
        exact hgh
      · rw [hnone] at hlast
        rw [hlast]
        intro he
        exact hid (congrArg GraphicsPipeline.id he).symm
    refine ⟨_, Cmd.BindGraphicsPipeline_apply api w.gPipelines w.render h newVao1 c hreg hne,
      rfl, ⟨_, rfl⟩, ?_⟩
    rw [Cmd.BindGraphicsPipeline_skip api w.gPipelines _ h newVao2 c hreg rfl]
  · rw [hsame] at hlast
    refine ⟨_, Cmd.BindGraphicsPipeline_skip api w.gPipelines w.render h newVao1 c hreg hlast,
      rfl, ?_⟩
    exact Cmd.BindGraphicsPipeline_skip api w.gPipelines _ h newVao2 c hreg hlast

/-- C11, amended, at three concrete inputs, each with the sample handle registered: after only
compiling (no bind made before, id of the handle not 0) and after binding another handle, the
first bind applies the state and the second emits nothing; after binding the sample handle
itself, neither bind emits a call. -/
theorem C11_bind_twice_applies_once_witness :
    (run libcxxHash sampleApi initialWorld compileOnlyOps = Except.ok compileOnlyWorld ∧
      detail.GetGraphicsPipelineInternal compileOnlyWorld.gPipelines sampleHandle =
        some (detail.MakePipelineInfoOwning (sampleInfo [descP, descQ])) ∧
      lastBound compileOnlyOps = none ∧ sampleHandle.id ≠ 0 ∧
      ∃ s1, Cmd.BindGraphicsPipeline sampleApi compileOnlyWorld.gPipelines
          compileOnlyWorld.render sampleHandle 1 = Except.ok s1 ∧
        s1.glCalls = compileOnlyWorld.render.glCalls ++
          Cmd.pipelineStateCalls sampleApi
            (detail.MakePipelineInfoOwning (sampleInfo [descP, descQ]))
            compileOnlyWorld.render.sVao 1 ∧
        (∃ rest, Cmd.pipelineStateCalls sampleApi
            (detail.MakePipelineInfoOwning (sampleInfo [descP, descQ]))
            compileOnlyWorld.render.sVao 1 =
          GLCall.glUseProgram
            (detail.MakePipelineInfoOwning (sampleInfo [descP, descQ])).shaderProgram :: rest) ∧
        Cmd.BindGraphicsPipeline sampleApi compileOnlyWorld.gPipelines s1 sampleHandle 2 =
          Except.ok s1) ∧
    (run libcxxHash sampleApi initialWorld bindOtherOps = Except.ok bindOtherWorld ∧
      detail.GetGraphicsPipelineInternal bindOtherWorld.gPipelines sampleHandle =
        some (detail.MakePipelineInfoOwning (sampleInfo [descP, descQ])) ∧
      lastBound bindOtherOps = some otherHandle ∧ otherHandle ≠ sampleHandle ∧
      ∃ s1, Cmd.BindGraphicsPipeline sampleApi bindOtherWorld.gPipelines
          bindOtherWorld.render sampleHandle 2 = Except.ok s1 ∧
        s1.glCalls = bindOtherWorld.render.glCalls ++
          Cmd.pipelineStateCalls sampleApi
            (detail.MakePipelineInfoOwning (sampleInfo [descP, descQ]))
            bindOtherWorld.render.sVao 2 ∧
        (∃ rest, Cmd.pipelineStateCalls sampleApi
            (detail.MakePipelineInfoOwning (sampleInfo [descP, descQ]))
            bindOtherWorld.render.sVao 2 =
          GLCall.glUseProgram
            (detail.MakePipelineInfoOwning (sampleInfo [descP, descQ])).shaderProgram :: rest) ∧
        Cmd.BindGraphicsPipeline sampleApi bindOtherWorld.gPipelines s1 sampleHandle 3 =
          Except.ok s1) ∧
    (run libcxxHash sampleApi initialWorld bindThenSwapchainOps =
        Except.ok bindThenSwapchainWorld ∧
      detail.GetGraphicsPipelineInternal bindThenSwapchainWorld.gPipelines sampleHandle =
        some (detail.MakePipelineInfoOwning (sampleInfo [descP, descQ])) ∧
      lastBound bindThenSwapchainOps = some sampleHandle ∧
      ∃ s1, Cmd.BindGraphicsPipeline sampleApi bindThenSwapchainWorld.gPipelines
          bindThenSwapchainWorld.render sampleHandle 2 = Except.ok s1 ∧
        s1.glCalls = bindThenSwapchainWorld.render.glCalls ∧
        Cmd.BindGraphicsPipeline sampleApi bindThenSwapchainWorld.gPipelines s1 sampleHandle 3 =
          Except.ok s1) :=
  ⟨⟨rfl, by decide, rfl, by decide,
      (C11_bind_twice_applies_once libcxxHash sampleApi compileOnlyOps compileOnlyWorld
        sampleHandle (detail.MakePipelineInfoOwning (sampleInfo [descP, descQ])) 1 2 rfl
        (by decide)).1 (Or.inr ⟨rfl, by decide⟩)⟩,
    ⟨rfl, by decide, rfl, by decide,
      (C11_bind_twice_applies_once libcxxHash sampleApi bindOtherOps bindOtherWorld
        sampleHandle (detail.MakePipelineInfoOwning (sampleInfo [descP, descQ])) 2 3 rfl
        (by decide)).1 (Or.inl ⟨otherHandle, rfl, by decide⟩)⟩,
    ⟨rfl, by decide, rfl,
      (C11_bind_twice_applies_once libcxxHash sampleApi bindThenSwapchainOps
        bindThenSwapchainWorld sampleHandle
        (detail.MakePipelineInfoOwning (sampleInfo [descP, descQ])) 2 3 rfl (by decide)).2 rfl⟩⟩

/-- The first bind of a handle with id 0, the case left open above. The handle of `zeroIdInfo`
under the libc++ hash has id 0, the value `sLastGraphicsPipeline` is initialised with. After
compiling `zeroIdInfo` and beginning a pass, with no bind made before, the handle is registered,
and binding it returns without emitting a call: the stored pipeline state is not applied. -/
theorem bind_zero_id_first_emits_nothing :
    detail.HashPipelineInfo libcxxHash zeroIdInfo = { id := 0 } ∧
    run libcxxHash sampleApi initialWorld zeroIdOps = Except.ok zeroIdWorld ∧
    lastBound zeroIdOps = none ∧
    detail.GetGraphicsPipelineInternal zeroIdWorld.gPipelines { id := 0 } ≠ none ∧
    ∃ s1, Cmd.BindGraphicsPipeline sampleApi zeroIdWorld.gPipelines zeroIdWorld.render
        { id := 0 } 1 = Except.ok s1 ∧
      s1.glCalls = zeroIdWorld.render.glCalls :=
  ⟨by decide, rfl, rfl, by decide, _, rfl, rfl⟩

end GFX
